import Mathlib

/-!
# FlexBar Spotify plugin: the dual-cadence now-playing engine

A shallow embedding of `src/canvasRenderer.js` (the interpolated render pass
`renderInterpolatedNowPlaying`, the poll `updateNowPlayingKey`, the timer set-up
`startOrRestartNowPlayingUpdates` with its two timer callbacks, the key
initialisation `initializeNowPlayingKey`, and the album-art loop, progress
bar and time text of `createModernNowPlayingCanvas`) and of
`src/loggerWrapper.js`.

Conventions of the embedding.
* JavaScript numbers that hold millisecond counts and pixel sizes are `Int`;
  the one division (the progress-bar ratio) is carried out in `ℚ`.
* `null` / `undefined` / string values of an identifier are kept apart (`JsId`),
  because the code compares them with `!==`.
* Every `await` is a point where other callbacks may run; the state change they
  make is an explicit `World → World` field of the environment of the call.
* Calls to collaborators (host drawing, Spotify API, image loader) are
  returned as a list of `Event`s, in program order; the interval timers of the
  runtime are part of the state.
* The renderer is reached through the binding `renderer`, which the module
  obtains by requiring itself (line 5). Whether the call through it throws is
  part of the environment of a render pass (`RenderEnv.imageThrows`); in the
  module as `require` loads it the call always throws (`RenderEnv.asLoaded`).
-/

set_option autoImplicit false

namespace FlexBarSpotify

/-! ## JavaScript values -/

/-- The value of an identifier-like field: `undefined`, `null` or a string. -/
inductive JsId where
  | undefined
  | null
  | str (s : String)
  deriving DecidableEq, Repr

/-- JavaScript truthiness of a `JsId`: only a non-empty string is truthy. -/
def JsId.truthy : JsId → Bool
  | .str s => !(s == "")
  | _ => false

/-- The result of awaiting a collaborator: it threw (rejected) or returned. -/
inductive Outcome (α : Type) where
  | threw
  | returned (a : α)
  deriving DecidableEq, Repr

/-! ## Interpolator (`renderInterpolatedNowPlaying`, lines 682-701) -/

/-- The `estimatedProgress` computed by `renderInterpolatedNowPlaying`:
`isPlaying` is the global playing flag, the three stored numbers come from the
key, `now` is `Date.now()`. -/
def estimatedProgress (isPlaying : Bool)
    (progressAtLastUpdate lastApiUpdateTime durationMs now : Int) : Int :=
  if isPlaying && decide (lastApiUpdateTime > 0) && decide (durationMs > 0) then
    let elapsed := now - lastApiUpdateTime
    let estimated := progressAtLastUpdate + elapsed
    let estimated := if estimated > durationMs then durationMs else estimated
    let estimated := if estimated < 0 then 0 else estimated
    estimated
  else if !isPlaying then
    progressAtLastUpdate
  else
    0

/-- The `clamp(x, lo, hi)` of the specification's interpolator. -/
def clamp (x lo hi : Int) : Int := max lo (min x hi)

/-! ## Data model -/

/-- The `item` of a playback response: the fields the code reads.
`albumArtUrl` is `item.album?.images?.[0]?.url` (`none` when any link of that
chain is missing). -/
structure Track where
  id : JsId
  name : String
  artists : List String
  duration_ms : Int
  albumArtUrl : Option String
  deriving DecidableEq, Repr

/-- The object returned by `spotifyApi.getCurrentPlayback()`. -/
structure Playback where
  item : Option Track
  is_playing : Bool
  progress_ms : Int
  deriving DecidableEq, Repr

/-- The module-level record `currentPlaybackState` (lines 638-648). -/
structure PlaybackState where
  trackId : JsId
  isLiked : Option Bool
  lastCheckedTrackId : JsId
  isActive : Bool
  isPlaying : Bool
  progressAtLastUpdate : Int
  lastApiUpdateTime : Int
  durationMs : Int
  deriving DecidableEq, Repr

/-- The initial value of `currentPlaybackState`. -/
def currentPlaybackState : PlaybackState :=
  { trackId := .null, isLiked := none, lastCheckedTrackId := .null,
    isActive := false, isPlaying := false,
    progressAtLastUpdate := 0, lastApiUpdateTime := 0, durationMs := 0 }

/-- The `data` object of a key. A now-playing key uses the configuration and
interpolation fields, a like key uses `currentTrackId` and `isLiked`.
`timeFontSize = none` stands for `NaN`. -/
structure KeyData where
  updateInterval : Int
  interpolationIntervalMs : Int
  showArtist : Bool
  showProgress : Bool
  showTitle : Bool
  showPlayPause : Bool
  showTimeInfo : Bool
  titleFontSize : Int
  artistFontSize : Int
  timeFontSize : Option Int
  currentTrackDetails : Option Track
  lastApiUpdateTime : Int
  progressAtLastUpdate : Int
  durationMs : Int
  interpolationIntervalId : Option Nat
  currentTrackId : JsId
  isLiked : Option Bool
  deriving DecidableEq, Repr

/-- The object `{}` that line 1002 installs when a like key has no `data`. -/
def emptyKeyData : KeyData :=
  { updateInterval := 0, interpolationIntervalMs := 0, showArtist := false,
    showProgress := false, showTitle := false, showPlayPause := false,
    showTimeInfo := false, titleFontSize := 0, artistFontSize := 0,
    timeFontSize := none, currentTrackDetails := none, lastApiUpdateTime := 0,
    progressAtLastUpdate := 0, durationMs := 0, interpolationIntervalId := none,
    currentTrackId := .undefined, isLiked := none }

/-- A key object as held in `keyManager.keyData`. `cid` is the key type,
`width = none` stands for a missing width. Colours (`style`) are not modelled. -/
structure Key where
  uid : String
  cid : String
  width : Option Int
  data : Option KeyData
  deriving DecidableEq, Repr

/-- The two interval timers of a now-playing key. -/
inductive TimerKind where
  | apiFetch
  | interpolation
  deriving DecidableEq, Repr

/-- A live `setInterval` timer: its handle, what it runs and its period. -/
structure Timer where
  id : Nat
  kind : TimerKind
  serialNumber : String
  keyUid : String
  period : Int
  deriving DecidableEq, Repr

/-- The state of `keyManager` (`keyData` by key UID, `activeKeys` and
`keyIntervals` by key id) together with the live interval timers of the
runtime, which `keyManager` and the engine both start and clear. -/
structure KeyManager where
  keyData : String → Option Key
  activeKeys : List (String × Bool)
  keyIntervals : String → Option Nat
  timers : List Timer
  nextTimerId : Nat

/-- The mutable state the engine works on: the `keyManager` state and the
`currentPlaybackState` record, which is private to `canvasRenderer.js`. -/
structure World extends KeyManager where
  playback : PlaybackState

/-- The arguments `renderInterpolatedNowPlaying` passes to
`createSpotifyButtonDataUrl` (lines 713-730), as received by
`createModernNowPlayingCanvas`. -/
structure CanvasConfig where
  width : Int
  trackName : String
  artistName : String
  isPlaying : Bool
  albumArtUrl : Option String
  progress : Int
  duration : Int
  showProgress : Bool
  showTitle : Bool
  showPlayPause : Bool
  titleFontSize : Int
  artistFontSize : Int
  showTimeInfo : Bool
  timeFontSize : Option Int
  deriving DecidableEq, Repr

/-- The image produced for a key: the configuration it was drawn from and
whether album art was loaded for it. -/
structure ButtonImage where
  config : CanvasConfig
  albumArt : Bool
  deriving DecidableEq, Repr

/-- A call to a collaborator, in program order.
`createSpotifyButtonDataUrl config` is the call made through the binding
`renderer` (lines 713 and 785) with its evaluated arguments, whether or not the
binding holds a function to receive them. `updateLikeKeyDisplay` is the call of
line 1006, recorded when the identifier names a function (see `Host`). -/
inductive Event where
  | initializeAuthentication
  | getCurrentPlayback
  | checkTracksSaved (trackId : String)
  | loadImage (url : String)
  | delay (ms : Nat)
  | createSpotifyButtonDataUrl (config : CanvasConfig)
  | simpleDraw (serialNumber keyUid : String) (image : ButtonImage)
  | textOnlyDraw (serialNumber keyUid : String) (text : String)
  | cleanupKey (serialNumber keyUid : String)
  | updateLikeKeyDisplay (sn : String) (likeKey : Key)
  deriving DecidableEq, Repr

/-- Network collaborators: the Spotify API, the authentication flow and the
remote image loader. -/
def Event.isNetwork : Event → Bool
  | .initializeAuthentication => true
  | .getCurrentPlayback => true
  | .checkTracksSaved _ => true
  | .loadImage _ => true
  | _ => false

/-- Functions of this repository that the engine calls and that are defined
outside the two source files: `decodeHtmlEntities` of `utils` and
`keyManager.cleanupKey`. The identifier `updateLikeKeyDisplay` of line 1006 has
no declaration and no import in the file: `definesUpdateLikeKeyDisplay` says
whether a global function of that name exists when the call is made. Without
one the call throws a `ReferenceError`. -/
structure Host where
  decodeHtmlEntities : String → String
  cleanupKey : String → String → KeyManager → KeyManager
  definesUpdateLikeKeyDisplay : Bool

/-- A call `keyManager.cleanupKey(serialNumber, keyUid)`. -/
def Host.cleanup (host : Host) (serialNumber keyUid : String) (w : World) :
    List Event × World :=
  ([Event.cleanupKey serialNumber keyUid],
    { w with toKeyManager := host.cleanupKey serialNumber keyUid w.toKeyManager })

/-- What the outside world does during one render pass: the clock, the outcome
of each `loadImage` attempt, whether the call through `renderer` or the drawing
of the image throws, and what other callbacks do to the state while the image
is awaited.

`imageThrows` is what becomes of `renderer.createSpotifyButtonDataUrl(...)`.
The binding `renderer` of line 5 is the result of the module requiring itself:
the module loader hands back the exports object as it is at that moment, which
is empty, and line 1013 later installs a different object, so in the module as
`require` loads it `renderer.createSpotifyButtonDataUrl` is `undefined` and the
call throws a `TypeError` before any image is made (`imageThrows = true`, see
`RenderEnv.asLoaded`). With `imageThrows = false` the binding holds the
function `createSpotifyButtonDataUrl` of this file, as it does when the loader
resolves the cycle to the finished exports. -/
structure RenderEnv where
  now : Int
  loadOk : Nat → Bool
  imageThrows : Bool
  drawThrows : Bool
  during : World → World

/-- What the outside world does during one poll: the authentication status and
the outcome of the inline re-authentication, the outcome of the playback fetch,
the clock after the fetch, the outcome of the saved-status check, the state
changes made by other callbacks during the two awaits, and the environment of
the render pass that ends the poll. -/
structure PollEnv where
  authenticated : Bool
  initializeAuthentication : Outcome Bool
  getCurrentPlayback : Outcome (Option Playback)
  duringFetch : World → World
  now : Int
  checkTracksSaved : Outcome (Option (List Bool))
  duringCheck : World → World
  render : RenderEnv

/-- The key id built by the template `serialNumber-keyUid`. -/
def keyIdOf (serialNumber keyUid : String) : String :=
  serialNumber ++ "-" ++ keyUid

/-- Truthiness of `keyManager.activeKeys[keyId]`. -/
def World.isActiveKey (w : World) (keyId : String) : Bool :=
  (w.activeKeys.lookup keyId).getD false

/-- Assignment to the object stored under `keyUid` in `keyManager.keyData`. -/
def World.setKey (w : World) (keyUid : String) (k : Key) : World :=
  { w with keyData := fun u => if u = keyUid then some k else w.keyData u }

/-- The JavaScript `a || b` on numbers: `b` when `a` is missing or `0`. -/
def jsOrInt (a : Option Int) (b : Int) : Int :=
  match a with
  | some n => if n = 0 then b else n
  | none => b

/-- The JavaScript `a || b` on strings: `b` when `a` is missing or empty. -/
def jsOrString (a : Option String) (b : String) : String :=
  match a with
  | some s => if s = "" then b else s
  | none => b

/-! ## Image creation (`createModernNowPlayingCanvas`, lines 403-425) -/

/-- The constant `MAX_RETRIES` of the album-art loop. -/
def MAX_RETRIES : Nat := 2

/-- The constant `RETRY_DELAY_MS` of the album-art loop. -/
def RETRY_DELAY_MS : Nat := 500

/-- The loop `for (attempt = ...; attempt <= MAX_RETRIES; attempt++)` around
`loadImage`, with `remaining` iterations left: the calls made and whether album
art was obtained. -/
def loadAlbumArt (loadOk : Nat → Bool) (url : String) :
    (remaining : Nat) → (attempt : Nat) → List Event × Bool
  | 0, _ => ([], false)
  | remaining + 1, attempt =>
    if loadOk attempt then
      ([Event.loadImage url], true)
    else
      let wait := if attempt = MAX_RETRIES then [] else [Event.delay RETRY_DELAY_MS]
      let rest := loadAlbumArt loadOk url remaining (attempt + 1)
      (Event.loadImage url :: wait ++ rest.1, rest.2)

/-- The part of `createModernNowPlayingCanvas` that talks to collaborators,
for the now-playing button type: album art is loaded when `albumArtUrl` is
truthy. The canvas primitives (`createCanvas` and the drawing calls) are taken
to succeed, so the loop is always reached. -/
def createModernNowPlayingCanvas (loadOk : Nat → Bool) (config : CanvasConfig) :
    List Event × ButtonImage :=
  match config.albumArtUrl with
  | some url =>
    if url = "" then ([], { config := config, albumArt := false })
    else
      let r := loadAlbumArt loadOk url MAX_RETRIES 1
      (r.1, { config := config, albumArt := r.2 })
  | none => ([], { config := config, albumArt := false })

/-- The wrapper `createSpotifyButtonDataUrl`: it hands its arguments to
`createModernNowPlayingCanvas` and converts the canvas to a data URL. -/
def createSpotifyButtonDataUrl (loadOk : Nat → Bool) (config : CanvasConfig) :
    List Event × ButtonImage :=
  createModernNowPlayingCanvas loadOk config

/-- The progress bar of `createModernNowPlayingCanvas` (lines 470-483). -/
def progressRatio (progress duration : Int) : ℚ :=
  min 1 (max 0 ((progress : ℚ) / (duration : ℚ)))

/-- A rounded rectangle filled on the canvas: `x`, `y`, `width`, `height`. -/
structure FilledRect where
  x : ℚ
  y : ℚ
  width : ℚ
  height : ℚ
  deriving DecidableEq, Repr

/-- The rectangles filled for the progress bar: the track over the whole
width, then the filled part when its width is positive. -/
def drawProgressBar (showProgress : Bool) (width height progress duration : Int) :
    List FilledRect :=
  if showProgress && decide (duration > 0) then
    let progressBarHeight : ℚ := 4
    let progressBarY : ℚ := (height : ℚ) - progressBarHeight
    let track : FilledRect := ⟨0, progressBarY, (width : ℚ), progressBarHeight⟩
    let ratio := progressRatio progress duration
    if (width : ℚ) * ratio > 0 then
      [track, ⟨0, progressBarY, (width : ℚ) * ratio, progressBarHeight⟩]
    else
      [track]
  else
    []

/-! ## Render pass (`renderInterpolatedNowPlaying`, lines 654-736) -/

/-- The configuration built at lines 707-730 from the key and the estimate. -/
def renderConfig (host : Host) (key : Key) (d : KeyData) (isPlaying : Bool)
    (estimated : Int) : CanvasConfig :=
  { width := jsOrInt key.width 360
    trackName := host.decodeHtmlEntities
      (jsOrString (d.currentTrackDetails.map (·.name)) "Nothing Playing")
    artistName := host.decodeHtmlEntities
      (jsOrString (d.currentTrackDetails.map (fun t => ", ".intercalate t.artists)) "")
    isPlaying := isPlaying
    albumArtUrl := d.currentTrackDetails.bind (·.albumArtUrl)
    progress := estimated
    duration := d.durationMs
    showProgress := d.showProgress
    showTitle := d.showTitle
    showPlayPause := d.showPlayPause
    titleFontSize := d.titleFontSize
    artistFontSize := d.artistFontSize
    showTimeInfo := d.showTimeInfo
    timeFontSize := d.timeFontSize }

/-- The environment of a render pass in the module as `require` loads it: the
call through `renderer` throws at once (the binding has no
`createSpotifyButtonDataUrl`), so the pass reaches no `await` and no other
callback runs before it ends. -/
def RenderEnv.asLoaded (env : RenderEnv) : RenderEnv :=
  { env with imageThrows := true, during := fun w => w }

/-- One render pass for the key stored under `keyUid`: the collaborator calls
it makes and the state afterwards. `Math.round` is the identity on the integer
estimate. The arguments of the call through `renderer` are evaluated first;
when the call throws, no image is created, so nothing is loaded, and the
`catch` of line 732 draws the text. -/
def renderInterpolatedNowPlaying (host : Host) (env : RenderEnv)
    (serialNumber keyUid : String) (w : World) : List Event × World :=
  match w.keyData keyUid with
  | none => host.cleanup serialNumber keyUid w
  | some key =>
    match key.data with
    | none => host.cleanup serialNumber keyUid w
    | some d =>
      let isPlaying := w.playback.isPlaying
      let estimated := estimatedProgress isPlaying d.progressAtLastUpdate
        d.lastApiUpdateTime d.durationMs env.now
      let config := renderConfig host key d isPlaying estimated
      let made := createSpotifyButtonDataUrl env.loadOk config
      let called := Event.createSpotifyButtonDataUrl config :: made.1
      let w := env.during w
      if env.imageThrows then
        ([Event.createSpotifyButtonDataUrl config,
          Event.textOnlyDraw serialNumber keyUid "Error rendering"], w)
      else if env.drawThrows then
        (called ++ [Event.simpleDraw serialNumber keyUid made.2,
          Event.textOnlyDraw serialNumber keyUid "Error rendering"], w)
      else
        (called ++ [Event.simpleDraw serialNumber keyUid made.2], w)

/-! ## Timers (`startOrRestartNowPlayingUpdates`, lines 805-873) -/

/-- The runtime's `clearInterval`. -/
def clearInterval (id : Nat) (w : World) : World :=
  { w with timers := w.timers.filter (fun t => !(t.id == id)) }

/-- The runtime's `setInterval`: the new handle and the state with the timer. -/
def setInterval (kind : TimerKind) (serialNumber keyUid : String) (period : Int)
    (w : World) : Nat × World :=
  (w.nextTimerId,
    { w with timers := w.timers ++ [⟨w.nextTimerId, kind, serialNumber, keyUid, period⟩]
             nextTimerId := w.nextTimerId + 1 })

/-- Clears the two timers of the key and starts them again. -/
def startOrRestartNowPlayingUpdates (serialNumber keyUid : String) (w : World) : World :=
  let keyId := keyIdOf serialNumber keyUid
  match w.keyData keyUid with
  | none => w
  | some key =>
    match key.data with
    | none => w
    | some d =>
      let w := match w.keyIntervals keyId with
        | some id =>
          { clearInterval id w with
            keyIntervals := fun k => if k = keyId then none else w.keyIntervals k }
        | none => w
      let w := match d.interpolationIntervalId with
        | some id => clearInterval id w
        | none => w
      let api := setInterval TimerKind.apiFetch serialNumber keyUid d.updateInterval w
      let w := { api.2 with
        keyIntervals := fun k => if k = keyId then some api.1 else api.2.keyIntervals k }
      let ui := setInterval TimerKind.interpolation serialNumber keyUid
        d.interpolationIntervalMs w
      ui.2.setKey keyUid { key with data := some { d with interpolationIntervalId := some ui.1 } }

/-! ## Poll (`updateNowPlayingKey`, lines 877-1011) -/

/-- Lines 896-912: the inline re-authentication and the playback fetch. The
result is the `playbackState` variable, which stays `null` on any failure. -/
def fetchPlayback (env : PollEnv) : List Event × Option Playback :=
  if !env.authenticated then
    match env.initializeAuthentication with
    | .threw => ([Event.initializeAuthentication], none)
    | .returned false => ([Event.initializeAuthentication], none)
    | .returned true =>
      match env.getCurrentPlayback with
      | .threw => ([Event.initializeAuthentication, Event.getCurrentPlayback], none)
      | .returned ps => ([Event.initializeAuthentication, Event.getCurrentPlayback], ps)
  else
    match env.getCurrentPlayback with
    | .threw => ([Event.getCurrentPlayback], none)
    | .returned ps => ([Event.getCurrentPlayback], ps)

/-- The constants of lines 916-921. -/
structure Fetched where
  isActive : Bool
  isPlaying : Bool
  currentTrack : Option Track
  trackId : JsId
  progressMs : Int
  durationMs : Int
  deriving DecidableEq, Repr

/-- Lines 916-921: what the poll derives from `playbackState`. -/
def processFetched (playbackState : Option Playback) : Fetched :=
  let isActive := match playbackState with
    | some ps => ps.item.isSome
    | none => false
  let isPlaying := isActive && (match playbackState with
    | some ps => ps.is_playing
    | none => false)
  let currentTrack := if isActive then playbackState.bind (·.item) else none
  let trackId := match currentTrack with
    | some t => t.id
    | none => JsId.undefined
  let progressMs := if isActive then (match playbackState with
    | some ps => ps.progress_ms
    | none => 0) else 0
  let durationMs := jsOrInt (currentTrack.map (·.duration_ms)) 0
  { isActive := isActive, isPlaying := isPlaying, currentTrack := currentTrack,
    trackId := trackId, progressMs := progressMs, durationMs := durationMs }

/-- Lines 925-931: the unconditional writes to `currentPlaybackState`. -/
def writeGlobal (f : Fetched) (now : Int) (g : PlaybackState) : PlaybackState :=
  { g with isActive := f.isActive, isPlaying := f.isPlaying, trackId := f.trackId,
           progressAtLastUpdate := f.progressMs, lastApiUpdateTime := now,
           durationMs := f.durationMs }

/-- Whether line 941 issues the saved-status check, given the state in which
it is evaluated. -/
def needsSavedCheck (f : Fetched) (g : PlaybackState) : Bool :=
  f.isActive && f.trackId.truthy && decide (f.trackId ≠ g.lastCheckedTrackId)

/-- The state of lines 936-941 at the moment the saved-status check is issued
(or skipped): the global writes are done and, on a track change, `isLiked` has
been reset. -/
def beforeSavedCheck (f : Fetched) (now : Int) (w : World) : World :=
  let previousTrackId := w.playback.trackId
  let g := writeGlobal f now w.playback
  if f.trackId ≠ previousTrackId then { w with playback := { g with isLiked := none } }
  else { w with playback := g }

/-- Lines 945-955: the writes made once the saved-status check has settled,
and whether a definitive status was obtained (`likedStatusChanged`). A check
that throws writes nothing; one that returns records the checked track, and
sets `isLiked` to the first element of a non-empty result. -/
def applySavedStatus (trackId : JsId) (savedStatus : Outcome (Option (List Bool)))
    (g : PlaybackState) : PlaybackState × Bool :=
  match savedStatus with
  | .threw => (g, false)
  | .returned (some (b :: _)) =>
    ({ g with isLiked := some b, lastCheckedTrackId := trackId }, true)
  | .returned _ => ({ g with lastCheckedTrackId := trackId }, false)

/-- The result of lines 933-962. -/
structure LikeStep where
  events : List Event
  world : World
  trackChanged : Bool
  likedStatusChanged : Bool

/-- Lines 923-962: update of the global playback state, track-change detection
and the saved-status check. -/
def updateGlobalPlaybackState (env : PollEnv) (f : Fetched) (w : World) : LikeStep :=
  let previousTrackId := w.playback.trackId
  let w1 := beforeSavedCheck f env.now w
  if f.trackId ≠ previousTrackId then
    if needsSavedCheck f w1.playback then
      let call := match f.trackId with
        | .str s => [Event.checkTracksSaved s]
        | _ => []
      let w2 := env.duringCheck w1
      let settled := applySavedStatus f.trackId env.checkTracksSaved w2.playback
      ⟨call, { w2 with playback := settled.1 }, true, settled.2⟩
    else if !f.isActive then
      ⟨[], { w1 with playback :=
          { w1.playback with isLiked := none, lastCheckedTrackId := JsId.null } }, true, false⟩
    else
      ⟨[], w1, true, false⟩
  else
    ⟨[], w1, false, false⟩

/-- The key type of the like button. -/
def LIKE_CID : String := "com.energy.spotify_integration.like"

/-- The pieces of `s` between occurrences of `sep`, as character lists. -/
def splitChars (sep : Char) : List Char → List (List Char)
  | [] => [[]]
  | c :: cs =>
    if c = sep then [] :: splitChars sep cs
    else
      match splitChars sep cs with
      | [] => [[c]]
      | piece :: pieces => (c :: piece) :: pieces

/-- The JavaScript `activeKeyId.split('-')`. -/
def splitDash (s : String) : List String :=
  (splitChars '-' s.data).map String.mk

/-- The body of the `forEach` of lines 996-1008 for one active key id. The
destructuring takes the first two pieces of the split; a missing second piece
is `undefined`, which as a property name reads `"undefined"`. The fields of a
like key are written first, then `updateLikeKeyDisplay` is called; this is the
body when that call returns. -/
def refreshLikeKey (acc : List Event × World) (activeKeyId : String) : List Event × World :=
  let parts := splitDash activeKeyId
  let sn := parts.headD ""
  let likeKeyUid := (parts.get? 1).getD "undefined"
  let w := acc.2
  match w.keyData likeKeyUid with
  | none => acc
  | some likeKey =>
    if likeKey.cid = LIKE_CID then
      let data := likeKey.data.getD emptyKeyData
      let data := { data with currentTrackId := w.playback.trackId, isLiked := w.playback.isLiked }
      let likeKey := { likeKey with data := some data }
      (acc.1 ++ [Event.updateLikeKeyDisplay sn likeKey], w.setKey likeKeyUid likeKey)
    else acc

/-- The `forEach` of lines 996-1008 when `updateLikeKeyDisplay` is not defined:
an iteration that does not reach line 1006 changes nothing and the loop goes
on; the first one that reaches it has written the fields of its like key, then
the call throws and ends the loop, and with it the poll. -/
def updateLikeKeysThrowing : List String → World → World
  | [], w => w
  | activeKeyId :: rest, w =>
    let r := refreshLikeKey ([], w) activeKeyId
    if r.1 = [] then updateLikeKeysThrowing rest r.2 else r.2

/-- Lines 994-1009: the fan-out to the like keys over `Object.keys(activeKeys)`. -/
def updateLikeKeys (host : Host) (w : World) : List Event × World :=
  if host.definesUpdateLikeKeyDisplay then
    (w.activeKeys.map Prod.fst).foldl refreshLikeKey ([], w)
  else
    ([], updateLikeKeysThrowing (w.activeKeys.map Prod.fst) w)

/-- Lines 973-977: the writes to the key's own data. -/
def writeKeyData (f : Fetched) (now : Int) (d : KeyData) : KeyData :=
  { d with currentTrackDetails := f.currentTrack, lastApiUpdateTime := now,
           progressAtLastUpdate := f.progressMs, durationMs := f.durationMs }

/-- Lines 965-1010: what the poll does after the global update. The timers and
the render pass are addressed through the `uid` field of the re-fetched key
object. -/
def updateKeyAndRender (host : Host) (env : PollEnv) (serialNumber keyUid : String)
    (shouldStartTimers : Bool) (f : Fetched) (changed : Bool) (w : World) :
    List Event × World :=
  match w.keyData keyUid with
  | none => host.cleanup serialNumber keyUid w
  | some key =>
    match key.data with
    | none => host.cleanup serialNumber keyUid w
    | some d =>
      let w := w.setKey keyUid { key with data := some (writeKeyData f env.now d) }
      let w := if shouldStartTimers then startOrRestartNowPlayingUpdates serialNumber key.uid w
        else w
      let r := renderInterpolatedNowPlaying host env.render serialNumber key.uid w
      if changed then
        let l := updateLikeKeys host r.2
        (r.1 ++ l.1, l.2)
      else r

/-- One poll for the key stored under `keyUid`: the collaborator calls it makes
and the state afterwards. -/
def updateNowPlayingKey (host : Host) (env : PollEnv) (serialNumber keyUid : String)
    (shouldStartTimers : Bool) (w : World) : List Event × World :=
  let keyId := keyIdOf serialNumber keyUid
  match w.keyData keyUid with
  | none => host.cleanup serialNumber keyUid w
  | some _ =>
    if !w.isActiveKey keyId then
      host.cleanup serialNumber keyUid w
    else
      let fetched := fetchPlayback env
      let f := processFetched fetched.2
      let step := updateGlobalPlaybackState env f (env.duringFetch w)
      let rest := updateKeyAndRender host env serialNumber keyUid shouldStartTimers f
        (step.trackChanged || step.likedStatusChanged) step.world
      (fetched.1 ++ step.events ++ rest.1, rest.2)

/-! ## Timer ticks (the callbacks of `startOrRestartNowPlayingUpdates`) -/

/-- The test `keyManager.activeKeys[keyId] && keyManager.keyData[keyUid]` made
at the start of both timer callbacks (lines 834 and 856). -/
def keyExists (w : World) (serialNumber keyUid : String) : Bool :=
  w.isActiveKey (keyIdOf serialNumber keyUid) && (w.keyData keyUid).isSome

/-- The statement `delete keyManager.keyIntervals[keyId]`. -/
def World.deleteKeyInterval (w : World) (keyId : String) : World :=
  { w with keyIntervals := fun k => if k = keyId then none else w.keyIntervals k }

/-- One tick of the API fetch timer `t` (lines 833-850). For a key that is no
longer active or stored the tick clears its own timer, deletes the stored
handle and clears a leftover interpolation timer; otherwise it polls for the
key object stored under the UID. -/
def apiFetchTick (host : Host) (env : PollEnv) (t : Timer) (w : World) : List Event × World :=
  let keyId := keyIdOf t.serialNumber t.keyUid
  if !keyExists w t.serialNumber t.keyUid then
    let w := (clearInterval t.id w).deleteKeyInterval keyId
    match w.keyData t.keyUid with
    | some latestKeyData =>
      match latestKeyData.data with
      | some d =>
        match d.interpolationIntervalId with
        | some interpolationId =>
          ([], (clearInterval interpolationId w).setKey t.keyUid
            { latestKeyData with data := some { d with interpolationIntervalId := none } })
        | none => ([], w)
      | none => ([], w)
    | none => ([], w)
  else
    match w.keyData t.keyUid with
    | some key => updateNowPlayingKey host env t.serialNumber key.uid false w
    | none => ([], w)

/-- One tick of the interpolation timer `t` (lines 855-869). For a key that is
no longer active or stored the tick clears its own timer and, when the key's
data still holds this timer's handle, clears that handle; otherwise it renders
the key object stored under the UID. -/
def interpolationTick (host : Host) (env : RenderEnv) (t : Timer) (w : World) :
    List Event × World :=
  if !keyExists w t.serialNumber t.keyUid then
    let w := clearInterval t.id w
    match w.keyData t.keyUid with
    | some latestKeyData =>
      match latestKeyData.data with
      | some d =>
        if d.interpolationIntervalId = some t.id then
          ([], w.setKey t.keyUid
            { latestKeyData with data := some { d with interpolationIntervalId := none } })
        else ([], w)
      | none => ([], w)
    | none => ([], w)
  else
    match w.keyData t.keyUid with
    | some key => renderInterpolatedNowPlaying host env t.serialNumber key.uid w
    | none => ([], w)

/-- The handle of the interpolation timer stored in the data of the key under
`keyUid`, if any. -/
def World.storedInterpolationId (w : World) (keyUid : String) : Option Nat :=
  match w.keyData keyUid with
  | some key =>
    match key.data with
    | some d => d.interpolationIntervalId
    | none => none
  | none => none

/-- A draw on a key or a call of the renderer. -/
def Event.isDraw : Event → Bool
  | .createSpotifyButtonDataUrl _ => true
  | .simpleDraw _ _ _ => true
  | .textOnlyDraw _ _ _ => true
  | .updateLikeKeyDisplay _ _ => true
  | _ => false

/-- The track ids passed to `checkTracksSaved` by a list of calls. -/
def savedChecks : List Event → List String
  | [] => []
  | Event.checkTracksSaved trackId :: es => trackId :: savedChecks es
  | _ :: es => savedChecks es

/-- The number of `loadImage` calls in a list of calls. -/
def imageLoads (es : List Event) : Nat :=
  (es.filter (fun e => match e with
    | Event.loadImage _ => true
    | _ => false)).length

/-! ## Key initialisation (`initializeNowPlayingKey`, lines 742-802) -/

/-- The white space that `parseInt` skips at the start of a string: the
`WhiteSpace` and `LineTerminator` code points of the language. -/
def isJsWhiteSpace (c : Char) : Bool :=
  c.toNat ∈ [0x9, 0xA, 0xB, 0xC, 0xD, 0x20, 0xA0, 0x1680, 0x2028, 0x2029, 0x202F, 0x205F,
    0x3000, 0xFEFF] || (decide (0x2000 ≤ c.toNat) && decide (c.toNat ≤ 0x200A))

/-- The values of the decimal digits at the start of a character list. -/
def leadingDigits : List Char → List Nat
  | [] => []
  | c :: cs => if c.isDigit then (c.toNat - 48) :: leadingDigits cs else []

/-- The JavaScript `parseInt(s, 10)`: leading white space is skipped, a sign is
read, then the longest run of decimal digits; `none` stands for `NaN`, the
result when there is no digit. -/
def parseInt (s : String) : Option Int :=
  let cs := s.data.dropWhile isJsWhiteSpace
  let signed : Bool × List Char := match cs with
    | '-' :: rest => (true, rest)
    | '+' :: rest => (false, rest)
    | _ => (false, cs)
  match leadingDigits signed.2 with
  | [] => none
  | ds =>
    let n : Int := (ds.foldl (fun acc d => 10 * acc + d) 0 : Nat)
    some (if signed.1 then -n else n)

/-- A `timeFontSize` as the UI hands it over: a number or a string. -/
inductive FontSizeInput where
  | num (n : Int)
  | str (s : String)
  deriving DecidableEq, Repr

/-- The configuration `key.data` that the host passes for a key; `none` in a
field stands for an omitted (`undefined`) property. -/
structure KeyConfig where
  updateInterval : Option Int
  interpolationIntervalMs : Option Int
  showArtist : Option Bool
  showProgress : Option Bool
  showTitle : Option Bool
  showPlayPause : Option Bool
  showTimeInfo : Option Bool
  titleFontSize : Option Int
  artistFontSize : Option Int
  timeFontSize : Option FontSizeInput
  deriving DecidableEq, Repr

/-- A key as the host passes it on activation; `data = none` stands for a key
without a `data` object. -/
structure IncomingKey where
  uid : String
  cid : String
  width : Option Int
  data : Option KeyConfig
  deriving DecidableEq, Repr

/-- The object assigned to `key.data` at lines 752-771. -/
def initialKeyData (config : Option KeyConfig) : KeyData :=
  { updateInterval := jsOrInt (config.bind (·.updateInterval)) 4000
    interpolationIntervalMs := jsOrInt (config.bind (·.interpolationIntervalMs)) 1000
    showArtist := match config.bind (·.showArtist) with
      | some b => b
      | none => true
    showProgress := match config.bind (·.showProgress) with
      | some b => b
      | none => true
    showTitle := match config.bind (·.showTitle) with
      | some b => b
      | none => true
    showPlayPause := match config.bind (·.showPlayPause) with
      | some b => b
      | none => true
    showTimeInfo := match config.bind (·.showTimeInfo) with
      | some b => b
      | none => true
    titleFontSize := jsOrInt (config.bind (·.titleFontSize)) 18
    artistFontSize := jsOrInt (config.bind (·.artistFontSize)) 14
    timeFontSize := match config.bind (·.timeFontSize) with
      | some (FontSizeInput.str s) => parseInt s
      | some (FontSizeInput.num n) => some n
      | none => some 10
    currentTrackDetails := none
    lastApiUpdateTime := 0
    progressAtLastUpdate := 0
    durationMs := 0
    interpolationIntervalId := none
    currentTrackId := JsId.undefined
    isLiked := none }

/-- What the outside world does during the initialisation of a key: whether
the call through `renderer` (see `RenderEnv`) or the drawing of the loading
image throws, what other callbacks do while it is awaited, and the environment
of the first poll. -/
structure InitEnv where
  imageThrows : Bool
  drawThrows : Bool
  during : World → World
  poll : PollEnv

/-- The loading image of lines 785-792. -/
def loadingConfig (key : IncomingKey) (d : KeyData) : CanvasConfig :=
  { width := jsOrInt key.width 360
    trackName := "Loading..."
    artistName := "Connecting..."
    isPlaying := false
    albumArtUrl := none
    progress := 0
    duration := 0
    showProgress := d.showProgress
    showTitle := d.showTitle
    showPlayPause := d.showPlayPause
    titleFontSize := d.titleFontSize
    artistFontSize := d.artistFontSize
    showTimeInfo := d.showTimeInfo
    timeFontSize := d.timeFontSize }

/-- Initialisation of a now-playing key: the data object is built and stored,
the loading image is drawn (or the text "Error" when that throws), and the
first poll is made with the request to start the timers. -/
def initializeNowPlayingKey (host : Host) (env : InitEnv) (serialNumber : String)
    (key : IncomingKey) (w : World) : List Event × World :=
  let d := initialKeyData key.data
  let w := w.setKey key.uid { uid := key.uid, cid := key.cid, width := key.width, data := some d }
  let config := loadingConfig key d
  let made := createSpotifyButtonDataUrl (fun _ => false) config
  let called := Event.createSpotifyButtonDataUrl config :: made.1
  let w := env.during w
  let drawn :=
    if env.imageThrows then
      [Event.createSpotifyButtonDataUrl config, Event.textOnlyDraw serialNumber key.uid "Error"]
    else if env.drawThrows then
      called ++ [Event.simpleDraw serialNumber key.uid made.2,
        Event.textOnlyDraw serialNumber key.uid "Error"]
    else
      called ++ [Event.simpleDraw serialNumber key.uid made.2]
  let polled := updateNowPlayingKey host env.poll serialNumber key.uid true w
  (drawn ++ polled.1, polled.2)

/-! ## Logging wrapper (`loggerWrapper.js`)

The state of the module is the variable `currentConfiguredLogLevelName`, passed
in and returned as `current`. The string method `toUpperCase` of the language
is a parameter. The host logger and `console.error` are taken not to throw. -/

/-- The table `LOG_LEVELS` (lines 4-10). -/
def LOG_LEVELS : List (String × Nat) :=
  [("OFF", 0), ("ERROR", 1), ("WARN", 2), ("INFO", 3), ("DEBUG", 4)]

/-- The constant `PLUGIN_PREFIX`. -/
def PLUGIN_PREFIX : String := "[SpotifyPlugin]"

/-- The initial value of `currentConfiguredLogLevelName`. -/
def currentConfiguredLogLevelName : String := "INFO"

/-- The test `LOG_LEVELS.hasOwnProperty(name)`. -/
def hasLogLevel (name : String) : Bool :=
  (LOG_LEVELS.lookup name).isSome

/-- The methods of the host logger that the wrapper forwards to. -/
inductive LogMethod where
  | debug
  | info
  | warn
  | error
  deriving DecidableEq, Repr

/-- The entry of `LOG_LEVELS` a wrapper method compares the current level
with: `LOG_LEVELS.DEBUG`, `LOG_LEVELS.INFO`, `LOG_LEVELS.WARN`,
`LOG_LEVELS.ERROR`. -/
def LogMethod.level : LogMethod → Nat
  | .debug => 4
  | .info => 3
  | .warn => 2
  | .error => 1

/-- Where a message goes: a method of the host logger or `console.error`. -/
inductive LogSink where
  | flexbar (method : LogMethod)
  | console
  deriving DecidableEq, Repr

/-- One call of a logging function with its arguments in order. -/
structure LogCall where
  sink : LogSink
  args : List String
  deriving DecidableEq, Repr

/-- A value handed to the logger as a level: `undefined`, a string, or a value
of another type together with the text it prints as. -/
inductive JsValue where
  | undefined
  | str (s : String)
  | other (shown : String)
  deriving DecidableEq, Repr

/-- The text a value prints as inside a template string. -/
def JsValue.shown : JsValue → String
  | .undefined => "undefined"
  | .str s => s
  | .other shown => shown

/-- The configuration object returned by `plugin.getConfig()`. -/
structure PluginConfig where
  logLevel : JsValue
  deriving DecidableEq, Repr

/-- The function `getCurrentNumericLogLevel` (lines 21-24). -/
def getCurrentNumericLogLevel (toUpperCase : String → String) (current : String) : Nat :=
  let levelName := toUpperCase current
  match LOG_LEVELS.lookup levelName with
  | some level => level
  | none => 3

/-- The wrapper method `debug` (lines 66-70). -/
def loggerWrapper.debug (toUpperCase : String → String) (current : String)
    (args : List String) : List LogCall :=
  if getCurrentNumericLogLevel toUpperCase current ≥ 4 then
    [⟨LogSink.flexbar LogMethod.debug, PLUGIN_PREFIX :: args⟩]
  else []

/-- The wrapper method `info` (lines 71-75). -/
def loggerWrapper.info (toUpperCase : String → String) (current : String)
    (args : List String) : List LogCall :=
  if getCurrentNumericLogLevel toUpperCase current ≥ 3 then
    [⟨LogSink.flexbar LogMethod.info, PLUGIN_PREFIX :: args⟩]
  else []

/-- The wrapper method `warn` (lines 76-80). -/
def loggerWrapper.warn (toUpperCase : String → String) (current : String)
    (args : List String) : List LogCall :=
  if getCurrentNumericLogLevel toUpperCase current ≥ 2 then
    [⟨LogSink.flexbar LogMethod.warn, PLUGIN_PREFIX :: args⟩]
  else []

/-- The wrapper method `error` (lines 81-86). -/
def loggerWrapper.error (toUpperCase : String → String) (current : String)
    (args : List String) : List LogCall :=
  if getCurrentNumericLogLevel toUpperCase current ≥ 1 then
    [⟨LogSink.flexbar LogMethod.error, PLUGIN_PREFIX :: args⟩]
  else []

/-- The wrapper method that forwards to the given method of the host logger. -/
def loggerWrapper.call (method : LogMethod) (toUpperCase : String → String)
    (current : String) (args : List String) : List LogCall :=
  match method with
  | .debug => loggerWrapper.debug toUpperCase current args
  | .info => loggerWrapper.info toUpperCase current args
  | .warn => loggerWrapper.warn toUpperCase current args
  | .error => loggerWrapper.error toUpperCase current args

/-- Lines 37-46: no valid `logLevel` in the configuration. The level becomes
"INFO"; a warning is logged when the configuration has a `logLevel` at all. -/
def revertToDefaultLevel (toUpperCase : String → String) (config : Option PluginConfig) :
    List LogCall × String :=
  let current := "INFO"
  match config with
  | some c =>
    if c.logLevel ≠ JsValue.undefined then
      if getCurrentNumericLogLevel toUpperCase current ≥ 2 then
        ([⟨LogSink.flexbar LogMethod.warn, [PLUGIN_PREFIX,
            "Invalid \x27logLevel\x27 (\"" ++ c.logLevel.shown ++
              "\") in config. Using default: " ++ current ++ "."]⟩], current)
      else ([], current)
    else ([], current)
  | none => ([], current)

/-- Lines 49-57: the message about a changed level. -/
def logLevelChange (toUpperCase : String → String) (oldLogLevelName current : String) :
    List LogCall :=
  if oldLogLevelName ≠ current then
    if getCurrentNumericLogLevel toUpperCase current ≥ 3 then
      [⟨LogSink.flexbar LogMethod.info,
        [PLUGIN_PREFIX, "Log level updated from config. New level: " ++ current]⟩]
    else if (match LOG_LEVELS.lookup (toUpperCase oldLogLevelName) with
        | some level => decide (level ≥ 3)
        | none => false) then
      [⟨LogSink.flexbar LogMethod.info,
        [PLUGIN_PREFIX, "Log level changed to " ++ current ++
          ". Further INFO logs may be suppressed based on new level."]⟩]
    else []
  else []

/-- The function `_updateLogLevelFromConfig` (lines 28-62), exported as
`updateLogLevelFromConfig`: the calls it makes and the new level name, given
the outcome of `plugin.getConfig()`. -/
def updateLogLevelFromConfig (toUpperCase : String → String)
    (getConfig : Outcome (Option PluginConfig)) (current : String) : List LogCall × String :=
  match getConfig with
  | .threw =>
    ([⟨LogSink.console, [PLUGIN_PREFIX, "Failed to load logLevel from config:", "error",
        "Using current/default: " ++ current ++ "."]⟩], current)
  | .returned config =>
    let oldLogLevelName := current
    let updated : List LogCall × String :=
      match config with
      | some ⟨JsValue.str s⟩ =>
        if hasLogLevel (toUpperCase s) then
          (loggerWrapper.info toUpperCase current
            [PLUGIN_PREFIX, "Updating log level from config. New level: " ++ s],
            toUpperCase s)
        else revertToDefaultLevel toUpperCase config
      | _ => revertToDefaultLevel toUpperCase config
    (updated.1 ++ logLevelChange toUpperCase oldLogLevelName updated.2, updated.2)

/-- The function `setLogLevel` (lines 90-107): the calls it makes and the new
level name. -/
def setLogLevel (toUpperCase : String → String) (levelName : JsValue) (current : String) :
    List LogCall × String :=
  let invalid : List LogCall × String :=
    if getCurrentNumericLogLevel toUpperCase current ≥ 2 then
      ([⟨LogSink.flexbar LogMethod.warn, [PLUGIN_PREFIX,
          "Invalid log level requested for explicit set: " ++ levelName.shown ++ "."]⟩], current)
    else ([], current)
  match levelName with
  | .str s =>
    if hasLogLevel (toUpperCase s) then
      let newLevelName := toUpperCase s
      if newLevelName ≠ current then
        let oldLevelNumeric := getCurrentNumericLogLevel toUpperCase current
        if getCurrentNumericLogLevel toUpperCase newLevelName ≥ 3 then
          ([⟨LogSink.flexbar LogMethod.info,
            [PLUGIN_PREFIX, "Log level explicitly set to: " ++ newLevelName]⟩], newLevelName)
        else if oldLevelNumeric ≥ 3 then
          ([⟨LogSink.flexbar LogMethod.info,
            [PLUGIN_PREFIX, "Log level explicitly set to: " ++ newLevelName ++
              ". INFO logs may be suppressed."]⟩], newLevelName)
        else ([], newLevelName)
      else ([], current)
    else invalid
  | _ => invalid

/-- Upper-casing of the letters `a` to `z`, which is what `toUpperCase` does on
strings of those letters. -/
def asciiUpperCase (s : String) : String :=
  String.mk (s.data.map Char.toUpper)

/-! ## Time text (`createModernNowPlayingCanvas`, lines 536-576) -/

/-- The JavaScript `s.padStart(2, '0')` on a string of one-unit characters. -/
def padStart2 (s : String) : String :=
  if s.length < 2 then String.mk (List.replicate (2 - s.length) '0') ++ s else s

/-- The helper `formatTime` (lines 538-545) on an integer number of
milliseconds. `Math.floor` of the quotient by a positive number is the floor
division of integers; `%` is the remainder that takes the sign of the dividend. -/
def formatTime (milliseconds : Int) : String :=
  if milliseconds = 0 then "0:00"
  else
    let totalSeconds := milliseconds / 1000
    let minutes := totalSeconds / 60
    let seconds := Int.tmod totalSeconds 60
    toString minutes ++ ":" ++ padStart2 (toString seconds)

/-- A number written with exactly two decimal digits, zero-padded: the wording
of the claim about `formatTime`. -/
def twoDigits (n : Nat) : String :=
  String.mk [Char.ofNat (48 + n / 10 % 10), Char.ofNat (48 + n % 10)]

/-- Lines 556-559: the `timeFontSize` received by
`createModernNowPlayingCanvas` after the parse step. A missing value takes the
parameter default 10, a string is parsed, a number is kept; `none` stands for
`NaN`. -/
def parsedTimeFontSize (timeFontSize : Option FontSizeInput) : Option Int :=
  match timeFontSize with
  | none => some 10
  | some (FontSizeInput.str s) => parseInt s
  | some (FontSizeInput.num n) => some n

/-- Line 562: `Math.max(8, Math.min(24, parsedTimeFontSize || 10))`. -/
def clampTimeFontSize (parsed : Option Int) : Int :=
  max 8 (min 24 (jsOrInt parsed 10))

/-- The constant `finalTimeFontSize` for a `timeFontSize` as configured. -/
def finalTimeFontSize (timeFontSize : Option FontSizeInput) : Int :=
  clampTimeFontSize (parsedTimeFontSize timeFontSize)

/-- Line 571: the `y` of the bottom baseline of the time text,
`height - Math.max(6, finalTimeFontSize / 3)`, with the division exact. -/
def timeY (height : Int) (fontSize : Int) : ℚ :=
  (height : ℚ) - max 6 ((fontSize : ℚ) / 3)

/-! ## Runs of the logging wrapper -/

/-- A call that can change the stored level name: `setLogLevel(levelName)` or
`updateLogLevelFromConfig()` with the outcome of its configuration read. -/
inductive LoggerCall where
  | explicitSet (levelName : JsValue)
  | fromConfig (getConfig : Outcome (Option PluginConfig))
  deriving DecidableEq, Repr

/-- The stored level name after one call. `updateLogLevelFromConfig` reads and
writes the name only after its `await`, so calls take effect one at a time. -/
def LoggerCall.apply (toUpperCase : String → String) (current : String) :
    LoggerCall → String
  | .explicitSet levelName => (setLogLevel toUpperCase levelName current).2
  | .fromConfig getConfig => (updateLogLevelFromConfig toUpperCase getConfig current).2

/-- The stored level name after a run of calls. -/
def runLogger (toUpperCase : String → String) (current : String)
    (calls : List LoggerCall) : String :=
  calls.foldl (LoggerCall.apply toUpperCase) current

/-- The five level names. -/
def IsLevelName (name : String) : Prop :=
  name = "OFF" ∨ name = "ERROR" ∨ name = "WARN" ∨ name = "INFO" ∨ name = "DEBUG"

/-! ## Observations used in the statements -/

/-- The interpolation inputs a key holds: what the poll copies into the key
(lines 974-977) and the render pass reads back. -/
structure Snapshot where
  currentTrackDetails : Option Track
  lastApiUpdateTime : Int
  progressAtLastUpdate : Int
  durationMs : Int
  deriving DecidableEq, Repr

/-- The interpolation inputs of a key's data. -/
def KeyData.snapshot (d : KeyData) : Snapshot :=
  ⟨d.currentTrackDetails, d.lastApiUpdateTime, d.progressAtLastUpdate, d.durationMs⟩

/-- The interpolation inputs of the key stored under `keyUid`, if it has data. -/
def World.snapshot (w : World) (keyUid : String) : Option Snapshot :=
  match w.keyData keyUid with
  | some key => key.data.map KeyData.snapshot
  | none => none

/-- The progress values handed to the renderer by a list of calls. -/
def passedProgress : List Event → List Int
  | [] => []
  | Event.createSpotifyButtonDataUrl config :: es => config.progress :: passedProgress es
  | _ :: es => passedProgress es

/-- No other callback changes the state while the poll awaits: the poll runs
on its own from start to end. -/
def PollEnv.Quiet (env : PollEnv) : Prop :=
  (∀ w, env.duringFetch w = w) ∧ (∀ w, env.duringCheck w = w) ∧
    (∀ w, env.render.during w = w)

/-- No other poll runs while this one awaits: the callbacks that do run leave
`currentPlaybackState` as it is (only `updateNowPlayingKey` writes to it). -/
def PollEnv.NonOverlapping (env : PollEnv) : Prop :=
  (∀ w, (env.duringFetch w).playback = w.playback) ∧
    (∀ w, (env.duringCheck w).playback = w.playback) ∧
    (∀ w, (env.render.during w).playback = w.playback)

/-- The playback fetch of the poll fails: the authentication initialisation
fails or throws, or `getCurrentPlayback` throws. -/
def PollEnv.fetchFails (env : PollEnv) : Bool :=
  (!env.authenticated && (match env.initializeAuthentication with
    | .returned true => false
    | _ => true)) ||
  (match env.getCurrentPlayback with
    | .threw => true
    | .returned _ => false)

/-- The number of network calls in a list of collaborator calls. -/
def networkCalls (es : List Event) : Nat :=
  (es.filter Event.isNetwork).length

/-- The like keys redrawn by a list of calls: device and key UID of each
`updateLikeKeyDisplay`. -/
def likeRedraws : List Event → List (String × String)
  | [] => []
  | Event.updateLikeKeyDisplay sn likeKey :: es => (sn, likeKey.uid) :: likeRedraws es
  | _ :: es => likeRedraws es

/-- The like fields held by the key stored under `keyUid`. -/
def World.likeFields (w : World) (keyUid : String) : Option (JsId × Option Bool) :=
  match w.keyData keyUid with
  | some key => key.data.map (fun d => (d.currentTrackId, d.isLiked))
  | none => none

/-- The like flag is fresh: when it is known, a track is present and the flag
was obtained by a saved-status check against that track. -/
def LikeFresh (g : PlaybackState) : Prop :=
  g.isLiked ≠ none → g.trackId.truthy = true ∧ g.lastCheckedTrackId = g.trackId

/-- One poll in a run of the plugin: what other callbacks (render ticks, key
activation and deactivation) did to the state before it started, and the
arguments and environment of the call. -/
structure PollCall where
  before : World → World
  env : PollEnv
  serialNumber : String
  keyUid : String
  shouldStartTimers : Bool

/-- The polls of a run do not overlap and nothing but the polls writes
`currentPlaybackState`. -/
def PollCall.Sequential (c : PollCall) : Prop :=
  (∀ w, (c.before w).playback = w.playback) ∧ c.env.NonOverlapping

/-- The state after a run of polls. -/
def runPolls (host : Host) (w : World) (calls : List PollCall) : World :=
  calls.foldl (fun w c =>
    (updateNowPlayingKey host c.env c.serialNumber c.keyUid c.shouldStartTimers (c.before w)).2) w

/-- The plain-text draws in a list of calls: device, key UID and text of each
`textOnlyDraw`. -/
def textDraws : List Event → List (String × String × String)
  | [] => []
  | Event.textOnlyDraw serialNumber keyUid text :: es =>
    (serialNumber, keyUid, text) :: textDraws es
  | _ :: es => textDraws es

/-- The settings a now-playing key holds: the configuration fields of the
data object of lines 753-762. -/
structure Settings where
  updateInterval : Int
  interpolationIntervalMs : Int
  showArtist : Bool
  showProgress : Bool
  showTitle : Bool
  showPlayPause : Bool
  showTimeInfo : Bool
  titleFontSize : Int
  artistFontSize : Int
  timeFontSize : Option Int
  deriving DecidableEq, Repr

/-- The settings in a key's data. -/
def KeyData.settings (d : KeyData) : Settings :=
  ⟨d.updateInterval, d.interpolationIntervalMs, d.showArtist, d.showProgress, d.showTitle,
    d.showPlayPause, d.showTimeInfo, d.titleFontSize, d.artistFontSize, d.timeFontSize⟩

/-- The settings of the key stored under `keyUid`, if it has data. -/
def World.settings (w : World) (keyUid : String) : Option Settings :=
  match w.keyData keyUid with
  | some key => key.data.map KeyData.settings
  | none => none

/-- The two timers of the key `keyUid` on device `serialNumber` are running
with the given periods: the API fetch timer under the handle kept in
`keyManager.keyIntervals`, the interpolation timer under the handle kept in the
key's data. -/
def World.TimersRunning (w : World) (serialNumber keyUid : String)
    (updateInterval interpolationIntervalMs : Int) : Prop :=
  ∃ apiId uiId,
    w.keyIntervals (keyIdOf serialNumber keyUid) = some apiId ∧
      (⟨apiId, TimerKind.apiFetch, serialNumber, keyUid, updateInterval⟩ : Timer) ∈ w.timers ∧
      w.storedInterpolationId keyUid = some uiId ∧
      (⟨uiId, TimerKind.interpolation, serialNumber, keyUid, interpolationIntervalMs⟩ : Timer)
        ∈ w.timers

/-- Nothing else runs while the initialisation of a key awaits: not during the
loading image, and not during the first poll. -/
def InitEnv.Quiet (env : InitEnv) : Prop :=
  (∀ w, env.during w = w) ∧ env.poll.Quiet

/-! ## Example states -/

/-- A host whose `decodeHtmlEntities` and `cleanupKey` change nothing and that
defines `updateLikeKeyDisplay`. -/
def demoHost : Host :=
  { decodeHtmlEntities := fun s => s, cleanupKey := fun _ _ m => m,
    definesUpdateLikeKeyDisplay := true }

/-- The data of a freshly initialised now-playing key with default settings. -/
def demoData : KeyData :=
  { emptyKeyData with
    updateInterval := 4000, interpolationIntervalMs := 1000, showArtist := true,
    showProgress := true, showTitle := true, showPlayPause := true, showTimeInfo := true,
    titleFontSize := 18, artistFontSize := 14, timeFontSize := some 10 }

/-- A now-playing key with UID `k1`. -/
def demoKey : Key :=
  { uid := "k1", cid := "com.energy.spotify_integration.nowplaying", width := some 360,
    data := some demoData }

/-- A like key with the given UID that has not been refreshed yet. -/
def demoLikeKey (uid : String) : Key :=
  { uid := uid, cid := LIKE_CID, width := some 60, data := some emptyKeyData }

/-- Device `S1` with the now-playing key `k1` active and nothing polled yet. -/
def demoWorld : World :=
  { keyData := fun u => if u = "k1" then some demoKey else none
    activeKeys := [("S1-k1", true)]
    keyIntervals := fun _ => none
    timers := []
    nextTimerId := 1
    playback := currentPlaybackState }

/-- Device `S1` with the now-playing key `k1` and a like key, both active. -/
def demoWorldWithLike (likeUid : String) : World :=
  { demoWorld with
    keyData := fun u =>
      if u = "k1" then some demoKey
      else if u = likeUid then some (demoLikeKey likeUid) else none
    activeKeys := [("S1-k1", true), (keyIdOf "S1" likeUid, true)] }

/-- Track `A` of the scenarios, 200000 ms long, with or without album art. -/
def trackA (albumArtUrl : Option String) : Track :=
  { id := JsId.str "A", name := "Song", artists := ["Artist"], duration_ms := 200000,
    albumArtUrl := albumArtUrl }

/-- A render pass at clock `now` in which nothing fails and nothing else runs. -/
def demoRender (now : Int) : RenderEnv :=
  { now := now, loadOk := fun _ => true, imageThrows := false, drawThrows := false,
    during := fun w => w }

/-- A poll at clock `now` with the given fetch outcome, run on its own; the
saved-status check answers "saved". -/
def demoPoll (fetch : Outcome (Option Playback)) (now : Int) : PollEnv :=
  { authenticated := true, initializeAuthentication := Outcome.returned true,
    getCurrentPlayback := fetch, duringFetch := fun w => w, now := now,
    checkTracksSaved := Outcome.returned (some [true]), duringCheck := fun w => w,
    render := demoRender now }

/-- The poll `demoPoll` in the module as loaded: the render pass that ends it
throws at the call through `renderer`. -/
def loadedPoll (fetch : Outcome (Option Playback)) (now : Int) : PollEnv :=
  { authenticated := true, initializeAuthentication := Outcome.returned true,
    getCurrentPlayback := fetch, duringFetch := fun w => w, now := now,
    checkTracksSaved := Outcome.returned (some [true]), duringCheck := fun w => w,
    render := (demoRender now).asLoaded }

/-- The fetch result of the scenarios: track `A` at 10000 ms. -/
def fetchedA (isPlaying : Bool) (albumArtUrl : Option String) : Outcome (Option Playback) :=
  Outcome.returned (some { item := some (trackA albumArtUrl), is_playing := isPlaying,
                           progress_ms := 10000 })

/-- A local file as the playback API reports it: an item whose `id` is null. -/
def localTrack : Track :=
  { id := JsId.null, name := "Home recording", artists := ["Me"], duration_ms := 180000,
    albumArtUrl := none }

/-- A fetch result in which the local file is playing at 10000 ms. -/
def fetchedLocal : Outcome (Option Playback) :=
  Outcome.returned (some { item := some localTrack, is_playing := true, progress_ms := 10000 })

/-- Track `B`, 180000 ms long, as found by the poll of another key. -/
def trackB : Track :=
  { id := JsId.str "B", name := "Other song", artists := ["Artist"], duration_ms := 180000,
    albumArtUrl := none }

/-- A fetch result in which track `B` is playing at 5000 ms. -/
def fetchedB : Outcome (Option Playback) :=
  Outcome.returned (some { item := some trackB, is_playing := true, progress_ms := 5000 })

/-- Device `S1` with two now-playing keys, `k1` and `k2`, both active. -/
def demoWorldTwoKeys : World :=
  { demoWorld with
    keyData := fun u =>
      if u = "k1" then some demoKey
      else if u = "k2" then some { demoKey with uid := "k2" } else none
    activeKeys := [("S1-k1", true), ("S1-k2", true)] }

/-- A poll of key `k1` at clock `now` that finds track `A` and whose
saved-status check throws, overlapped by the poll of the second now-playing key
`k2`: while the first poll waits for its check (line 944), the timer of `k2`
fires and its poll runs from start to end, finding track `B` and getting
"saved" from its own check. -/
def overlappedPoll (now : Int) : PollEnv :=
  { authenticated := true, initializeAuthentication := Outcome.returned true,
    getCurrentPlayback := fetchedA true none, duringFetch := fun w => w, now := now,
    checkTracksSaved := Outcome.threw,
    duringCheck := fun w =>
      (updateNowPlayingKey demoHost (loadedPoll fetchedB now) "S1" "k2" false w).2,
    render := (demoRender now).asLoaded }

/-- The configuration of the scenarios: only `showProgress` is given, as false. -/
def demoConfig : KeyConfig :=
  { updateInterval := none, interpolationIntervalMs := none, showArtist := none,
    showProgress := some false, showTitle := none, showPlayPause := none,
    showTimeInfo := none, titleFontSize := none, artistFontSize := none,
    timeFontSize := none }

/-- The key `k1` as the host passes it on activation, with `demoConfig`. -/
def demoIncomingKey : IncomingKey :=
  { uid := "k1", cid := "com.energy.spotify_integration.nowplaying", width := some 360,
    data := some demoConfig }

/-- An initialisation of the module as loaded during which nothing else runs:
the calls through `renderer` throw; the first poll is made at clock `now` and
finds track `A`. -/
def demoInit (now : Int) : InitEnv :=
  { imageThrows := true, drawThrows := false, during := fun w => w,
    poll := loadedPoll (fetchedA true none) now }

/-! # Properties -/

/-! ## The interpolator -/

theorem estimatedProgress_of_playing (progressAtLastUpdate lastApiUpdateTime durationMs now : Int) :
    estimatedProgress true progressAtLastUpdate lastApiUpdateTime durationMs now =
      if lastApiUpdateTime > 0 ∧ durationMs > 0 then
        clamp (progressAtLastUpdate + (now - lastApiUpdateTime)) 0 durationMs
      else 0 := by
  unfold estimatedProgress clamp
  by_cases ht : lastApiUpdateTime > 0
  · by_cases hd : durationMs > 0
    · simp only [ht, hd, decide_True, Bool.and_self, and_self, if_true]
      split_ifs <;> omega
    · simp [ht, hd]
  · simp [ht]

theorem estimatedProgress_of_paused (progressAtLastUpdate lastApiUpdateTime durationMs now : Int) :
    estimatedProgress false progressAtLastUpdate lastApiUpdateTime durationMs now =
      progressAtLastUpdate := by
  simp [estimatedProgress]

/-- C3. Monotonicity and bound of the interpolator: while playing, with the
stored progress in `[0, durationMs]` and `lastApiUpdateTime ≤ now1 ≤ now2`, the
estimate at `now1` is at most the estimate at `now2`, and neither exceeds
`durationMs`. -/
theorem estimatedProgress_mono_bounded
    (progressAtLastUpdate lastApiUpdateTime durationMs now1 now2 : Int)
    (h0 : 0 ≤ progressAtLastUpdate) (hd : progressAtLastUpdate ≤ durationMs)
    (h1 : lastApiUpdateTime ≤ now1) (h12 : now1 ≤ now2) :
    estimatedProgress true progressAtLastUpdate lastApiUpdateTime durationMs now1 ≤
        estimatedProgress true progressAtLastUpdate lastApiUpdateTime durationMs now2 ∧
      estimatedProgress true progressAtLastUpdate lastApiUpdateTime durationMs now1 ≤ durationMs ∧
      estimatedProgress true progressAtLastUpdate lastApiUpdateTime durationMs now2 ≤ durationMs := by
  unfold estimatedProgress
  by_cases ht : lastApiUpdateTime > 0
  · by_cases hp : durationMs > 0
    · simp only [ht, hp, decide_True, Bool.and_self, if_true]
      split_ifs <;> omega
    · simp only [ht, hp, decide_True, decide_False, Bool.and_false, Bool.and_true, Bool.not_true]
      simp
      omega
  · simp only [ht, decide_False, Bool.and_false, Bool.false_and, Bool.not_true]
    simp
    omega

/-- Witness for C3: progress 10000 of 200000 polled at 1000, seen at 4000 and 9000. -/
theorem estimatedProgress_mono_bounded_witness :
    estimatedProgress true 10000 1000 200000 4000 ≤ estimatedProgress true 10000 1000 200000 9000 ∧
      estimatedProgress true 10000 1000 200000 4000 ≤ 200000 ∧
      estimatedProgress true 10000 1000 200000 9000 ≤ 200000 :=
  estimatedProgress_mono_bounded 10000 1000 200000 4000 9000
    (by decide) (by decide) (by decide) (by decide)

/-! ## Frame lemmas -/

theorem setKey_playback (w : World) (u : String) (k : Key) :
    (w.setKey u k).playback = w.playback := rfl

theorem refreshLikeKey_playback (acc : List Event × World) (activeKeyId : String) :
    (refreshLikeKey acc activeKeyId).2.playback = acc.2.playback := by
  unfold refreshLikeKey
  dsimp only
  split
  · rfl
  · split <;> rfl

theorem foldl_refreshLikeKey_playback (ids : List String) (acc : List Event × World) :
    (ids.foldl refreshLikeKey acc).2.playback = acc.2.playback := by
  induction ids generalizing acc with
  | nil => rfl
  | cons a rest ih => rw [List.foldl_cons, ih, refreshLikeKey_playback]

/-- What every iteration of the like-key loop preserves, the loop preserves,
whether `updateLikeKeyDisplay` is defined or not. -/
theorem updateLikeKeys_preserves (P : World → Prop)
    (hP : ∀ (acc : List Event × World) (activeKeyId : String),
      P acc.2 → P (refreshLikeKey acc activeKeyId).2)
    (host : Host) (w : World) (h : P w) : P (updateLikeKeys host w).2 := by
  unfold updateLikeKeys
  generalize (w.activeKeys.map Prod.fst) = ids
  split_ifs
  · have key : ∀ (ids : List String) (acc : List Event × World),
        P acc.2 → P (ids.foldl refreshLikeKey acc).2 := by
      intro ids
      induction ids with
      | nil => intro acc h; exact h
      | cons a rest ih => intro acc h; exact ih _ (hP acc a h)
    exact key ids _ h
  · have key : ∀ (ids : List String) (w : World), P w → P (updateLikeKeysThrowing ids w) := by
      intro ids
      induction ids with
      | nil => intro w h; exact h
      | cons a rest ih =>
        intro w h
        unfold updateLikeKeysThrowing
        dsimp only
        have hr := hP ([], w) a h
        split_ifs
        · exact ih _ hr
        · exact hr
    exact key ids w h

theorem updateLikeKeys_playback (host : Host) (w : World) :
    (updateLikeKeys host w).2.playback = w.playback :=
  updateLikeKeys_preserves (fun w' => w'.playback = w.playback)
    (fun acc a h => (refreshLikeKey_playback acc a).trans h) host w rfl

theorem snapshot_setKey_ne (w : World) (u uid : String) (k : Key) (h : uid ≠ u) :
    (w.setKey u k).snapshot uid = w.snapshot uid := by
  simp [World.snapshot, World.setKey, h]

theorem snapshot_setKey_eq (w : World) (u : String) (k : Key) :
    (w.setKey u k).snapshot u = k.data.map KeyData.snapshot := by
  simp [World.snapshot, World.setKey]

theorem refreshLikeKey_snapshot (acc : List Event × World) (activeKeyId uid : String)
    (s : Snapshot) (h : acc.2.snapshot uid = some s) :
    (refreshLikeKey acc activeKeyId).2.snapshot uid = some s := by
  unfold refreshLikeKey
  dsimp only
  generalize ((splitDash activeKeyId).get? 1).getD "undefined" = lk
  split
  · exact h
  · rename_i likeKey hk
    split
    · by_cases hu : uid = lk
      · subst hu
        rw [snapshot_setKey_eq]
        simp only [World.snapshot, hk] at h
        cases hd : likeKey.data with
        | none => simp [hd] at h
        | some d =>
          simp only [hd, Option.map_some', Option.some.injEq] at h
          simp [KeyData.snapshot, ← h]
      · rw [snapshot_setKey_ne _ _ _ _ hu]
        exact h
    · exact h

theorem foldl_refreshLikeKey_snapshot (ids : List String) (acc : List Event × World)
    (uid : String) (s : Snapshot) (h : acc.2.snapshot uid = some s) :
    (ids.foldl refreshLikeKey acc).2.snapshot uid = some s := by
  induction ids generalizing acc with
  | nil => exact h
  | cons a rest ih => exact ih _ (refreshLikeKey_snapshot acc a uid s h)

theorem updateLikeKeys_snapshot (host : Host) (w : World) (uid : String) (s : Snapshot)
    (h : w.snapshot uid = some s) : (updateLikeKeys host w).2.snapshot uid = some s :=
  updateLikeKeys_preserves (fun w' => w'.snapshot uid = some s)
    (fun acc a h => refreshLikeKey_snapshot acc a uid s h) host w h

theorem startOrRestartNowPlayingUpdates_playback (sn uid : String) (w : World) :
    (startOrRestartNowPlayingUpdates sn uid w).playback = w.playback := by
  unfold startOrRestartNowPlayingUpdates
  dsimp only
  split
  · rfl
  · split
    · rfl
    · rename_i d _
      rw [setKey_playback]
      cases w.keyIntervals (keyIdOf sn uid) <;> cases d.interpolationIntervalId <;> rfl

theorem startOrRestartNowPlayingUpdates_snapshot (sn uid uid' : String) (w : World) :
    (startOrRestartNowPlayingUpdates sn uid w).snapshot uid' = w.snapshot uid' := by
  unfold startOrRestartNowPlayingUpdates
  dsimp only
  split
  · rfl
  · rename_i key hk
    split
    · rfl
    · rename_i d hd
      by_cases hu : uid' = uid
      · subst hu
        rw [snapshot_setKey_eq]
        simp [World.snapshot, hk, hd, KeyData.snapshot]
      · rw [snapshot_setKey_ne _ _ _ _ hu]
        cases w.keyIntervals (keyIdOf sn uid) <;> cases d.interpolationIntervalId <;> rfl

/-- With the key's data in place, a render pass calls the renderer with the
configuration built from the stored snapshot and leaves the state to the
callbacks that run meanwhile. -/
theorem renderInterpolatedNowPlaying_of_data (host : Host) (env : RenderEnv)
    (sn uid : String) (w : World) (key : Key) (d : KeyData)
    (hk : w.keyData uid = some key) (hd : key.data = some d) :
    Event.createSpotifyButtonDataUrl (renderConfig host key d w.playback.isPlaying
        (estimatedProgress w.playback.isPlaying d.progressAtLastUpdate d.lastApiUpdateTime
          d.durationMs env.now)) ∈ (renderInterpolatedNowPlaying host env sn uid w).1 ∧
      (renderInterpolatedNowPlaying host env sn uid w).2 = env.during w := by
  unfold renderInterpolatedNowPlaying
  simp only [hk, hd]
  split_ifs <;> simp

theorem applySavedStatus_fields (trackId : JsId) (o : Outcome (Option (List Bool)))
    (g : PlaybackState) :
    (applySavedStatus trackId o g).1.trackId = g.trackId ∧
      (applySavedStatus trackId o g).1.isActive = g.isActive ∧
      (applySavedStatus trackId o g).1.isPlaying = g.isPlaying ∧
      (applySavedStatus trackId o g).1.progressAtLastUpdate = g.progressAtLastUpdate ∧
      (applySavedStatus trackId o g).1.lastApiUpdateTime = g.lastApiUpdateTime ∧
      (applySavedStatus trackId o g).1.durationMs = g.durationMs := by
  unfold applySavedStatus
  split <;> simp

theorem beforeSavedCheck_fields (f : Fetched) (now : Int) (w : World) :
    (beforeSavedCheck f now w).toKeyManager = w.toKeyManager ∧
      (beforeSavedCheck f now w).playback.trackId = f.trackId ∧
      (beforeSavedCheck f now w).playback.isActive = f.isActive ∧
      (beforeSavedCheck f now w).playback.isPlaying = f.isPlaying ∧
      (beforeSavedCheck f now w).playback.progressAtLastUpdate = f.progressMs ∧
      (beforeSavedCheck f now w).playback.lastApiUpdateTime = now ∧
      (beforeSavedCheck f now w).playback.durationMs = f.durationMs ∧
      (beforeSavedCheck f now w).playback.lastCheckedTrackId = w.playback.lastCheckedTrackId := by
  unfold beforeSavedCheck writeGlobal
  dsimp only
  split_ifs <;> simp

/-- The fields of the global record that every poll overwrites, after the
global update, when no other poll ran during the saved-status check. -/
theorem updateGlobalPlaybackState_fields (env : PollEnv) (f : Fetched) (w : World)
    (hq : ∀ w, (env.duringCheck w).playback = w.playback) :
    (updateGlobalPlaybackState env f w).world.playback.trackId = f.trackId ∧
      (updateGlobalPlaybackState env f w).world.playback.isActive = f.isActive ∧
      (updateGlobalPlaybackState env f w).world.playback.isPlaying = f.isPlaying ∧
      (updateGlobalPlaybackState env f w).world.playback.progressAtLastUpdate = f.progressMs ∧
      (updateGlobalPlaybackState env f w).world.playback.lastApiUpdateTime = env.now ∧
      (updateGlobalPlaybackState env f w).world.playback.durationMs = f.durationMs := by
  obtain ⟨_, b1, b2, b3, b4, b5, b6, _⟩ := beforeSavedCheck_fields f env.now w
  unfold updateGlobalPlaybackState
  dsimp only
  split_ifs
  · obtain ⟨a1, a2, a3, a4, a5, a6⟩ := applySavedStatus_fields f.trackId env.checkTracksSaved
      (beforeSavedCheck f env.now w).playback
    simp only [hq, a1, a2, a3, a4, a5, a6]
    exact ⟨b1, b2, b3, b4, b5, b6⟩
  · exact ⟨b1, b2, b3, b4, b5, b6⟩
  · exact ⟨b1, b2, b3, b4, b5, b6⟩
  · exact ⟨b1, b2, b3, b4, b5, b6⟩

theorem updateGlobalPlaybackState_quiet (env : PollEnv) (f : Fetched) (w : World)
    (hq : ∀ w, env.duringCheck w = w) :
    (updateGlobalPlaybackState env f w).world.toKeyManager = w.toKeyManager := by
  have b := (beforeSavedCheck_fields f env.now w).1
  unfold updateGlobalPlaybackState
  dsimp only
  split_ifs
  · simp only [hq]; exact b
  · exact b
  · exact b
  · exact b

theorem snapshot_some (w : World) (uid : String) (s : Snapshot)
    (h : w.snapshot uid = some s) :
    ∃ key d, w.keyData uid = some key ∧ key.data = some d ∧ d.snapshot = s := by
  unfold World.snapshot at h
  split at h
  · rename_i key hk
    cases hd : key.data with
    | none => simp [hd] at h
    | some d =>
      simp only [hd, Option.map_some', Option.some.injEq] at h
      exact ⟨key, d, hk, hd, h⟩
  · simp at h

theorem updateKeyAndRender_quiet (host : Host) (env : PollEnv) (sn uid : String)
    (b : Bool) (f : Fetched) (changed : Bool) (w : World) (key : Key) (d : KeyData)
    (hr : ∀ w, env.render.during w = w)
    (hk : w.keyData uid = some key) (hu : key.uid = uid) (hd : key.data = some d) :
    (updateKeyAndRender host env sn uid b f changed w).2.snapshot uid =
        some ⟨f.currentTrack, env.now, f.progressMs, f.durationMs⟩ ∧
      (updateKeyAndRender host env sn uid b f changed w).2.playback = w.playback := by
  subst hu
  unfold updateKeyAndRender
  simp only [hk, hd]
  generalize hw1 : w.setKey key.uid { key with data := some (writeKeyData f env.now d) } = w1
  have s1 : w1.snapshot key.uid = some ⟨f.currentTrack, env.now, f.progressMs, f.durationMs⟩ := by
    rw [← hw1, snapshot_setKey_eq]; rfl
  have p1 : w1.playback = w.playback := by rw [← hw1]; rfl
  generalize hw2 : (if b = true then startOrRestartNowPlayingUpdates sn key.uid w1 else w1) = w2
  have s2 : w2.snapshot key.uid = some ⟨f.currentTrack, env.now, f.progressMs, f.durationMs⟩ := by
    rw [← hw2]; split_ifs
    · rw [startOrRestartNowPlayingUpdates_snapshot]; exact s1
    · exact s1
  have p2 : w2.playback = w.playback := by
    rw [← hw2]; split_ifs
    · rw [startOrRestartNowPlayingUpdates_playback]; exact p1
    · exact p1
  obtain ⟨key2, d2, hk2, hd2, _⟩ := snapshot_some w2 key.uid _ s2
  have r2 := (renderInterpolatedNowPlaying_of_data host env.render sn key.uid w2 key2 d2 hk2 hd2).2
  rw [hr] at r2
  split_ifs
  · simp only [r2]
    exact ⟨updateLikeKeys_snapshot host w2 key.uid _ s2,
      by rw [updateLikeKeys_playback]; exact p2⟩
  · rw [r2]
    exact ⟨s2, p2⟩

/-- A poll that runs on its own, for an active key that has data and is stored
under its own UID, leaves in the key the snapshot derived from the fetch and in
the global record the result of the global update. -/
theorem updateNowPlayingKey_quiet (host : Host) (env : PollEnv) (sn uid : String)
    (b : Bool) (w : World) (key : Key) (d : KeyData) (hq : env.Quiet)
    (hk : w.keyData uid = some key) (hu : key.uid = uid) (hd : key.data = some d)
    (ha : w.isActiveKey (keyIdOf sn uid) = true) :
    (updateNowPlayingKey host env sn uid b w).2.snapshot uid =
        some ⟨(processFetched (fetchPlayback env).2).currentTrack, env.now,
          (processFetched (fetchPlayback env).2).progressMs,
          (processFetched (fetchPlayback env).2).durationMs⟩ ∧
      (updateNowPlayingKey host env sn uid b w).2.playback =
        (updateGlobalPlaybackState env (processFetched (fetchPlayback env).2) w).world.playback := by
  obtain ⟨q1, q2, q3⟩ := hq
  unfold updateNowPlayingKey
  simp only [hk, ha, q1, Bool.not_true, Bool.false_eq_true, if_false]
  have hkm := updateGlobalPlaybackState_quiet env (processFetched (fetchPlayback env).2) w q2
  have hk' : (updateGlobalPlaybackState env (processFetched (fetchPlayback env).2) w).world.keyData uid
      = some key := by
    show (updateGlobalPlaybackState env _ w).world.toKeyManager.keyData uid = some key
    rw [hkm]; exact hk
  exact updateKeyAndRender_quiet host env sn uid b _ _ _ key d q3 hk' hu hd

/-! ## What a render pass hands to the renderer -/

theorem passedProgress_append (a b : List Event) :
    passedProgress (a ++ b) = passedProgress a ++ passedProgress b := by
  induction a with
  | nil => rfl
  | cons e rest ih => cases e <;> simp [passedProgress, ih]

theorem passedProgress_loadAlbumArt (loadOk : Nat → Bool) (url : String)
    (remaining attempt : Nat) :
    passedProgress (loadAlbumArt loadOk url remaining attempt).1 = [] := by
  induction remaining generalizing attempt with
  | zero => rfl
  | succ n ih =>
    unfold loadAlbumArt
    split_ifs <;> simp [passedProgress, passedProgress_append, ih]

theorem passedProgress_createSpotifyButtonDataUrl (loadOk : Nat → Bool)
    (config : CanvasConfig) :
    passedProgress (createSpotifyButtonDataUrl loadOk config).1 = [] := by
  unfold createSpotifyButtonDataUrl createModernNowPlayingCanvas
  split
  · split_ifs
    · rfl
    · exact passedProgress_loadAlbumArt _ _ _ _
  · rfl

/-- A render pass of a key that has data hands exactly one progress value to
the renderer: the interpolator's estimate from the stored snapshot. -/
theorem passedProgress_render (host : Host) (env : RenderEnv) (sn uid : String)
    (w : World) (s : Snapshot) (h : w.snapshot uid = some s) :
    passedProgress (renderInterpolatedNowPlaying host env sn uid w).1 =
      [estimatedProgress w.playback.isPlaying s.progressAtLastUpdate s.lastApiUpdateTime
        s.durationMs env.now] := by
  obtain ⟨key, d, hk, hd, hs⟩ := snapshot_some w uid s h
  subst hs
  unfold renderInterpolatedNowPlaying
  simp only [hk, hd]
  split_ifs <;>
    simp [passedProgress, passedProgress_append, passedProgress_createSpotifyButtonDataUrl,
      KeyData.snapshot, renderConfig]

/-! ## The poll-then-render scenario -/

/-- C4. End-to-end scenario: after `updateNowPlayingKey` processes a poll that
returns a track (such as "A") with `isPlaying` true, `progressMs` 10000 and
`durationMs` 200000, a render pass 3000 ms later with no intervening poll hands
exactly the estimate 13000 to the renderer. The scenario's time line starts at
the poll: `t` is the value `Date.now()` has there, a positive number of
milliseconds since 1970, and the render pass runs at `t + 3000`. -/
theorem scenario_poll_then_render (host : Host) (env : PollEnv) (renv : RenderEnv)
    (sn uid : String) (shouldStartTimers : Bool) (w : World) (key : Key) (d : KeyData)
    (track : Track) (t : Int)
    (hq : env.Quiet) (hk : w.keyData uid = some key) (hu : key.uid = uid)
    (hd : key.data = some d) (ha : w.isActiveKey (keyIdOf sn uid) = true)
    (hfetch : (fetchPlayback env).2 =
      some { item := some track, is_playing := true, progress_ms := 10000 })
    (hdur : track.duration_ms = 200000)
    (hnow : env.now = t) (ht : 0 < t) (hrender : renv.now = t + 3000) :
    passedProgress (renderInterpolatedNowPlaying host renv sn uid
      (updateNowPlayingKey host env sn uid shouldStartTimers w).2).1 = [13000] := by
  obtain ⟨hs, hp⟩ := updateNowPlayingKey_quiet host env sn uid shouldStartTimers w key d hq hk hu hd ha
  rw [passedProgress_render host renv sn uid _ _ hs, hp,
    (updateGlobalPlaybackState_fields env _ w (fun w => by rw [hq.2.1])).2.2.1, hfetch]
  simp only [processFetched, Option.isSome_some, Bool.and_self, if_true, Option.bind_some,
    Option.map_some', jsOrInt, hdur, hnow, hrender]
  rw [estimatedProgress_of_playing]
  simp only [clamp]
  norm_num
  omega

/-- Witness for C4: device `S1`, key `k1`, poll at clock 1000, render at 4000. -/
theorem scenario_poll_then_render_witness :
    passedProgress (renderInterpolatedNowPlaying demoHost (demoRender 4000) "S1" "k1"
      (updateNowPlayingKey demoHost (demoPoll (fetchedA true none) 1000) "S1" "k1" true
        demoWorld).2).1 = [13000] :=
  scenario_poll_then_render demoHost (demoPoll (fetchedA true none) 1000) (demoRender 4000)
    "S1" "k1" true demoWorld demoKey demoData (trackA none) 1000
    ⟨fun _ => rfl, fun _ => rfl, fun _ => rfl⟩ (by decide) (by decide) (by decide) (by decide)
    (by decide) (by decide) (by decide) (by decide) (by decide)

/-- C1. Playing case of the interpolator: when the global `isPlaying` is true,
the estimate a render pass computes from the key's stored values and hands to
the renderer is `clamp(progressAtLastUpdate + (now - lastApiUpdateTime), 0,
durationMs)` if `lastApiUpdateTime > 0` and `durationMs > 0`, and `0` otherwise. -/
theorem render_estimate_playing (host : Host) (env : RenderEnv) (sn uid : String)
    (w : World) (s : Snapshot) (h : w.snapshot uid = some s)
    (hp : w.playback.isPlaying = true) :
    estimatedProgress true s.progressAtLastUpdate s.lastApiUpdateTime s.durationMs env.now =
        (if s.lastApiUpdateTime > 0 ∧ s.durationMs > 0 then
          clamp (s.progressAtLastUpdate + (env.now - s.lastApiUpdateTime)) 0 s.durationMs
        else 0) ∧
      passedProgress (renderInterpolatedNowPlaying host env sn uid w).1 =
        [if s.lastApiUpdateTime > 0 ∧ s.durationMs > 0 then
          clamp (s.progressAtLastUpdate + (env.now - s.lastApiUpdateTime)) 0 s.durationMs
        else 0] := by
  refine ⟨estimatedProgress_of_playing _ _ _ _, ?_⟩
  rw [passedProgress_render host env sn uid w s h, hp, estimatedProgress_of_playing]

/-- Witness for C1: key `k1` after a poll at clock 1000, rendered at clock 4000. -/
theorem render_estimate_playing_witness :
    estimatedProgress true 10000 1000 200000 4000 =
        (if (1000 : Int) > 0 ∧ (200000 : Int) > 0 then clamp (10000 + (4000 - 1000)) 0 200000
        else 0) ∧
      passedProgress (renderInterpolatedNowPlaying demoHost (demoRender 4000) "S1" "k1"
        (updateNowPlayingKey demoHost (demoPoll (fetchedA true none) 1000) "S1" "k1" true
          demoWorld).2).1 =
        [if (1000 : Int) > 0 ∧ (200000 : Int) > 0 then clamp (10000 + (4000 - 1000)) 0 200000
        else 0] :=
  render_estimate_playing demoHost (demoRender 4000) "S1" "k1"
    (updateNowPlayingKey demoHost (demoPoll (fetchedA true none) 1000) "S1" "k1" true demoWorld).2
    ⟨some (trackA none), 1000, 10000, 200000⟩ (by decide) (by decide)

/-- C2. Paused case of the interpolator: when the global `isPlaying` is false,
the estimate is `progressAtLastUpdate` for every clock value and every stored
`lastApiUpdateTime` and `durationMs`, and that is the value a render pass hands
to the renderer. -/
theorem render_estimate_paused (host : Host) (env : RenderEnv) (sn uid : String)
    (w : World) (s : Snapshot) (h : w.snapshot uid = some s)
    (hp : w.playback.isPlaying = false) :
    (∀ progressAtLastUpdate lastApiUpdateTime durationMs now : Int,
        estimatedProgress false progressAtLastUpdate lastApiUpdateTime durationMs now =
          progressAtLastUpdate) ∧
      passedProgress (renderInterpolatedNowPlaying host env sn uid w).1 =
        [s.progressAtLastUpdate] := by
  refine ⟨estimatedProgress_of_paused, ?_⟩
  rw [passedProgress_render host env sn uid w s h, hp, estimatedProgress_of_paused]

/-- Witness for C2: the poll reports progress 10000 while paused; a render pass
at clock 9000 hands 10000 to the renderer. -/
theorem render_estimate_paused_witness :
    (∀ progressAtLastUpdate lastApiUpdateTime durationMs now : Int,
        estimatedProgress false progressAtLastUpdate lastApiUpdateTime durationMs now =
          progressAtLastUpdate) ∧
      passedProgress (renderInterpolatedNowPlaying demoHost (demoRender 9000) "S1" "k1"
        (updateNowPlayingKey demoHost (demoPoll (fetchedA false none) 1000) "S1" "k1" true
          demoWorld).2).1 = [10000] :=
  render_estimate_paused demoHost (demoRender 9000) "S1" "k1"
    (updateNowPlayingKey demoHost (demoPoll (fetchedA false none) 1000) "S1" "k1" true demoWorld).2
    ⟨some (trackA none), 1000, 10000, 200000⟩ (by decide) (by decide)

/-! ## A failed fetch -/

theorem fetchPlayback_of_fetchFails (env : PollEnv) (h : env.fetchFails = true) :
    (fetchPlayback env).2 = none := by
  unfold PollEnv.fetchFails at h
  unfold fetchPlayback
  rcases ha : env.authenticated with _ | _ <;>
    rcases hi : env.initializeAuthentication with _ | (_ | _) <;>
    rcases hg : env.getCurrentPlayback with _ | _ <;>
    simp [ha, hi, hg] at h ⊢

/-- C5, counterexample. Key `k1` holds the snapshot of a successful poll at
clock 1000 (track "A", progress 10000 of 200000); a poll at clock 5000 whose
`getCurrentPlayback` throws replaces it with the empty snapshot stamped 5000. -/
theorem failed_poll_overwrites_snapshot :
    (updateNowPlayingKey demoHost (demoPoll (fetchedA true none) 1000) "S1" "k1" true
        demoWorld).2.snapshot "k1" = some ⟨some (trackA none), 1000, 10000, 200000⟩ ∧
      (updateNowPlayingKey demoHost (demoPoll Outcome.threw 5000) "S1" "k1" false
        (updateNowPlayingKey demoHost (demoPoll (fetchedA true none) 1000) "S1" "k1" true
          demoWorld).2).2.snapshot "k1" = some ⟨none, 5000, 0, 0⟩ := by
  decide

/-- C5, amended. A poll whose playback fetch fails is processed as "nothing is
playing": afterwards the key's `currentTrackDetails` is null, its
`progressAtLastUpdate` and `durationMs` are 0 and its `lastApiUpdateTime` is
the time of the tick; the global record is inactive, not playing, with an
undefined track, progress 0 and duration 0; and the next render pass hands
progress 0 to the renderer. -/
theorem failed_poll_resets_snapshot (host : Host) (env : PollEnv) (renv : RenderEnv)
    (sn uid : String) (shouldStartTimers : Bool) (w : World) (key : Key) (d : KeyData)
    (hq : env.Quiet) (hk : w.keyData uid = some key) (hu : key.uid = uid)
    (hd : key.data = some d) (ha : w.isActiveKey (keyIdOf sn uid) = true)
    (hfail : env.fetchFails = true) :
    (updateNowPlayingKey host env sn uid shouldStartTimers w).2.snapshot uid =
        some ⟨none, env.now, 0, 0⟩ ∧
      (updateNowPlayingKey host env sn uid shouldStartTimers w).2.playback.isActive = false ∧
      (updateNowPlayingKey host env sn uid shouldStartTimers w).2.playback.isPlaying = false ∧
      (updateNowPlayingKey host env sn uid shouldStartTimers w).2.playback.trackId =
        JsId.undefined ∧
      (updateNowPlayingKey host env sn uid shouldStartTimers w).2.playback.progressAtLastUpdate
        = 0 ∧
      (updateNowPlayingKey host env sn uid shouldStartTimers w).2.playback.lastApiUpdateTime
        = env.now ∧
      (updateNowPlayingKey host env sn uid shouldStartTimers w).2.playback.durationMs = 0 ∧
      passedProgress (renderInterpolatedNowPlaying host renv sn uid
        (updateNowPlayingKey host env sn uid shouldStartTimers w).2).1 = [0] := by
  obtain ⟨hs, hp⟩ := updateNowPlayingKey_quiet host env sn uid shouldStartTimers w key d hq hk hu hd ha
  obtain ⟨g1, g2, g3, g4, g5, g6⟩ := updateGlobalPlaybackState_fields env
    (processFetched (fetchPlayback env).2) w (fun w => by rw [hq.2.1])
  rw [fetchPlayback_of_fetchFails env hfail] at hs hp g1 g2 g3 g4 g5 g6
  have hs' : (updateNowPlayingKey host env sn uid shouldStartTimers w).2.snapshot uid =
      some ⟨none, env.now, 0, 0⟩ := hs
  refine ⟨hs', ?_, ?_, ?_, ?_, ?_, ?_, ?_⟩
  · rw [hp, g2]; rfl
  · rw [hp, g3]; rfl
  · rw [hp, g1]; rfl
  · rw [hp, g4]; rfl
  · rw [hp, g5]
  · rw [hp, g6]; rfl
  · rw [passedProgress_render host renv sn uid _ _ hs', hp, g3]
    rfl

/-- Witness for C5: key `k1` after a successful poll, then a poll at clock 5000
whose fetch throws, then a render pass at clock 6000. -/
theorem failed_poll_resets_snapshot_witness :
    (updateNowPlayingKey demoHost (demoPoll Outcome.threw 5000) "S1" "k1" false
        (updateNowPlayingKey demoHost (demoPoll (fetchedA true none) 1000) "S1" "k1" true
          demoWorld).2).2.snapshot "k1" = some ⟨none, 5000, 0, 0⟩ :=
  (failed_poll_resets_snapshot demoHost (demoPoll Outcome.threw 5000) (demoRender 6000)
    "S1" "k1" false
    (updateNowPlayingKey demoHost (demoPoll (fetchedA true none) 1000) "S1" "k1" true demoWorld).2
    { demoKey with data := some { demoData with
        currentTrackDetails := some (trackA none), lastApiUpdateTime := 1000,
        progressAtLastUpdate := 10000, durationMs := 200000,
        interpolationIntervalId := some 2 } }
    { demoData with
        currentTrackDetails := some (trackA none), lastApiUpdateTime := 1000,
        progressAtLastUpdate := 10000, durationMs := 200000,
        interpolationIntervalId := some 2 }
    ⟨fun _ => rfl, fun _ => rfl, fun _ => rfl⟩ (by decide) (by decide) (by decide) (by decide)
    (by decide)).1

/-! ## The like flag -/

theorem renderInterpolatedNowPlaying_playback (host : Host) (env : RenderEnv)
    (sn uid : String) (w : World) (hr : ∀ w, (env.during w).playback = w.playback) :
    (renderInterpolatedNowPlaying host env sn uid w).2.playback = w.playback := by
  unfold renderInterpolatedNowPlaying
  split
  · rfl
  · split
    · rfl
    · dsimp only
      split_ifs <;> exact hr w

theorem updateKeyAndRender_playback (host : Host) (env : PollEnv) (sn uid : String)
    (b : Bool) (f : Fetched) (changed : Bool) (w : World)
    (hr : ∀ w, (env.render.during w).playback = w.playback) :
    (updateKeyAndRender host env sn uid b f changed w).2.playback = w.playback := by
  unfold updateKeyAndRender
  split
  · rfl
  · split
    · rfl
    · dsimp only
      cases b <;> cases changed <;>
        simp [updateLikeKeys_playback, renderInterpolatedNowPlaying_playback _ _ _ _ _ hr,
          startOrRestartNowPlayingUpdates_playback, setKey_playback]

/-- The global record after a poll during which no other poll ran: the result
of the global update when the key is stored and active, and the record as it
was when the poll returns before fetching. -/
theorem updateNowPlayingKey_playback (host : Host) (env : PollEnv) (sn uid : String)
    (b : Bool) (w : World) (hn : env.NonOverlapping) :
    (updateNowPlayingKey host env sn uid b w).2.playback =
      if (w.keyData uid).isSome ∧ w.isActiveKey (keyIdOf sn uid) = true then
        (updateGlobalPlaybackState env (processFetched (fetchPlayback env).2)
          (env.duringFetch w)).world.playback
      else w.playback := by
  unfold updateNowPlayingKey
  dsimp only
  split
  · rename_i hk; simp [hk, Host.cleanup]
  · rename_i key hk
    by_cases ha : w.isActiveKey (keyIdOf sn uid) = true
    · simp only [ha, hk, Bool.not_true, Bool.false_eq_true, if_false, Option.isSome_some,
        and_self, if_true]
      exact updateKeyAndRender_playback host env sn uid b _ _ _ hn.2.2
    · simp [ha, hk, Host.cleanup]

theorem applySavedStatus_isLiked_none (trackId : JsId) (o : Outcome (Option (List Bool)))
    (g : PlaybackState) (hg : g.isLiked = none)
    (ho : o = Outcome.threw ∨ o = Outcome.returned none ∨ o = Outcome.returned (some [])) :
    (applySavedStatus trackId o g).1.isLiked = none := by
  rcases ho with h | h | h <;> subst h <;> exact hg

theorem beforeSavedCheck_isLiked (f : Fetched) (now : Int) (w : World)
    (hchg : f.trackId ≠ w.playback.trackId) :
    (beforeSavedCheck f now w).playback.isLiked = none := by
  unfold beforeSavedCheck
  simp [hchg]

theorem updateGlobalPlaybackState_isLiked_none (env : PollEnv) (f : Fetched) (w : World)
    (hq : ∀ w, (env.duringCheck w).playback = w.playback)
    (hchg : f.trackId ≠ w.playback.trackId)
    (ho : needsSavedCheck f (beforeSavedCheck f env.now w).playback = false ∨
      env.checkTracksSaved = Outcome.threw ∨ env.checkTracksSaved = Outcome.returned none ∨
      env.checkTracksSaved = Outcome.returned (some [])) :
    (updateGlobalPlaybackState env f w).world.playback.isLiked = none := by
  have hb := beforeSavedCheck_isLiked f env.now w hchg
  unfold updateGlobalPlaybackState
  dsimp only
  rw [if_pos hchg]
  by_cases hc : needsSavedCheck f (beforeSavedCheck f env.now w).playback = true
  · rw [if_pos hc]
    rcases ho with h | h
    · rw [h] at hc; cases hc
    · exact applySavedStatus_isLiked_none _ _ _ (by rw [hq]; exact hb) h
  · rw [if_neg hc]
    split_ifs
    · rfl
    · exact hb

/-- The global record after a poll during whose render pass no other poll
wrote to it: the result of the global update when the key is stored and active. -/
theorem updateNowPlayingKey_playback_of_render (host : Host) (env : PollEnv) (sn uid : String)
    (b : Bool) (w : World) (key : Key) (hk : w.keyData uid = some key)
    (ha : w.isActiveKey (keyIdOf sn uid) = true)
    (hr : ∀ w, (env.render.during w).playback = w.playback) :
    (updateNowPlayingKey host env sn uid b w).2.playback =
      (updateGlobalPlaybackState env (processFetched (fetchPlayback env).2)
        (env.duringFetch w)).world.playback := by
  unfold updateNowPlayingKey
  dsimp only
  simp only [hk, ha, Bool.not_true, Bool.false_eq_true, if_false]
  exact updateKeyAndRender_playback host env sn uid b _ _ _ hr

/-- C6, counterexample. The poll of key `k1` resolves track "A" while the
global `trackId` is null, so the track changed; it resets `isLiked` and issues
the saved-status check for "A", which throws. While it waits for that check,
the poll of the second now-playing key `k2` runs: it resolves track "B" and
gets "saved" from its own check. After the first poll the global `isLiked` is
true, not null. -/
theorem overlapping_poll_leaves_isLiked_set :
    (processFetched (fetchPlayback (overlappedPoll 1000)).2).trackId ≠
        demoWorldTwoKeys.playback.trackId ∧
      (beforeSavedCheck (processFetched (fetchPlayback (overlappedPoll 1000)).2) 1000
        demoWorldTwoKeys).playback.isLiked = none ∧
      savedChecks (updateNowPlayingKey demoHost (overlappedPoll 1000) "S1" "k1" false
        demoWorldTwoKeys).1 = ["A"] ∧
      (overlappedPoll 1000).checkTracksSaved = Outcome.threw ∧
      (updateNowPlayingKey demoHost (overlappedPoll 1000) "S1" "k1" false
        demoWorldTwoKeys).2.playback.isLiked = some true ∧
      (updateNowPlayingKey demoHost (overlappedPoll 1000) "S1" "k1" false
        demoWorldTwoKeys).2.playback.isLiked ≠ none := by
  decide

/-- C6, amended. Track change resets the like flag. For a poll that gets as
far as resolving a `trackId` (its key is stored and active) and whose `trackId`
differs from the previous global `trackId` (read at line 924, after the fetch):
in the state in which the saved-status check is issued (the state handed to the
`await`) `isLiked` is null; and, provided no other poll writes the global record
while this poll waits for the check and for its render pass, `isLiked` is null
after the poll whenever the check is not made, throws, or returns an empty
result. -/
theorem track_change_resets_isLiked (host : Host) (env : PollEnv) (sn uid : String)
    (shouldStartTimers : Bool) (w : World) (key : Key)
    (hk : w.keyData uid = some key)
    (ha : w.isActiveKey (keyIdOf sn uid) = true)
    (hchg : (processFetched (fetchPlayback env).2).trackId ≠
      (env.duringFetch w).playback.trackId) :
    (beforeSavedCheck (processFetched (fetchPlayback env).2) env.now
        (env.duringFetch w)).playback.isLiked = none ∧
      (needsSavedCheck (processFetched (fetchPlayback env).2)
          (beforeSavedCheck (processFetched (fetchPlayback env).2) env.now
            (env.duringFetch w)).playback = true →
        (updateGlobalPlaybackState env (processFetched (fetchPlayback env).2)
            (env.duringFetch w)).world =
          { env.duringCheck (beforeSavedCheck (processFetched (fetchPlayback env).2) env.now
              (env.duringFetch w)) with
            playback := (applySavedStatus (processFetched (fetchPlayback env).2).trackId
              env.checkTracksSaved
              (env.duringCheck (beforeSavedCheck (processFetched (fetchPlayback env).2) env.now
                (env.duringFetch w))).playback).1 }) ∧
      ((∀ w, (env.duringCheck w).playback = w.playback) →
        (∀ w, (env.render.during w).playback = w.playback) →
        (needsSavedCheck (processFetched (fetchPlayback env).2)
            (beforeSavedCheck (processFetched (fetchPlayback env).2) env.now
              (env.duringFetch w)).playback = false ∨
          env.checkTracksSaved = Outcome.threw ∨
          env.checkTracksSaved = Outcome.returned none ∨
          env.checkTracksSaved = Outcome.returned (some [])) →
        (updateNowPlayingKey host env sn uid shouldStartTimers w).2.playback.isLiked = none) := by
  refine ⟨beforeSavedCheck_isLiked _ _ _ hchg, ?_, ?_⟩
  · intro hc
    unfold updateGlobalPlaybackState
    dsimp only
    rw [if_pos hchg, if_pos hc]
  · intro hcheck hrender ho
    rw [updateNowPlayingKey_playback_of_render host env sn uid shouldStartTimers w key hk ha
      hrender]
    exact updateGlobalPlaybackState_isLiked_none env _ _ hcheck hchg ho

/-- Witness for C6: the first poll of key `k1` finds track "A" (the global
`trackId` was null) and the saved-status check throws. -/
theorem track_change_resets_isLiked_witness :
    (updateNowPlayingKey demoHost
      { demoPoll (fetchedA true none) 1000 with checkTracksSaved := Outcome.threw }
      "S1" "k1" true demoWorld).2.playback.isLiked = none :=
  (track_change_resets_isLiked demoHost
    { demoPoll (fetchedA true none) 1000 with checkTracksSaved := Outcome.threw }
    "S1" "k1" true demoWorld demoKey (by decide) (by decide) (by decide)).2.2
    (fun _ => rfl) (fun _ => rfl) (Or.inr (Or.inl rfl))

theorem likeFresh_of_isLiked_none (g : PlaybackState) (h : g.isLiked = none) : LikeFresh g :=
  fun hne => absurd h hne

theorem needsSavedCheck_truthy (f : Fetched) (g : PlaybackState)
    (h : needsSavedCheck f g = true) : f.trackId.truthy = true := by
  unfold needsSavedCheck at h
  simp only [Bool.and_eq_true] at h
  exact h.1.2

theorem likeFresh_applySavedStatus (trackId : JsId) (o : Outcome (Option (List Bool)))
    (g : PlaybackState) (hid : g.trackId = trackId) (ht : trackId.truthy = true)
    (hg : g.isLiked = none) : LikeFresh (applySavedStatus trackId o g).1 := by
  unfold applySavedStatus
  split
  · exact likeFresh_of_isLiked_none _ hg
  · intro _
    exact ⟨by rw [← hid] at ht; exact ht, hid.symm⟩
  · exact likeFresh_of_isLiked_none _ hg

/-- The global update keeps the like flag fresh. -/
theorem likeFresh_updateGlobalPlaybackState (env : PollEnv) (f : Fetched) (w : World)
    (hq : ∀ w, (env.duringCheck w).playback = w.playback) (h : LikeFresh w.playback) :
    LikeFresh (updateGlobalPlaybackState env f w).world.playback := by
  by_cases hchg : f.trackId ≠ w.playback.trackId
  · have hb := beforeSavedCheck_isLiked f env.now w hchg
    have hid := (beforeSavedCheck_fields f env.now w).2.1
    unfold updateGlobalPlaybackState
    dsimp only
    rw [if_pos hchg]
    split_ifs with hc hi
    · exact likeFresh_applySavedStatus _ _ _ (by rw [hq]; exact hid)
        (needsSavedCheck_truthy _ _ hc) (by rw [hq]; exact hb)
    · exact likeFresh_of_isLiked_none _ rfl
    · exact likeFresh_of_isLiked_none _ hb
  · have heq : f.trackId = w.playback.trackId := not_not.mp hchg
    unfold updateGlobalPlaybackState
    dsimp only
    rw [if_neg hchg]
    unfold beforeSavedCheck writeGlobal
    dsimp only
    rw [if_neg hchg]
    intro hl
    obtain ⟨h1, h2⟩ := h hl
    exact ⟨by rw [heq]; exact h1, by rw [heq]; exact h2⟩

theorem likeFresh_updateNowPlayingKey (host : Host) (env : PollEnv) (sn uid : String)
    (b : Bool) (w : World) (hn : env.NonOverlapping) (h : LikeFresh w.playback) :
    LikeFresh (updateNowPlayingKey host env sn uid b w).2.playback := by
  rw [updateNowPlayingKey_playback host env sn uid b w hn]
  split_ifs
  · exact likeFresh_updateGlobalPlaybackState env _ _ hn.2.1 (by rw [hn.1]; exact h)
  · exact h

theorem likeFresh_runPolls (host : Host) (calls : List PollCall) (w : World)
    (hs : ∀ c ∈ calls, c.Sequential) (h : LikeFresh w.playback) :
    LikeFresh (runPolls host w calls).playback := by
  induction calls generalizing w with
  | nil => exact h
  | cons c rest ih =>
    have hc := hs c (List.mem_cons_self c rest)
    exact ih _ (fun c' hc' => hs c' (List.mem_cons_of_mem c hc'))
      (likeFresh_updateNowPlayingKey host c.env c.serialNumber c.keyUid c.shouldStartTimers _
        hc.2 (by rw [hc.1]; exact h))

/-- C7. No stale like-state: starting from the initial global state, after any
run of non-overlapping polls (with any other callbacks in between that do not
write the global record), whenever the global `isLiked` is non-null the global
`trackId` is present and `lastCheckedTrackId` equals `trackId`. -/
theorem like_state_never_stale (host : Host) (w : World) (calls : List PollCall)
    (h0 : w.playback = currentPlaybackState) (hs : ∀ c ∈ calls, c.Sequential) :
    (runPolls host w calls).playback.isLiked ≠ none →
      (runPolls host w calls).playback.trackId.truthy = true ∧
        (runPolls host w calls).playback.lastCheckedTrackId =
          (runPolls host w calls).playback.trackId :=
  likeFresh_runPolls host calls w hs (likeFresh_of_isLiked_none _ (by rw [h0]; rfl))

/-- Witness for C7: two polls of key `k1` that both find track "A", saved. -/
theorem like_state_never_stale_witness :
    (runPolls demoHost demoWorld
        [⟨fun w => w, demoPoll (fetchedA true none) 1000, "S1", "k1", true⟩,
          ⟨fun w => w, demoPoll (fetchedA true none) 5000, "S1", "k1", false⟩]).playback.isLiked
          = some true ∧
      (runPolls demoHost demoWorld
          [⟨fun w => w, demoPoll (fetchedA true none) 1000, "S1", "k1", true⟩,
            ⟨fun w => w, demoPoll (fetchedA true none) 5000, "S1", "k1", false⟩]).playback.trackId.truthy
          = true ∧
      (runPolls demoHost demoWorld
          [⟨fun w => w, demoPoll (fetchedA true none) 1000, "S1", "k1", true⟩,
            ⟨fun w => w, demoPoll (fetchedA true none) 5000, "S1", "k1", false⟩]).playback.lastCheckedTrackId =
        (runPolls demoHost demoWorld
          [⟨fun w => w, demoPoll (fetchedA true none) 1000, "S1", "k1", true⟩,
            ⟨fun w => w, demoPoll (fetchedA true none) 5000, "S1", "k1", false⟩]).playback.trackId :=
  ⟨by decide,
    like_state_never_stale demoHost demoWorld
      [⟨fun w => w, demoPoll (fetchedA true none) 1000, "S1", "k1", true⟩,
        ⟨fun w => w, demoPoll (fetchedA true none) 5000, "S1", "k1", false⟩] rfl
      (fun c hc => by
        simp only [List.mem_cons, List.mem_singleton, List.not_mem_nil, or_false] at hc
        rcases hc with h | h <;> subst h <;>
          exact ⟨fun _ => rfl, fun _ => rfl, fun _ => rfl, fun _ => rfl⟩)
      (by decide)⟩

/-! ## Like-key fan-out -/

/-- C8, failing input. Device `S1` has the like key `like-1` active. A poll of
key `k1` finds the new track "A" and resolves it as saved, so the fan-out runs;
the key id `S1-like-1` is split into `S1`, `like`, `1`, no key is stored under
`like`, and the like key keeps its old fields and is not redrawn. With the UID
`like1` the same poll refreshes and redraws the like key. -/
theorem like_key_with_dash_not_refreshed :
    (updateNowPlayingKey demoHost (demoPoll (fetchedA true none) 1000) "S1" "k1" false
        (demoWorldWithLike "like-1")).2.playback.trackId = JsId.str "A" ∧
      (updateNowPlayingKey demoHost (demoPoll (fetchedA true none) 1000) "S1" "k1" false
        (demoWorldWithLike "like-1")).2.playback.isLiked = some true ∧
      (updateNowPlayingKey demoHost (demoPoll (fetchedA true none) 1000) "S1" "k1" false
        (demoWorldWithLike "like-1")).2.likeFields "like-1" = some (JsId.undefined, none) ∧
      likeRedraws (updateNowPlayingKey demoHost (demoPoll (fetchedA true none) 1000) "S1" "k1"
        false (demoWorldWithLike "like-1")).1 = [] ∧
      (updateNowPlayingKey demoHost (demoPoll (fetchedA true none) 1000) "S1" "k1" false
        (demoWorldWithLike "like1")).2.likeFields "like1" = some (JsId.str "A", some true) ∧
      likeRedraws (updateNowPlayingKey demoHost (demoPoll (fetchedA true none) 1000) "S1" "k1"
        false (demoWorldWithLike "like1")).1 = [("S1", "like1")] := by
  decide

/-! ## Network calls of a render pass -/

theorem networkCalls_append (a b : List Event) :
    networkCalls (a ++ b) = networkCalls a + networkCalls b := by
  simp [networkCalls, List.filter_append]

theorem loadAlbumArt_events (loadOk : Nat → Bool) (url : String) (remaining attempt : Nat) :
    ∀ e ∈ (loadAlbumArt loadOk url remaining attempt).1,
      e = Event.loadImage url ∨ e = Event.delay RETRY_DELAY_MS := by
  induction remaining generalizing attempt with
  | zero => intro e he; simp [loadAlbumArt] at he
  | succ n ih =>
    intro e he
    by_cases h1 : loadOk attempt = true
    · simp only [loadAlbumArt, if_pos h1, List.mem_singleton] at he
      exact Or.inl he
    · by_cases h2 : attempt = MAX_RETRIES
      · simp only [loadAlbumArt, if_neg h1, if_pos h2, List.nil_append, List.singleton_append,
          List.mem_cons] at he
        rcases he with he | he
        · exact Or.inl he
        · exact ih _ e he
      · simp only [loadAlbumArt, if_neg h1, if_neg h2, List.singleton_append, List.mem_cons,
          List.cons_append] at he
        rcases he with he | he | he
        · exact Or.inl he
        · exact Or.inr he
        · exact ih _ e he

theorem networkCalls_loadAlbumArt_le (loadOk : Nat → Bool) (url : String)
    (remaining attempt : Nat) :
    networkCalls (loadAlbumArt loadOk url remaining attempt).1 ≤ remaining := by
  induction remaining generalizing attempt with
  | zero => simp [loadAlbumArt, networkCalls]
  | succ n ih =>
    have := ih (attempt + 1)
    unfold loadAlbumArt
    unfold networkCalls at this ⊢
    split_ifs <;> simp [List.filter_cons, Event.isNetwork] <;> omega

theorem networkCalls_loadAlbumArt_pos (loadOk : Nat → Bool) (url : String)
    (remaining attempt : Nat) :
    1 ≤ networkCalls (loadAlbumArt loadOk url (remaining + 1) attempt).1 := by
  unfold loadAlbumArt networkCalls
  split_ifs <;> simp [List.filter_cons, Event.isNetwork]

/-- The calls made while an image is produced: `loadImage` of the configured
album-art URL and the retry delay, nothing else; at most `MAX_RETRIES` loads,
at least one when the URL is non-empty and none when there is no URL. -/
theorem createSpotifyButtonDataUrl_events (loadOk : Nat → Bool) (config : CanvasConfig) :
    (∀ e ∈ (createSpotifyButtonDataUrl loadOk config).1,
        (∃ url, e = Event.loadImage url ∧ url ≠ "" ∧ config.albumArtUrl = some url) ∨
          e = Event.delay RETRY_DELAY_MS) ∧
      networkCalls (createSpotifyButtonDataUrl loadOk config).1 ≤ MAX_RETRIES ∧
      (∀ url, config.albumArtUrl = some url → url ≠ "" →
        1 ≤ networkCalls (createSpotifyButtonDataUrl loadOk config).1) ∧
      ((config.albumArtUrl = none ∨ config.albumArtUrl = some "") →
        (createSpotifyButtonDataUrl loadOk config).1 = []) := by
  unfold createSpotifyButtonDataUrl createModernNowPlayingCanvas
  cases hc : config.albumArtUrl with
  | none => simp [networkCalls]
  | some url =>
    by_cases hu : url = ""
    · simp [hu, networkCalls]
    · simp only [hu, if_false]
      refine ⟨?_, networkCalls_loadAlbumArt_le _ _ _ _, ?_, ?_⟩
      · intro e he
        rcases loadAlbumArt_events _ _ _ _ e he with h | h
        · exact Or.inl ⟨url, h, hu, rfl⟩
        · exact Or.inr h
      · intro url' h' _
        exact networkCalls_loadAlbumArt_pos _ _ 1 1
      · intro h
        rcases h with h | h
        · cases h
        · exact absurd (Option.some.inj h) hu

theorem renderInterpolatedNowPlaying_without_data (host : Host) (env : RenderEnv)
    (sn uid : String) (w : World) (h : w.snapshot uid = none) :
    (renderInterpolatedNowPlaying host env sn uid w).1 = [Event.cleanupKey sn uid] := by
  unfold renderInterpolatedNowPlaying
  cases hk : w.keyData uid with
  | none => rfl
  | some k =>
    cases hd : k.data with
    | none => simp only [hd]; rfl
    | some d => simp [World.snapshot, hk, hd] at h

/-- The network calls of a render pass of a key that has data are among those
made while the image is produced. -/
theorem renderInterpolatedNowPlaying_network (host : Host) (env : RenderEnv)
    (sn uid : String) (w : World) (key : Key) (d : KeyData)
    (hk : w.keyData uid = some key) (hd : key.data = some d) :
    networkCalls (renderInterpolatedNowPlaying host env sn uid w).1 ≤
        networkCalls (createSpotifyButtonDataUrl env.loadOk
          (renderConfig host key d w.playback.isPlaying
            (estimatedProgress w.playback.isPlaying d.progressAtLastUpdate d.lastApiUpdateTime
              d.durationMs env.now))).1 ∧
      ∀ e ∈ (renderInterpolatedNowPlaying host env sn uid w).1, e.isNetwork = true →
        e ∈ (createSpotifyButtonDataUrl env.loadOk
          (renderConfig host key d w.playback.isPlaying
            (estimatedProgress w.playback.isPlaying d.progressAtLastUpdate d.lastApiUpdateTime
              d.durationMs env.now))).1 := by
  unfold renderInterpolatedNowPlaying
  simp only [hk, hd]
  split_ifs
  · refine ⟨by simp [networkCalls, List.filter_cons, Event.isNetwork], ?_⟩
    intro e he hnet
    simp only [List.mem_cons, List.mem_singleton, List.not_mem_nil, or_false] at he
    rcases he with he | he <;> subst he <;> simp [Event.isNetwork] at hnet
  all_goals
    refine ⟨by simp [networkCalls, List.filter_cons, List.filter_append, Event.isNetwork], ?_⟩
    intro e he hnet
    simp only [List.cons_append, List.mem_cons, List.mem_append, List.mem_singleton,
      List.not_mem_nil, or_false] at he
    rcases he with he | he | he
    · subst he; simp [Event.isNetwork] at hnet
    · exact he
    · first
        | (subst he; simp [Event.isNetwork] at hnet)
        | (rcases he with he | he <;> subst he <;> simp [Event.isNetwork] at hnet)

/-- The calls of a render pass in the module as loaded, for a key that has
data: the call through `renderer`, which throws, and the error text. -/
theorem renderInterpolatedNowPlaying_asLoaded (host : Host) (env : RenderEnv)
    (sn uid : String) (w : World) (key : Key) (d : KeyData)
    (hk : w.keyData uid = some key) (hd : key.data = some d) :
    renderInterpolatedNowPlaying host env.asLoaded sn uid w =
      ([Event.createSpotifyButtonDataUrl (renderConfig host key d w.playback.isPlaying
          (estimatedProgress w.playback.isPlaying d.progressAtLastUpdate d.lastApiUpdateTime
            d.durationMs env.now)),
        Event.textOnlyDraw sn uid "Error rendering"], w) := by
  unfold renderInterpolatedNowPlaying
  simp only [hk, hd]
  rfl

/-- C9. The render loop never performs network I/O. Whatever the key state,
the stored track having an album-art URL or not, a render pass makes no
playback fetch, no authentication call and no saved-status check; and in the
module as `require` loads it, where the call of line 713 goes through a binding
`renderer` that has no `createSpotifyButtonDataUrl` and throws, the pass
creates no image and so invokes no network collaborator at all, no remote image
load included: for a key that has data its calls are the call through `renderer`
and the draw of the text "Error rendering", and for a key without data the call
of `cleanupKey`. -/
theorem render_pass_no_network (host : Host) (env : RenderEnv) (sn uid : String) (w : World) :
    (∀ e ∈ (renderInterpolatedNowPlaying host env sn uid w).1,
        e ≠ Event.getCurrentPlayback ∧ e ≠ Event.initializeAuthentication ∧
          ∀ trackId, e ≠ Event.checkTracksSaved trackId) ∧
      networkCalls (renderInterpolatedNowPlaying host env.asLoaded sn uid w).1 = 0 ∧
      (∀ e ∈ (renderInterpolatedNowPlaying host env.asLoaded sn uid w).1,
        e.isNetwork = false ∧ ∀ url, e ≠ Event.loadImage url) ∧
      (∀ s, w.snapshot uid = some s →
        ∃ config : CanvasConfig,
          config.albumArtUrl = s.currentTrackDetails.bind (·.albumArtUrl) ∧
          (renderInterpolatedNowPlaying host env.asLoaded sn uid w).1 =
            [Event.createSpotifyButtonDataUrl config,
              Event.textOnlyDraw sn uid "Error rendering"]) ∧
      (w.snapshot uid = none →
        (renderInterpolatedNowPlaying host env.asLoaded sn uid w).1 =
          [Event.cleanupKey sn uid]) := by
  have hall : ∀ e ∈ (renderInterpolatedNowPlaying host env sn uid w).1, e.isNetwork = true →
      ∃ url, e = Event.loadImage url := by
    intro e he hnet
    cases hs : w.snapshot uid with
    | none =>
      rw [renderInterpolatedNowPlaying_without_data host env sn uid w hs] at he
      simp only [List.mem_singleton] at he
      subst he
      simp [Event.isNetwork] at hnet
    | some s =>
      obtain ⟨k, d, hk, hd, hsd⟩ := snapshot_some w uid s hs
      have hin := (renderInterpolatedNowPlaying_network host env sn uid w k d hk hd).2 e he hnet
      rcases (createSpotifyButtonDataUrl_events _ _).1 e hin with ⟨url, h1, _, _⟩ | h
      · exact ⟨url, h1⟩
      · subst h; simp [Event.isNetwork] at hnet
  have hloaded : ∀ e ∈ (renderInterpolatedNowPlaying host env.asLoaded sn uid w).1,
      e.isNetwork = false ∧ ∀ url, e ≠ Event.loadImage url := by
    intro e he
    cases hs : w.snapshot uid with
    | none =>
      rw [renderInterpolatedNowPlaying_without_data host _ sn uid w hs] at he
      simp only [List.mem_singleton] at he
      subst he
      exact ⟨rfl, fun url h => by cases h⟩
    | some s =>
      obtain ⟨k, d, hk, hd, hsd⟩ := snapshot_some w uid s hs
      rw [renderInterpolatedNowPlaying_asLoaded host env sn uid w k d hk hd] at he
      simp only [List.mem_cons, List.mem_singleton, List.not_mem_nil, or_false] at he
      rcases he with he | he <;> subst he <;> exact ⟨rfl, fun url h => by cases h⟩
  refine ⟨?_, ?_, hloaded, ?_, ?_⟩
  · intro e he
    refine ⟨?_, ?_, ?_⟩
    · intro h; subst h
      obtain ⟨_, h⟩ := hall _ he rfl
      cases h
    · intro h; subst h
      obtain ⟨_, h⟩ := hall _ he rfl
      cases h
    · intro t h; subst h
      obtain ⟨_, h⟩ := hall _ he rfl
      cases h
  · unfold networkCalls
    rw [List.length_eq_zero, List.filter_eq_nil_iff]
    intro e he
    rw [(hloaded e he).1]
    decide
  · intro s hs
    obtain ⟨k, d, hk, hd, hsd⟩ := snapshot_some w uid s hs
    refine ⟨_, ?_, congrArg Prod.fst
      (renderInterpolatedNowPlaying_asLoaded host env sn uid w k d hk hd)⟩
    rw [← hsd]
    rfl
  · intro hs
    exact renderInterpolatedNowPlaying_without_data host _ sn uid w hs

/-- C9 on key `k1` holding track "A" with an album-art URL, rendered at clock
4000 in the module as loaded: no network call is made, and the pass ends with
the text "Error rendering". -/
theorem render_pass_no_network_witness :
    networkCalls (renderInterpolatedNowPlaying demoHost (demoRender 4000).asLoaded "S1" "k1"
        (updateNowPlayingKey demoHost
          (demoPoll (fetchedA true (some "https://i.scdn.co/image/a")) 1000) "S1" "k1" true
          demoWorld).2).1 = 0 ∧
      textDraws (renderInterpolatedNowPlaying demoHost (demoRender 4000).asLoaded "S1" "k1"
        (updateNowPlayingKey demoHost
          (demoPoll (fetchedA true (some "https://i.scdn.co/image/a")) 1000) "S1" "k1" true
          demoWorld).2).1 = [("S1", "k1", "Error rendering")] :=
  ⟨(render_pass_no_network demoHost (demoRender 4000) "S1" "k1"
      (updateNowPlayingKey demoHost
        (demoPoll (fetchedA true (some "https://i.scdn.co/image/a")) 1000) "S1" "k1" true
        demoWorld).2).2.1, by decide⟩

/-! ## Progress bar -/

theorem progressRatio_bounds (progress duration : Int) :
    0 ≤ progressRatio progress duration ∧ progressRatio progress duration ≤ 1 := by
  unfold progressRatio
  exact ⟨le_min zero_le_one (le_max_left _ _), min_le_left _ _⟩

/-- C10. Progress-bar fraction: for a duration above 0 (and a canvas width that
is not negative) the fraction used for the bar is `min(1, max(0, progress /
duration))`; it lies in `[0, 1]`, the filled width `width * fraction` lies in
`[0, width]`, and the filled part is drawn, after the track, exactly when that
width is positive. The division is exact. -/
theorem progress_bar_fraction (width height progress duration : Int)
    (hd : 0 < duration) (hw : 0 ≤ width) :
    progressRatio progress duration =
        min 1 (max 0 ((progress : ℚ) / (duration : ℚ))) ∧
      0 ≤ progressRatio progress duration ∧ progressRatio progress duration ≤ 1 ∧
      0 ≤ (width : ℚ) * progressRatio progress duration ∧
      (width : ℚ) * progressRatio progress duration ≤ (width : ℚ) ∧
      drawProgressBar true width height progress duration =
        (if 0 < (width : ℚ) * min 1 (max 0 ((progress : ℚ) / (duration : ℚ))) then
          [⟨0, (height : ℚ) - 4, (width : ℚ), 4⟩,
            ⟨0, (height : ℚ) - 4, (width : ℚ) * min 1 (max 0 ((progress : ℚ) / (duration : ℚ))), 4⟩]
        else [⟨0, (height : ℚ) - 4, (width : ℚ), 4⟩]) := by
  obtain ⟨h0, h1⟩ := progressRatio_bounds progress duration
  have hwq : (0 : ℚ) ≤ (width : ℚ) := by exact_mod_cast hw
  refine ⟨rfl, h0, h1, mul_nonneg hwq h0, ?_, ?_⟩
  · calc (width : ℚ) * progressRatio progress duration ≤ (width : ℚ) * 1 :=
          mul_le_mul_of_nonneg_left h1 hwq
      _ = (width : ℚ) := mul_one _
  · unfold drawProgressBar progressRatio
    simp only [hd, gt_iff_lt, decide_True, Bool.and_self, if_true]

/-- Witness for C10: progress 13000 of 200000 on a canvas 360 wide and 60 high. -/
theorem progress_bar_fraction_witness :
    progressRatio 13000 200000 = min 1 (max 0 (((13000 : Int) : ℚ) / ((200000 : Int) : ℚ))) ∧
      0 ≤ progressRatio 13000 200000 ∧ progressRatio 13000 200000 ≤ 1 ∧
      0 ≤ ((360 : Int) : ℚ) * progressRatio 13000 200000 ∧
      ((360 : Int) : ℚ) * progressRatio 13000 200000 ≤ ((360 : Int) : ℚ) ∧
      drawProgressBar true 360 60 13000 200000 =
        (if 0 < ((360 : Int) : ℚ) * min 1 (max 0 (((13000 : Int) : ℚ) / ((200000 : Int) : ℚ))) then
          [⟨0, ((60 : Int) : ℚ) - 4, ((360 : Int) : ℚ), 4⟩,
            ⟨0, ((60 : Int) : ℚ) - 4,
              ((360 : Int) : ℚ) * min 1 (max 0 (((13000 : Int) : ℚ) / ((200000 : Int) : ℚ))), 4⟩]
        else [⟨0, ((60 : Int) : ℚ) - 4, ((360 : Int) : ℚ), 4⟩]) :=
  progress_bar_fraction 360 60 13000 200000 (by decide) (by decide)

/-! ## The album-art retry loop -/

theorem loadAlbumArt_two_attempts (loadOk : Nat → Bool) (url : String) :
    loadAlbumArt loadOk url MAX_RETRIES 1 =
      if loadOk 1 = true then ([Event.loadImage url], true)
      else if loadOk 2 = true then
        ([Event.loadImage url, Event.delay 500, Event.loadImage url], true)
      else ([Event.loadImage url, Event.delay 500, Event.loadImage url], false) := by
  by_cases h1 : loadOk 1 = true
  · simp [loadAlbumArt, MAX_RETRIES, h1]
  · by_cases h2 : loadOk 2 = true
    · simp [loadAlbumArt, MAX_RETRIES, RETRY_DELAY_MS, h1, h2]
    · simp [loadAlbumArt, MAX_RETRIES, RETRY_DELAY_MS, h1, h2]

/-- C11. Bounded album-art retry: for every sequence of load outcomes and a
non-empty album-art URL, `createModernNowPlayingCanvas` stops after a first
attempt that succeeds; after a failed first attempt it waits 500 ms once and
makes the second and last attempt, with no wait after it; and when both
attempts fail it still returns the image, without album art. It therefore never
loads more than twice and never waits more than once. -/
theorem album_art_retry_bounded (loadOk : Nat → Bool) (config : CanvasConfig) (url : String)
    (hurl : config.albumArtUrl = some url) (hne : url ≠ "") :
    createModernNowPlayingCanvas loadOk config =
        (if loadOk 1 = true then
          ([Event.loadImage url], { config := config, albumArt := true })
        else if loadOk 2 = true then
          ([Event.loadImage url, Event.delay 500, Event.loadImage url],
            { config := config, albumArt := true })
        else
          ([Event.loadImage url, Event.delay 500, Event.loadImage url],
            { config := config, albumArt := false })) ∧
      imageLoads (createModernNowPlayingCanvas loadOk config).1 ≤ 2 ∧
      (createModernNowPlayingCanvas loadOk config).1.getLast? = some (Event.loadImage url) ∧
      ((createModernNowPlayingCanvas loadOk config).2.albumArt = false ↔
        (loadOk 1 = false ∧ loadOk 2 = false)) := by
  have hmain : createModernNowPlayingCanvas loadOk config =
      (if loadOk 1 = true then
        ([Event.loadImage url], { config := config, albumArt := true })
      else if loadOk 2 = true then
        ([Event.loadImage url, Event.delay 500, Event.loadImage url],
          { config := config, albumArt := true })
      else
        ([Event.loadImage url, Event.delay 500, Event.loadImage url],
          { config := config, albumArt := false })) := by
    unfold createModernNowPlayingCanvas
    simp only [hurl, hne, if_false]
    rw [loadAlbumArt_two_attempts]
    split_ifs <;> rfl
  refine ⟨hmain, ?_, ?_, ?_⟩
  · rw [hmain]; split_ifs <;> simp [imageLoads]
  · rw [hmain]; split_ifs <;> simp
  · rw [hmain]
    by_cases h1 : loadOk 1 = true
    · simp [h1]
    · by_cases h2 : loadOk 2 = true
      · simp [h1, h2]
      · simp [h1, h2]

/-- Witness for C11: the first load fails and the second succeeds. -/
theorem album_art_retry_bounded_witness :
    (createModernNowPlayingCanvas (fun attempt => decide (attempt = 2))
        (renderConfig demoHost demoKey
          { demoData with currentTrackDetails := some (trackA (some "https://i.scdn.co/image/a")) }
          true 13000)).1 =
      [Event.loadImage "https://i.scdn.co/image/a", Event.delay 500,
        Event.loadImage "https://i.scdn.co/image/a"] :=
  congrArg Prod.fst (album_art_retry_bounded (fun attempt => decide (attempt = 2))
    (renderConfig demoHost demoKey
      { demoData with currentTrackDetails := some (trackA (some "https://i.scdn.co/image/a")) }
      true 13000)
    "https://i.scdn.co/image/a" (by decide) (by decide)).1

/-! ## A fetch that completes after the key is gone -/

theorem updateGlobalPlaybackState_toKeyManager (env : PollEnv) (f : Fetched) (w : World) :
    (updateGlobalPlaybackState env f w).world.toKeyManager = w.toKeyManager ∨
      (updateGlobalPlaybackState env f w).world.toKeyManager =
        (env.duringCheck (beforeSavedCheck f env.now w)).toKeyManager := by
  have b := (beforeSavedCheck_fields f env.now w).1
  unfold updateGlobalPlaybackState
  dsimp only
  split_ifs
  · exact Or.inr rfl
  · exact Or.inl b
  · exact Or.inl b
  · exact Or.inl b

theorem updateGlobalPlaybackState_events (env : PollEnv) (f : Fetched) (w : World) :
    ∀ e ∈ (updateGlobalPlaybackState env f w).events, ∃ s, e = Event.checkTracksSaved s := by
  unfold updateGlobalPlaybackState
  dsimp only
  split_ifs
  · intro e he
    dsimp only at he
    split at he
    · rename_i s _
      simp only [List.mem_singleton] at he
      exact ⟨s, he⟩
    · simp at he
  · intro e he; simp at he
  · intro e he; simp at he
  · intro e he; simp at he

theorem fetchPlayback_events (env : PollEnv) :
    ∀ e ∈ (fetchPlayback env).1,
      e = Event.initializeAuthentication ∨ e = Event.getCurrentPlayback := by
  unfold fetchPlayback
  rcases env.authenticated with _ | _ <;>
    rcases env.initializeAuthentication with _ | (_ | _) <;>
    rcases env.getCurrentPlayback with _ | _ <;>
    simp

/-- C12. Late fetch is discarded: when a poll started for a stored, active
key and the key's entry in `keyData` is gone once the playback fetch and the
saved-status check have completed, the poll makes no call besides the fetch,
the check and one `keyManager.cleanupKey`: no renderer call, no draw, no like
key redraw. The key-manager state (key data, timers, timer handles) it leaves
is what the other callbacks left during the awaits, passed through
`cleanupKey`: the poll itself writes no key data and starts no timer. -/
theorem late_fetch_discarded (host : Host) (env : PollEnv) (sn uid : String)
    (shouldStartTimers : Bool) (w : World) (key : Key)
    (hk : w.keyData uid = some key) (ha : w.isActiveKey (keyIdOf sn uid) = true)
    (hgone : (updateGlobalPlaybackState env (processFetched (fetchPlayback env).2)
      (env.duringFetch w)).world.keyData uid = none) :
    (updateNowPlayingKey host env sn uid shouldStartTimers w).1 =
        (fetchPlayback env).1 ++
          (updateGlobalPlaybackState env (processFetched (fetchPlayback env).2)
            (env.duringFetch w)).events ++ [Event.cleanupKey sn uid] ∧
      (∀ e ∈ (updateNowPlayingKey host env sn uid shouldStartTimers w).1, e.isDraw = false) ∧
      ((updateNowPlayingKey host env sn uid shouldStartTimers w).2.toKeyManager =
          host.cleanupKey sn uid (env.duringFetch w).toKeyManager ∨
        (updateNowPlayingKey host env sn uid shouldStartTimers w).2.toKeyManager =
          host.cleanupKey sn uid
            (env.duringCheck (beforeSavedCheck (processFetched (fetchPlayback env).2) env.now
              (env.duringFetch w))).toKeyManager) := by
  have hres : updateNowPlayingKey host env sn uid shouldStartTimers w =
      ((fetchPlayback env).1 ++
          (updateGlobalPlaybackState env (processFetched (fetchPlayback env).2)
            (env.duringFetch w)).events ++ [Event.cleanupKey sn uid],
        { (updateGlobalPlaybackState env (processFetched (fetchPlayback env).2)
            (env.duringFetch w)).world with
          toKeyManager := host.cleanupKey sn uid
            (updateGlobalPlaybackState env (processFetched (fetchPlayback env).2)
              (env.duringFetch w)).world.toKeyManager }) := by
    unfold updateNowPlayingKey
    simp only [hk, ha, Bool.not_true, Bool.false_eq_true, if_false]
    unfold updateKeyAndRender
    simp only [hgone, Host.cleanup]
  refine ⟨by rw [hres], ?_, ?_⟩
  · rw [hres]
    intro e he
    simp only [List.mem_append, List.mem_singleton] at he
    rcases he with (he | he) | he
    · rcases fetchPlayback_events env e he with h | h <;> subst h <;> rfl
    · obtain ⟨s, h⟩ := updateGlobalPlaybackState_events env _ _ e he
      subst h; rfl
    · subst he; rfl
  · rw [hres]
    rcases updateGlobalPlaybackState_toKeyManager env (processFetched (fetchPlayback env).2)
      (env.duringFetch w) with h | h
    · exact Or.inl (by simp only [h])
    · exact Or.inr (by simp only [h])

/-- Witness for C12: key `k1` is deactivated and its entry removed while the
playback fetch is awaited; the poll ends with the fetch, the saved-status check
and the clean-up as its only calls. -/
theorem late_fetch_discarded_witness :
    (updateNowPlayingKey demoHost
        { demoPoll (fetchedA true none) 1000 with
          duringFetch := fun w => { w with keyData := fun _ => none, activeKeys := [] } }
        "S1" "k1" true demoWorld).1 =
      [Event.getCurrentPlayback, Event.checkTracksSaved "A", Event.cleanupKey "S1" "k1"] :=
  (late_fetch_discarded demoHost
    { demoPoll (fetchedA true none) 1000 with
      duringFetch := fun w => { w with keyData := fun _ => none, activeKeys := [] } }
    "S1" "k1" true demoWorld demoKey (by decide) (by decide) (by decide)).1

/-! ## The saved-status check -/

theorem savedChecks_append (a b : List Event) :
    savedChecks (a ++ b) = savedChecks a ++ savedChecks b := by
  induction a with
  | nil => rfl
  | cons e rest ih => cases e <;> simp [savedChecks, ih]

theorem savedChecks_eq_nil (es : List Event)
    (h : ∀ e ∈ es, ∀ s, e ≠ Event.checkTracksSaved s) : savedChecks es = [] := by
  induction es with
  | nil => rfl
  | cons e rest ih =>
    have hrest := ih (fun e' he' => h e' (List.mem_cons_of_mem e he'))
    have he := h e (List.mem_cons_self e rest)
    cases e <;> simp_all [savedChecks]

theorem renderInterpolatedNowPlaying_no_check (host : Host) (env : RenderEnv)
    (sn uid : String) (w : World) :
    ∀ e ∈ (renderInterpolatedNowPlaying host env sn uid w).1,
      ∀ s, e ≠ Event.checkTracksSaved s := by
  intro e he s hs
  subst hs
  cases hsnap : w.snapshot uid with
  | none =>
    rw [renderInterpolatedNowPlaying_without_data host env sn uid w hsnap] at he
    simp at he
  | some snap =>
    obtain ⟨k, d, hk, hd, _⟩ := snapshot_some w uid snap hsnap
    have hin := (renderInterpolatedNowPlaying_network host env sn uid w k d hk hd).2 _ he rfl
    rcases (createSpotifyButtonDataUrl_events _ _).1 _ hin with ⟨url, h, _⟩ | h <;> cases h

theorem refreshLikeKey_events (acc : List Event × World) (activeKeyId : String)
    (h : ∀ e ∈ acc.1, ∃ sn k, e = Event.updateLikeKeyDisplay sn k) :
    ∀ e ∈ (refreshLikeKey acc activeKeyId).1, ∃ sn k, e = Event.updateLikeKeyDisplay sn k := by
  unfold refreshLikeKey
  dsimp only
  split
  · exact h
  · split
    · intro e he
      simp only [List.mem_append, List.mem_singleton] at he
      rcases he with he | he
      · exact h e he
      · exact ⟨_, _, he⟩
    · exact h

theorem updateLikeKeys_events (host : Host) (w : World) :
    ∀ e ∈ (updateLikeKeys host w).1, ∃ sn k, e = Event.updateLikeKeyDisplay sn k := by
  unfold updateLikeKeys
  generalize (w.activeKeys.map Prod.fst) = ids
  split_ifs
  swap
  · intro e he; simp at he
  have hgen : ∀ (ids : List String) (acc : List Event × World),
      (∀ e ∈ acc.1, ∃ sn k, e = Event.updateLikeKeyDisplay sn k) →
      ∀ e ∈ (ids.foldl refreshLikeKey acc).1, ∃ sn k, e = Event.updateLikeKeyDisplay sn k := by
    intro ids
    induction ids with
    | nil => intro acc h; exact h
    | cons a rest ih => intro acc h; exact ih _ (refreshLikeKey_events acc a h)
  exact hgen ids ([], w) (fun e he => by simp at he)

theorem updateKeyAndRender_no_check (host : Host) (env : PollEnv) (sn uid : String)
    (b : Bool) (f : Fetched) (changed : Bool) (w : World) :
    savedChecks (updateKeyAndRender host env sn uid b f changed w).1 = [] := by
  apply savedChecks_eq_nil
  intro e he s hs
  subst hs
  unfold updateKeyAndRender at he
  split at he
  · simp [Host.cleanup] at he
  · split at he
    · simp [Host.cleanup] at he
    · dsimp only at he
      split_ifs at he
      all_goals
        first
          | exact renderInterpolatedNowPlaying_no_check _ _ _ _ _ _ he _ rfl
          | (simp only [List.mem_append] at he
             rcases he with he | he
             · exact renderInterpolatedNowPlaying_no_check _ _ _ _ _ _ he _ rfl
             · obtain ⟨_, _, h⟩ := updateLikeKeys_events _ _ _ he
               cases h)

theorem savedChecks_fetchPlayback (env : PollEnv) : savedChecks (fetchPlayback env).1 = [] := by
  apply savedChecks_eq_nil
  intro e he s hs
  rcases fetchPlayback_events env e he with h | h <;> rw [h] at hs <;> cases hs

/-- The saved-status checks of a poll that reaches the fetch are those of the
global update. -/
theorem savedChecks_updateNowPlayingKey (host : Host) (env : PollEnv) (sn uid : String)
    (b : Bool) (w : World) (key : Key) (hk : w.keyData uid = some key)
    (ha : w.isActiveKey (keyIdOf sn uid) = true) :
    savedChecks (updateNowPlayingKey host env sn uid b w).1 =
      savedChecks (updateGlobalPlaybackState env (processFetched (fetchPlayback env).2)
        (env.duringFetch w)).events := by
  unfold updateNowPlayingKey
  simp only [hk, ha, Bool.not_true, Bool.false_eq_true, if_false]
  rw [savedChecks_append, savedChecks_append, savedChecks_fetchPlayback,
    updateKeyAndRender_no_check]
  simp

theorem truthy_str (t : JsId) (h : t.truthy = true) : ∃ s, t = JsId.str s := by
  cases t with
  | undefined => cases h
  | null => cases h
  | str s => exact ⟨s, rfl⟩

theorem needsSavedCheck_beforeSavedCheck (f : Fetched) (now : Int) (w : World) :
    needsSavedCheck f (beforeSavedCheck f now w).playback = needsSavedCheck f w.playback := by
  unfold needsSavedCheck
  rw [(beforeSavedCheck_fields f now w).2.2.2.2.2.2.2]

theorem needsSavedCheck_iff (f : Fetched) (g : PlaybackState) :
    needsSavedCheck f g = true ↔
      (f.isActive = true ∧ f.trackId.truthy = true ∧ f.trackId ≠ g.lastCheckedTrackId) := by
  unfold needsSavedCheck
  simp [and_assoc]

/-- C13, counterexample. After a poll that found track "A" and checked it, a
poll finds a local file playing (an item whose `id` is null): playback is
active, the track changed and the `trackId` differs from `lastCheckedTrackId`,
yet the saved-status collaborator is not called. -/
theorem no_check_for_track_without_id :
    (processFetched (fetchPlayback (demoPoll fetchedLocal 5000)).2).isActive = true ∧
      (processFetched (fetchPlayback (demoPoll fetchedLocal 5000)).2).trackId ≠
        (updateNowPlayingKey demoHost (demoPoll (fetchedA true none) 1000) "S1" "k1" true
          demoWorld).2.playback.trackId ∧
      (processFetched (fetchPlayback (demoPoll fetchedLocal 5000)).2).trackId ≠
        (updateNowPlayingKey demoHost (demoPoll (fetchedA true none) 1000) "S1" "k1" true
          demoWorld).2.playback.lastCheckedTrackId ∧
      savedChecks (updateNowPlayingKey demoHost (demoPoll fetchedLocal 5000) "S1" "k1" false
        (updateNowPlayingKey demoHost (demoPoll (fetchedA true none) 1000) "S1" "k1" true
          demoWorld).2).1 = [] := by
  decide

/-- C13, amended. In one poll that reaches the fetch, with no other poll
running meanwhile, the saved-status collaborator is called exactly once, with
the resolved `trackId`, when playback is active, the resolved `trackId` is
present (a non-empty string), it differs from the previous global `trackId`
(track change) and it differs from `lastCheckedTrackId`; otherwise it is not
called at all. When the call returns a non-empty result, `isLiked` becomes its
first element and `lastCheckedTrackId` becomes the `trackId`. -/
theorem saved_status_check_condition (host : Host) (env : PollEnv) (sn uid : String)
    (shouldStartTimers : Bool) (w : World) (key : Key) (hn : env.NonOverlapping)
    (hk : w.keyData uid = some key) (ha : w.isActiveKey (keyIdOf sn uid) = true) :
    (((processFetched (fetchPlayback env).2).isActive = true ∧
        (processFetched (fetchPlayback env).2).trackId.truthy = true ∧
        (processFetched (fetchPlayback env).2).trackId ≠ w.playback.trackId ∧
        (processFetched (fetchPlayback env).2).trackId ≠ w.playback.lastCheckedTrackId) →
      (∃ s, (processFetched (fetchPlayback env).2).trackId = JsId.str s ∧
        savedChecks (updateNowPlayingKey host env sn uid shouldStartTimers w).1 = [s]) ∧
      (∀ first rest, env.checkTracksSaved = Outcome.returned (some (first :: rest)) →
        (updateNowPlayingKey host env sn uid shouldStartTimers w).2.playback.isLiked
            = some first ∧
          (updateNowPlayingKey host env sn uid shouldStartTimers w).2.playback.lastCheckedTrackId
            = (processFetched (fetchPlayback env).2).trackId)) ∧
    (¬ ((processFetched (fetchPlayback env).2).isActive = true ∧
        (processFetched (fetchPlayback env).2).trackId.truthy = true ∧
        (processFetched (fetchPlayback env).2).trackId ≠ w.playback.trackId ∧
        (processFetched (fetchPlayback env).2).trackId ≠ w.playback.lastCheckedTrackId) →
      savedChecks (updateNowPlayingKey host env sn uid shouldStartTimers w).1 = []) := by
  have hp0 : (env.duringFetch w).playback = w.playback := hn.1 w
  rw [savedChecks_updateNowPlayingKey host env sn uid shouldStartTimers w key hk ha,
    updateNowPlayingKey_playback host env sn uid shouldStartTimers w hn]
  simp only [hk, ha, Option.isSome_some, and_self, if_true]
  generalize processFetched (fetchPlayback env).2 = f
  generalize hw0 : env.duringFetch w = w0 at hp0
  constructor
  · rintro ⟨h1, h2, h3, h4⟩
    have hchg : f.trackId ≠ w0.playback.trackId := by rw [hp0]; exact h3
    have hneed : needsSavedCheck f (beforeSavedCheck f env.now w0).playback = true := by
      rw [needsSavedCheck_beforeSavedCheck, needsSavedCheck_iff, hp0]
      exact ⟨h1, h2, h4⟩
    obtain ⟨s, hs⟩ := truthy_str f.trackId h2
    unfold updateGlobalPlaybackState
    dsimp only
    rw [if_pos hchg, if_pos hneed]
    refine ⟨⟨s, hs, by simp [hs, savedChecks]⟩, ?_⟩
    intro first rest hret
    simp [hret, applySavedStatus]
  · intro hnot
    unfold updateGlobalPlaybackState
    dsimp only
    by_cases hchg : f.trackId ≠ w0.playback.trackId
    · rw [if_pos hchg]
      have hneed : ¬ needsSavedCheck f (beforeSavedCheck f env.now w0).playback = true := by
        rw [needsSavedCheck_beforeSavedCheck, needsSavedCheck_iff, hp0]
        rintro ⟨h1, h2, h4⟩
        exact hnot ⟨h1, h2, by rw [← hp0]; exact hchg, h4⟩
      rw [if_neg hneed]
      split_ifs <;> rfl
    · rw [if_neg hchg]
      rfl

/-- Witness for C13: the first poll of key `k1` finds track "A"; the check is
made once and answers "saved". -/
theorem saved_status_check_condition_witness :
    (∃ s, (processFetched (fetchPlayback (demoPoll (fetchedA true none) 1000)).2).trackId
          = JsId.str s ∧
        savedChecks (updateNowPlayingKey demoHost (demoPoll (fetchedA true none) 1000)
          "S1" "k1" true demoWorld).1 = [s]) ∧
      (∀ first rest, (demoPoll (fetchedA true none) 1000).checkTracksSaved
          = Outcome.returned (some (first :: rest)) →
        (updateNowPlayingKey demoHost (demoPoll (fetchedA true none) 1000) "S1" "k1" true
            demoWorld).2.playback.isLiked = some first ∧
          (updateNowPlayingKey demoHost (demoPoll (fetchedA true none) 1000) "S1" "k1" true
            demoWorld).2.playback.lastCheckedTrackId
            = (processFetched (fetchPlayback (demoPoll (fetchedA true none) 1000)).2).trackId) :=
  (saved_status_check_condition demoHost (demoPoll (fetchedA true none) 1000) "S1" "k1" true
    demoWorld demoKey ⟨fun _ => rfl, fun _ => rfl, fun _ => rfl⟩ (by decide) (by decide)).1
    (by decide)

/-! ## The derived activity flag -/

theorem processFetched_isActive (playbackState : Option Playback) :
    ((processFetched playbackState).isActive = true ↔
        ∃ ps item, playbackState = some ps ∧ ps.item = some item) ∧
      ((processFetched playbackState).isActive = true →
        ∃ ps item, playbackState = some ps ∧ ps.item = some item ∧
          (processFetched playbackState).trackId = item.id) ∧
      ((processFetched playbackState).isActive = false →
        (processFetched playbackState).trackId = JsId.undefined) := by
  cases playbackState with
  | none => simp [processFetched]
  | some ps =>
    cases hi : ps.item with
    | none => simp [processFetched, hi]
    | some item => simp [processFetched, hi]

/-- C14, counterexample. The fetch returns a local file, an item whose `id` is
null: the poll writes `isActive = true` to the global record although the
resolved `trackId` is null. -/
theorem active_without_track_id :
    (updateNowPlayingKey demoHost (demoPoll fetchedLocal 1000) "S1" "k1" true
        demoWorld).2.playback.isActive = true ∧
      (updateNowPlayingKey demoHost (demoPoll fetchedLocal 1000) "S1" "k1" true
        demoWorld).2.playback.trackId = JsId.null := by
  decide

/-- C14, amended. The `isActive` value a poll writes to the global record is
true if and only if the fetched playback state has an item; the `trackId`
written with it is that item's `id`. Hence a present `trackId` implies
`isActive`, and `isActive = false` implies an undefined `trackId`; an item
whose `id` is null or empty gives `isActive = true` without a `trackId`. -/
theorem isActive_iff_item (host : Host) (env : PollEnv) (sn uid : String)
    (shouldStartTimers : Bool) (w : World) (key : Key) (hn : env.NonOverlapping)
    (hk : w.keyData uid = some key) (ha : w.isActiveKey (keyIdOf sn uid) = true) :
    ((updateNowPlayingKey host env sn uid shouldStartTimers w).2.playback.isActive = true ↔
        ∃ ps item, (fetchPlayback env).2 = some ps ∧ ps.item = some item) ∧
      ((updateNowPlayingKey host env sn uid shouldStartTimers w).2.playback.isActive = true →
        ∃ ps item, (fetchPlayback env).2 = some ps ∧ ps.item = some item ∧
          (updateNowPlayingKey host env sn uid shouldStartTimers w).2.playback.trackId
            = item.id) ∧
      ((updateNowPlayingKey host env sn uid shouldStartTimers w).2.playback.trackId.truthy
          = true →
        (updateNowPlayingKey host env sn uid shouldStartTimers w).2.playback.isActive = true) ∧
      ((updateNowPlayingKey host env sn uid shouldStartTimers w).2.playback.isActive = false →
        (updateNowPlayingKey host env sn uid shouldStartTimers w).2.playback.trackId
          = JsId.undefined) := by
  obtain ⟨g1, g2, _⟩ := updateGlobalPlaybackState_fields env
    (processFetched (fetchPlayback env).2) (env.duringFetch w) hn.2.1
  obtain ⟨p1, p2, p3⟩ := processFetched_isActive (fetchPlayback env).2
  rw [updateNowPlayingKey_playback host env sn uid shouldStartTimers w hn]
  simp only [hk, ha, Option.isSome_some, and_self, if_true]
  rw [g1, g2]
  refine ⟨p1, p2, ?_, p3⟩
  intro ht
  cases hact : (processFetched (fetchPlayback env).2).isActive with
  | true => rfl
  | false => rw [p3 hact] at ht; cases ht

/-- Witness for C14: the first poll of key `k1` finds track "A". -/
theorem isActive_iff_item_witness :
    (updateNowPlayingKey demoHost (demoPoll (fetchedA true none) 1000) "S1" "k1" true
        demoWorld).2.playback.isActive = true ↔
      ∃ ps item, (fetchPlayback (demoPoll (fetchedA true none) 1000)).2 = some ps ∧
        ps.item = some item :=
  (isActive_iff_item demoHost (demoPoll (fetchedA true none) 1000) "S1" "k1" true demoWorld
    demoKey ⟨fun _ => rfl, fun _ => rfl, fun _ => rfl⟩ (by decide) (by decide)).1

/-! ## A render pass that fails -/

theorem textDraws_append (a b : List Event) :
    textDraws (a ++ b) = textDraws a ++ textDraws b := by
  induction a with
  | nil => rfl
  | cons e rest ih => cases e <;> simp [textDraws, ih]

theorem textDraws_createSpotifyButtonDataUrl (loadOk : Nat → Bool) (config : CanvasConfig) :
    textDraws (createSpotifyButtonDataUrl loadOk config).1 = [] := by
  have h := (createSpotifyButtonDataUrl_events loadOk config).1
  generalize (createSpotifyButtonDataUrl loadOk config).1 = es at h
  induction es with
  | nil => rfl
  | cons e rest ih =>
    have hrest := ih (fun e' he' => h e' (List.mem_cons_of_mem e he'))
    rcases h e (List.mem_cons_self e rest) with ⟨url, he, _⟩ | he <;>
      subst he <;> simpa [textDraws] using hrest

theorem getLast?_cons_append_one (a x : Event) (l : List Event) :
    (a :: (l ++ [x])).getLast? = some x := by
  rw [← List.cons_append, List.getLast?_concat]

theorem getLast?_cons_append_two (a y x : Event) (l : List Event) :
    (a :: (l ++ [y, x])).getLast? = some x := by
  have h : a :: (l ++ [y, x]) = (a :: (l ++ [y])) ++ [x] := by simp
  rw [h, List.getLast?_concat]

/-- C15. Render failure falls back to error text: for a key that has data, if
producing the image (`createSpotifyButtonDataUrl`) or drawing it (`simpleDraw`)
throws, the render pass ends with one `textOnlyDraw` of "Error rendering" on
that key and returns, leaving the state to the callbacks that ran meanwhile;
when neither throws it ends with the image draw and draws no text. (The host's
`textOnlyDraw` itself is taken not to throw.) -/
theorem render_failure_falls_back (host : Host) (env : RenderEnv) (sn uid : String)
    (w : World) (key : Key) (d : KeyData)
    (hk : w.keyData uid = some key) (hd : key.data = some d) :
    ((env.imageThrows = true ∨ env.drawThrows = true) →
        (renderInterpolatedNowPlaying host env sn uid w).1.getLast? =
            some (Event.textOnlyDraw sn uid "Error rendering") ∧
          textDraws (renderInterpolatedNowPlaying host env sn uid w).1 =
            [(sn, uid, "Error rendering")]) ∧
      ((env.imageThrows = false ∧ env.drawThrows = false) →
        textDraws (renderInterpolatedNowPlaying host env sn uid w).1 = [] ∧
          ∃ image, (renderInterpolatedNowPlaying host env sn uid w).1.getLast? =
            some (Event.simpleDraw sn uid image)) ∧
      (renderInterpolatedNowPlaying host env sn uid w).2 = env.during w := by
  refine ⟨?_, ?_, (renderInterpolatedNowPlaying_of_data host env sn uid w key d hk hd).2⟩
  · intro hthrow
    unfold renderInterpolatedNowPlaying
    simp only [hk, hd]
    by_cases hi : env.imageThrows = true
    · rw [if_pos hi]
      exact ⟨rfl, rfl⟩
    · have hdr : env.drawThrows = true := by
        rcases hthrow with h | h
        · exact absurd h hi
        · exact h
      rw [if_neg hi, if_pos hdr]
      exact ⟨getLast?_cons_append_two _ _ _ _, by
        simp [textDraws, textDraws_append, textDraws_createSpotifyButtonDataUrl]⟩
  · rintro ⟨hi, hdr⟩
    unfold renderInterpolatedNowPlaying
    simp only [hk, hd, hi, hdr, Bool.false_eq_true, if_false]
    refine ⟨by simp [textDraws, textDraws_append, textDraws_createSpotifyButtonDataUrl], ?_⟩
    exact ⟨_, getLast?_cons_append_one _ _ _⟩

/-- Witness for C15: key `k1` after a poll, rendered at clock 4000 while the
host's `simpleDraw` throws. -/
theorem render_failure_falls_back_witness :
    textDraws (renderInterpolatedNowPlaying demoHost
        { demoRender 4000 with drawThrows := true } "S1" "k1"
        (updateNowPlayingKey demoHost (demoPoll (fetchedA true none) 1000) "S1" "k1" true
          demoWorld).2).1 = [("S1", "k1", "Error rendering")] :=
  ((render_failure_falls_back demoHost { demoRender 4000 with drawThrows := true } "S1" "k1"
    (updateNowPlayingKey demoHost (demoPoll (fetchedA true none) 1000) "S1" "k1" true demoWorld).2
    { demoKey with data := some { demoData with
        currentTrackDetails := some (trackA none), lastApiUpdateTime := 1000,
        progressAtLastUpdate := 10000, durationMs := 200000,
        interpolationIntervalId := some 2 } }
    { demoData with
        currentTrackDetails := some (trackA none), lastApiUpdateTime := 1000,
        progressAtLastUpdate := 10000, durationMs := 200000,
        interpolationIntervalId := some 2 }
    (by decide) (by decide)).1 (Or.inr rfl)).2

/-! ## Orphaned timer ticks -/

theorem clearInterval_timers (id : Nat) (w : World) :
    ∀ t ∈ (clearInterval id w).timers, t.id ≠ id ∧ t ∈ w.timers := by
  intro t ht
  simp only [clearInterval, List.mem_filter, Bool.not_eq_true', beq_eq_false_iff_ne] at ht
  exact ⟨ht.2, ht.1⟩

/-- An API fetch tick for a key that is no longer active or stored. -/
theorem apiFetchTick_orphan (host : Host) (env : PollEnv) (t : Timer) (w : World)
    (h : keyExists w t.serialNumber t.keyUid = false) :
    (apiFetchTick host env t w).1 = [] ∧
      (∀ t' ∈ (apiFetchTick host env t w).2.timers, t'.id ≠ t.id) ∧
      (apiFetchTick host env t w).2.keyIntervals (keyIdOf t.serialNumber t.keyUid) = none ∧
      (apiFetchTick host env t w).2.storedInterpolationId t.keyUid = none := by
  unfold apiFetchTick
  simp only [h, Bool.not_false, if_true]
  have hk : ((clearInterval t.id w).deleteKeyInterval
      (keyIdOf t.serialNumber t.keyUid)).keyData t.keyUid = w.keyData t.keyUid := rfl
  rw [hk]
  cases hkd : w.keyData t.keyUid with
  | none =>
    refine ⟨rfl, fun t' ht' => (clearInterval_timers t.id w t' ht').1, ?_, ?_⟩
    · simp [World.deleteKeyInterval]
    · simp [World.storedInterpolationId, World.deleteKeyInterval, clearInterval, hkd]
  | some latest =>
    dsimp only
    cases hd : latest.data with
    | none =>
      dsimp only
      refine ⟨rfl, fun t' ht' => (clearInterval_timers t.id w t' ht').1, ?_, ?_⟩
      · simp [World.deleteKeyInterval]
      · simp [World.storedInterpolationId, World.deleteKeyInterval, clearInterval, hkd, hd]
    | some d =>
      dsimp only
      cases hi : d.interpolationIntervalId with
      | none =>
        dsimp only
        refine ⟨rfl, fun t' ht' => (clearInterval_timers t.id w t' ht').1, ?_, ?_⟩
        · simp [World.deleteKeyInterval]
        · simp [World.storedInterpolationId, World.deleteKeyInterval, clearInterval, hkd, hd, hi]
      | some iid =>
        dsimp only
        refine ⟨rfl, ?_, ?_, ?_⟩
        · intro t' ht'
          have h1 := (clearInterval_timers iid _ t' ht').2
          exact (clearInterval_timers t.id w t' h1).1
        · simp [World.deleteKeyInterval, World.setKey, clearInterval]
        · simp [World.storedInterpolationId, World.setKey]

/-- An interpolation tick for a key that is no longer active or stored. -/
theorem interpolationTick_orphan (host : Host) (env : RenderEnv) (t : Timer) (w : World)
    (h : keyExists w t.serialNumber t.keyUid = false) :
    (interpolationTick host env t w).1 = [] ∧
      (∀ t' ∈ (interpolationTick host env t w).2.timers, t'.id ≠ t.id) ∧
      (interpolationTick host env t w).2.storedInterpolationId t.keyUid ≠ some t.id := by
  unfold interpolationTick
  simp only [h, Bool.not_false, if_true]
  have hk : (clearInterval t.id w).keyData t.keyUid = w.keyData t.keyUid := rfl
  rw [hk]
  cases hkd : w.keyData t.keyUid with
  | none =>
    refine ⟨rfl, fun t' ht' => (clearInterval_timers t.id w t' ht').1, ?_⟩
    simp [World.storedInterpolationId, clearInterval, hkd]
  | some latest =>
    dsimp only
    cases hd : latest.data with
    | none =>
      dsimp only
      refine ⟨rfl, fun t' ht' => (clearInterval_timers t.id w t' ht').1, ?_⟩
      simp [World.storedInterpolationId, clearInterval, hkd, hd]
    | some d =>
      dsimp only
      by_cases hi : d.interpolationIntervalId = some t.id
      · rw [if_pos hi]
        refine ⟨rfl, fun t' ht' => (clearInterval_timers t.id w t' ht').1, ?_⟩
        simp [World.storedInterpolationId, World.setKey]
      · rw [if_neg hi]
        refine ⟨rfl, fun t' ht' => (clearInterval_timers t.id w t' ht').1, ?_⟩
        simpa [World.storedInterpolationId, clearInterval, hkd, hd] using hi

/-- C16. Orphaned timer tick cancels itself: when a tick of either timer fires
for a key that is no longer in the active-key set or whose key object is gone,
the tick makes no call at all (no playback fetch, no draw), its own timer is not
live afterwards, and the stored handle is cleared: the API fetch tick deletes
`keyIntervals[keyId]` (and clears a leftover interpolation handle), and after
the interpolation tick the key's data no longer holds this timer's handle. -/
theorem orphaned_tick_cancels_itself (host : Host) (penv : PollEnv) (renv : RenderEnv)
    (t : Timer) (w : World)
    (horphan : w.isActiveKey (keyIdOf t.serialNumber t.keyUid) = false ∨
      w.keyData t.keyUid = none) :
    ((apiFetchTick host penv t w).1 = [] ∧
        (∀ t' ∈ (apiFetchTick host penv t w).2.timers, t'.id ≠ t.id) ∧
        (apiFetchTick host penv t w).2.keyIntervals (keyIdOf t.serialNumber t.keyUid) = none ∧
        (apiFetchTick host penv t w).2.storedInterpolationId t.keyUid = none) ∧
      ((interpolationTick host renv t w).1 = [] ∧
        (∀ t' ∈ (interpolationTick host renv t w).2.timers, t'.id ≠ t.id) ∧
        (interpolationTick host renv t w).2.storedInterpolationId t.keyUid ≠ some t.id) := by
  have h : keyExists w t.serialNumber t.keyUid = false := by
    unfold keyExists
    rcases horphan with h | h
    · simp [h]
    · simp [h]
  exact ⟨apiFetchTick_orphan host penv t w h, interpolationTick_orphan host renv t w h⟩

/-- Witness for C16: key `k1` got its two timers (handles 1 and 2) from its
first poll and was then taken out of the active-key set; the API fetch tick of
timer 1 leaves no call, no live timer with handle 1 and no stored handles. -/
theorem orphaned_tick_cancels_itself_witness :
    (apiFetchTick demoHost (demoPoll (fetchedA true none) 5000)
        ⟨1, TimerKind.apiFetch, "S1", "k1", 4000⟩
        { (updateNowPlayingKey demoHost (demoPoll (fetchedA true none) 1000) "S1" "k1" true
            demoWorld).2 with activeKeys := [] }).1 = [] ∧
      (apiFetchTick demoHost (demoPoll (fetchedA true none) 5000)
        ⟨1, TimerKind.apiFetch, "S1", "k1", 4000⟩
        { (updateNowPlayingKey demoHost (demoPoll (fetchedA true none) 1000) "S1" "k1" true
            demoWorld).2 with activeKeys := [] }).2.timers = [] :=
  ⟨(orphaned_tick_cancels_itself demoHost (demoPoll (fetchedA true none) 5000) (demoRender 5000)
      ⟨1, TimerKind.apiFetch, "S1", "k1", 4000⟩
      { (updateNowPlayingKey demoHost (demoPoll (fetchedA true none) 1000) "S1" "k1" true
          demoWorld).2 with activeKeys := [] }
      (Or.inl (by decide))).1.1, by decide⟩

/-! ## Configuration defaults -/

theorem settings_setKey_ne (w : World) (u uid : String) (k : Key) (h : uid ≠ u) :
    (w.setKey u k).settings uid = w.settings uid := by
  simp [World.settings, World.setKey, h]

theorem settings_setKey_eq (w : World) (u : String) (k : Key) :
    (w.setKey u k).settings u = k.data.map KeyData.settings := by
  simp [World.settings, World.setKey]

theorem storedInterpolationId_setKey_ne (w : World) (u uid : String) (k : Key) (h : uid ≠ u) :
    (w.setKey u k).storedInterpolationId uid = w.storedInterpolationId uid := by
  simp [World.storedInterpolationId, World.setKey, h]

theorem refreshLikeKey_settings (acc : List Event × World) (activeKeyId uid : String)
    (s : Settings) (h : acc.2.settings uid = some s) :
    (refreshLikeKey acc activeKeyId).2.settings uid = some s := by
  unfold refreshLikeKey
  dsimp only
  generalize ((splitDash activeKeyId).get? 1).getD "undefined" = lk
  split
  · exact h
  · rename_i likeKey hk
    split
    · by_cases hu : uid = lk
      · subst hu
        rw [settings_setKey_eq]
        simp only [World.settings, hk] at h
        cases hd : likeKey.data with
        | none => simp [hd] at h
        | some d =>
          simp only [hd, Option.map_some', Option.some.injEq] at h
          simp [KeyData.settings, ← h]
      · rw [settings_setKey_ne _ _ _ _ hu]
        exact h
    · exact h

theorem refreshLikeKey_timers (acc : List Event × World) (activeKeyId uid : String) :
    (refreshLikeKey acc activeKeyId).2.timers = acc.2.timers ∧
      (refreshLikeKey acc activeKeyId).2.keyIntervals = acc.2.keyIntervals ∧
      (refreshLikeKey acc activeKeyId).2.storedInterpolationId uid =
        acc.2.storedInterpolationId uid := by
  unfold refreshLikeKey
  dsimp only
  generalize ((splitDash activeKeyId).get? 1).getD "undefined" = lk
  split
  · exact ⟨rfl, rfl, rfl⟩
  · rename_i likeKey hk
    split
    · refine ⟨rfl, rfl, ?_⟩
      by_cases hu : uid = lk
      · subst hu
        cases hd : likeKey.data <;>
          simp [World.storedInterpolationId, World.setKey, hk, hd, emptyKeyData]
      · rw [storedInterpolationId_setKey_ne _ _ _ _ hu]
    · exact ⟨rfl, rfl, rfl⟩

theorem updateLikeKeys_settings (host : Host) (w : World) (uid : String) (s : Settings)
    (h : w.settings uid = some s) : (updateLikeKeys host w).2.settings uid = some s :=
  updateLikeKeys_preserves (fun w' => w'.settings uid = some s)
    (fun acc a h => refreshLikeKey_settings acc a uid s h) host w h

theorem updateLikeKeys_timersRunning (host : Host) (w : World) (sn uid : String) (p q : Int)
    (h : w.TimersRunning sn uid p q) : (updateLikeKeys host w).2.TimersRunning sn uid p q := by
  refine updateLikeKeys_preserves (fun w' => w'.TimersRunning sn uid p q) ?_ host w h
  intro acc a h
  obtain ⟨h1, h2, h3⟩ := refreshLikeKey_timers acc a uid
  obtain ⟨apiId, uiId, t1, t2, t3, t4⟩ := h
  exact ⟨apiId, uiId, by rw [h2]; exact t1, by rw [h1]; exact t2, by rw [h3]; exact t3,
    by rw [h1]; exact t4⟩

theorem startOrRestartNowPlayingUpdates_settings (sn uid uid' : String) (w : World) :
    (startOrRestartNowPlayingUpdates sn uid w).settings uid' = w.settings uid' := by
  unfold startOrRestartNowPlayingUpdates
  dsimp only
  split
  · rfl
  · rename_i key hk
    split
    · rfl
    · rename_i d hd
      by_cases hu : uid' = uid
      · subst hu
        rw [settings_setKey_eq]
        simp [World.settings, hk, hd, KeyData.settings]
      · rw [settings_setKey_ne _ _ _ _ hu]
        cases w.keyIntervals (keyIdOf sn uid) <;> cases d.interpolationIntervalId <;> rfl

theorem startOrRestartNowPlayingUpdates_timersRunning (sn uid : String) (w : World)
    (key : Key) (d : KeyData) (hk : w.keyData uid = some key) (hd : key.data = some d) :
    (startOrRestartNowPlayingUpdates sn uid w).TimersRunning sn uid d.updateInterval
      d.interpolationIntervalMs := by
  unfold startOrRestartNowPlayingUpdates World.TimersRunning
  simp only [hk, hd]
  cases w.keyIntervals (keyIdOf sn uid) <;> cases d.interpolationIntervalId <;>
    simp [setInterval, clearInterval, World.setKey, World.storedInterpolationId]


theorem updateKeyAndRender_started (host : Host) (env : PollEnv) (sn uid : String)
    (f : Fetched) (changed : Bool) (w : World) (key : Key) (d : KeyData)
    (hr : ∀ w, env.render.during w = w)
    (hk : w.keyData uid = some key) (hu : key.uid = uid) (hd : key.data = some d) :
    (updateKeyAndRender host env sn uid true f changed w).2.settings uid = some d.settings ∧
      (updateKeyAndRender host env sn uid true f changed w).2.TimersRunning sn uid
        d.updateInterval d.interpolationIntervalMs := by
  subst hu
  unfold updateKeyAndRender
  simp only [hk, hd, if_true]
  generalize hw1 : w.setKey key.uid { key with data := some (writeKeyData f env.now d) } = w1
  have k1 : w1.keyData key.uid = some { key with data := some (writeKeyData f env.now d) } := by
    rw [← hw1]; simp [World.setKey]
  have s2 : (startOrRestartNowPlayingUpdates sn key.uid w1).settings key.uid =
      some d.settings := by
    rw [startOrRestartNowPlayingUpdates_settings, ← hw1, settings_setKey_eq]; rfl
  have t2 := startOrRestartNowPlayingUpdates_timersRunning sn key.uid w1 _ _ k1 rfl
  generalize startOrRestartNowPlayingUpdates sn key.uid w1 = w2 at s2 t2
  have hsome : ∃ key2 d2, w2.keyData key.uid = some key2 ∧ key2.data = some d2 := by
    unfold World.settings at s2
    cases hk2 : w2.keyData key.uid with
    | none => simp [hk2] at s2
    | some key2 =>
      cases hd2 : key2.data with
      | none => simp [hk2, hd2] at s2
      | some d2 => exact ⟨key2, d2, rfl, hd2⟩
  obtain ⟨key2, d2, hk2, hd2⟩ := hsome
  have r2 := (renderInterpolatedNowPlaying_of_data host env.render sn key.uid w2 key2 d2 hk2 hd2).2
  rw [hr] at r2
  split_ifs
  · simp only [r2]
    exact ⟨updateLikeKeys_settings host w2 key.uid _ s2,
      updateLikeKeys_timersRunning host w2 sn key.uid _ _ t2⟩
  · rw [r2]
    exact ⟨s2, t2⟩

/-- A first poll that runs on its own, for an active key that has data and is
stored under its own UID, keeps the settings of the key and leaves its two
timers running at the cadences of those settings. -/
theorem updateNowPlayingKey_started (host : Host) (env : PollEnv) (sn uid : String)
    (w : World) (key : Key) (d : KeyData) (hq : env.Quiet)
    (hk : w.keyData uid = some key) (hu : key.uid = uid) (hd : key.data = some d)
    (ha : w.isActiveKey (keyIdOf sn uid) = true) :
    (updateNowPlayingKey host env sn uid true w).2.settings uid = some d.settings ∧
      (updateNowPlayingKey host env sn uid true w).2.TimersRunning sn uid
        d.updateInterval d.interpolationIntervalMs := by
  obtain ⟨q1, q2, q3⟩ := hq
  unfold updateNowPlayingKey
  simp only [hk, ha, q1, Bool.not_true, Bool.false_eq_true, if_false]
  have hkm := updateGlobalPlaybackState_quiet env (processFetched (fetchPlayback env).2) w q2
  have hk' : (updateGlobalPlaybackState env (processFetched (fetchPlayback env).2) w).world.keyData uid
      = some key := by
    show (updateGlobalPlaybackState env _ w).world.toKeyManager.keyData uid = some key
    rw [hkm]; exact hk
  exact updateKeyAndRender_started host env sn uid _ _ _ key d q3 hk' hu hd

theorem initializeNowPlayingKey_state (host : Host) (env : InitEnv) (sn : String)
    (key : IncomingKey) (w : World) :
    (initializeNowPlayingKey host env sn key w).2 =
      (updateNowPlayingKey host env.poll sn key.uid true
        (env.during (w.setKey key.uid
          { uid := key.uid, cid := key.cid, width := key.width,
            data := some (initialKeyData key.data) }))).2 := by
  rfl

/-- C17. Configuration defaults. `initializeNowPlayingKey` stores the key
under its UID, with the data object of lines 752-771, before it awaits
anything; the rest of the initialisation (the first poll) runs on that state,
and the loading image is requested with the values of that object. In that
object every omitted field has its default (poll cadence 4000 ms, render cadence
1000 ms, the toggles true, `titleFontSize` 18, `artistFontSize` 14,
`timeFontSize` 10), a key with no configuration at all gets all of them, and a
toggle that is provided, `false` included, is kept as given. When nothing else
runs during the initialisation and the key is active, the key still holds these
settings when `initializeNowPlayingKey` returns, and its two timers are running
at the stored poll and render cadences. -/
theorem configuration_defaults (host : Host) (env : InitEnv) (sn : String)
    (key : IncomingKey) (w : World) :
    ((initializeNowPlayingKey host env sn key w).2 =
        (updateNowPlayingKey host env.poll sn key.uid true
          (env.during (w.setKey key.uid
            { uid := key.uid, cid := key.cid, width := key.width,
              data := some (initialKeyData key.data) }))).2 ∧
      (initializeNowPlayingKey host env sn key w).1.head? =
        some (Event.createSpotifyButtonDataUrl
          (loadingConfig key (initialKeyData key.data)))) ∧
      (env.Quiet → w.isActiveKey (keyIdOf sn key.uid) = true →
        (initializeNowPlayingKey host env sn key w).2.settings key.uid =
            some (initialKeyData key.data).settings ∧
          (initializeNowPlayingKey host env sn key w).2.TimersRunning sn key.uid
            (initialKeyData key.data).updateInterval
            (initialKeyData key.data).interpolationIntervalMs) ∧
      (key.data.bind (·.updateInterval) = none →
        (initialKeyData key.data).updateInterval = 4000) ∧
      (key.data.bind (·.interpolationIntervalMs) = none →
        (initialKeyData key.data).interpolationIntervalMs = 1000) ∧
      (key.data.bind (·.showTitle) = none → (initialKeyData key.data).showTitle = true) ∧
      (key.data.bind (·.showProgress) = none → (initialKeyData key.data).showProgress = true) ∧
      (key.data.bind (·.showPlayPause) = none →
        (initialKeyData key.data).showPlayPause = true) ∧
      (key.data.bind (·.showTimeInfo) = none → (initialKeyData key.data).showTimeInfo = true) ∧
      (key.data.bind (·.showArtist) = none → (initialKeyData key.data).showArtist = true) ∧
      (key.data.bind (·.titleFontSize) = none →
        (initialKeyData key.data).titleFontSize = 18) ∧
      (key.data.bind (·.artistFontSize) = none →
        (initialKeyData key.data).artistFontSize = 14) ∧
      (key.data.bind (·.timeFontSize) = none →
        (initialKeyData key.data).timeFontSize = some 10) ∧
      (∀ b, key.data.bind (·.showTitle) = some b → (initialKeyData key.data).showTitle = b) ∧
      (∀ b, key.data.bind (·.showProgress) = some b →
        (initialKeyData key.data).showProgress = b) ∧
      (∀ b, key.data.bind (·.showPlayPause) = some b →
        (initialKeyData key.data).showPlayPause = b) ∧
      (∀ b, key.data.bind (·.showTimeInfo) = some b →
        (initialKeyData key.data).showTimeInfo = b) ∧
      (∀ b, key.data.bind (·.showArtist) = some b →
        (initialKeyData key.data).showArtist = b) := by
  refine ⟨⟨rfl, ?_⟩, ?_, ?_, ?_, ?_, ?_, ?_, ?_, ?_, ?_, ?_, ?_, ?_, ?_, ?_, ?_, ?_⟩
  · unfold initializeNowPlayingKey
    dsimp only
    split_ifs <;> simp
  · intro hq ha
    rw [initializeNowPlayingKey_state, hq.1]
    exact updateNowPlayingKey_started host env.poll sn key.uid _
      ⟨key.uid, key.cid, key.width, some (initialKeyData key.data)⟩ (initialKeyData key.data)
      hq.2 (by simp [World.setKey]) rfl rfl ha
  · intro h; simp [initialKeyData, h, jsOrInt]
  · intro h; simp [initialKeyData, h, jsOrInt]
  · intro h; simp [initialKeyData, h]
  · intro h; simp [initialKeyData, h]
  · intro h; simp [initialKeyData, h]
  · intro h; simp [initialKeyData, h]
  · intro h; simp [initialKeyData, h]
  · intro h; simp [initialKeyData, h, jsOrInt]
  · intro h; simp [initialKeyData, h, jsOrInt]
  · intro h; simp [initialKeyData, h]
  · intro b h; simp [initialKeyData, h]
  · intro b h; simp [initialKeyData, h]
  · intro b h; simp [initialKeyData, h]
  · intro b h; simp [initialKeyData, h]
  · intro b h; simp [initialKeyData, h]

/-- Witness for C17: key `k1` is initialised on device `S1` with a
configuration that only sets `showProgress` to false. After the initialisation
it holds the defaults and `showProgress` false, and its timers run every 4000
and every 1000 ms. -/
theorem configuration_defaults_witness :
    (initializeNowPlayingKey demoHost (demoInit 1000) "S1" demoIncomingKey demoWorld).2.settings
          "k1" =
        some ⟨4000, 1000, true, false, true, true, true, 18, 14, some 10⟩ ∧
      (initializeNowPlayingKey demoHost (demoInit 1000) "S1" demoIncomingKey
        demoWorld).2.TimersRunning "S1" "k1" 4000 1000 :=
  (configuration_defaults demoHost (demoInit 1000) "S1" demoIncomingKey demoWorld).2.1
    ⟨fun _ => rfl, fun _ => rfl, fun _ => rfl, fun _ => rfl⟩ (by decide)

/-! ## The logging wrapper -/

theorem loggerWrapper_call_eq (method : LogMethod) (toUpperCase : String → String)
    (current : String) (args : List String) :
    loggerWrapper.call method toUpperCase current args =
      if getCurrentNumericLogLevel toUpperCase current ≥ method.level then
        [⟨LogSink.flexbar method, PLUGIN_PREFIX :: args⟩]
      else [] := by
  cases method <;> rfl

theorem lookup_LOG_LEVELS_none (name : String) (h1 : name ≠ "OFF") (h2 : name ≠ "ERROR")
    (h3 : name ≠ "WARN") (h4 : name ≠ "INFO") (h5 : name ≠ "DEBUG") :
    LOG_LEVELS.lookup name = none := by
  have b1 : (name == "OFF") = false := by simpa using h1
  have b2 : (name == "ERROR") = false := by simpa using h2
  have b3 : (name == "WARN") = false := by simpa using h3
  have b4 : (name == "INFO") = false := by simpa using h4
  have b5 : (name == "DEBUG") = false := by simpa using h5
  simp [LOG_LEVELS, List.lookup, b1, b2, b3, b4, b5]

theorem getCurrentNumericLogLevel_of_lookup (toUpperCase : String → String) (current : String)
    (level : Nat) (h : LOG_LEVELS.lookup (toUpperCase current) = some level) :
    getCurrentNumericLogLevel toUpperCase current = level := by
  unfold getCurrentNumericLogLevel
  dsimp only
  rw [h]

theorem getCurrentNumericLogLevel_eq_zero_iff (toUpperCase : String → String)
    (current : String) :
    getCurrentNumericLogLevel toUpperCase current = 0 ↔ toUpperCase current = "OFF" := by
  constructor
  · intro h
    by_contra h1
    by_cases h2 : toUpperCase current = "ERROR"
    · rw [getCurrentNumericLogLevel_of_lookup toUpperCase current 1 (by rw [h2]; rfl)] at h
      omega
    by_cases h3 : toUpperCase current = "WARN"
    · rw [getCurrentNumericLogLevel_of_lookup toUpperCase current 2 (by rw [h3]; rfl)] at h
      omega
    by_cases h4 : toUpperCase current = "INFO"
    · rw [getCurrentNumericLogLevel_of_lookup toUpperCase current 3 (by rw [h4]; rfl)] at h
      omega
    by_cases h5 : toUpperCase current = "DEBUG"
    · rw [getCurrentNumericLogLevel_of_lookup toUpperCase current 4 (by rw [h5]; rfl)] at h
      omega
    unfold getCurrentNumericLogLevel at h
    dsimp only at h
    rw [lookup_LOG_LEVELS_none _ h1 h2 h3 h4 h5] at h
    exact absurd h (by decide)
  · intro h
    exact getCurrentNumericLogLevel_of_lookup toUpperCase current 0 (by rw [h]; rfl)

/-- C18. Log-level gating: with the levels OFF=0, ERROR=1, WARN=2, INFO=3,
DEBUG=4, the current numeric level is the table entry of the upper-cased
current level name (0 for OFF, 1 for ERROR, 2 for WARN, 3 for INFO, 4 for
DEBUG, and INFO's 3 for a name outside the table). Each wrapper method compares
it with its own entry of the table: a call is forwarded to the same method of the
host logger, with the "[SpotifyPlugin]" prefix followed by the arguments in
order, if and only if the current numeric level is at least that entry;
otherwise nothing is forwarded. So under a level name with table entry `level`
the method `m` forwards exactly when `level` is at least the entry of `m`. In
particular `error` is forwarded exactly when the level is not OFF, and at OFF
no wrapper method forwards anything. -/
theorem log_level_gating (toUpperCase : String → String) (current : String)
    (args : List String) :
    LOG_LEVELS = [("OFF", 0), ("ERROR", 1), ("WARN", 2), ("INFO", 3), ("DEBUG", 4)] ∧
      (LOG_LEVELS.lookup "ERROR" = some LogMethod.error.level ∧
        LOG_LEVELS.lookup "WARN" = some LogMethod.warn.level ∧
        LOG_LEVELS.lookup "INFO" = some LogMethod.info.level ∧
        LOG_LEVELS.lookup "DEBUG" = some LogMethod.debug.level) ∧
      ((toUpperCase current = "OFF" → getCurrentNumericLogLevel toUpperCase current = 0) ∧
        (toUpperCase current = "ERROR" → getCurrentNumericLogLevel toUpperCase current = 1) ∧
        (toUpperCase current = "WARN" → getCurrentNumericLogLevel toUpperCase current = 2) ∧
        (toUpperCase current = "INFO" → getCurrentNumericLogLevel toUpperCase current = 3) ∧
        (toUpperCase current = "DEBUG" → getCurrentNumericLogLevel toUpperCase current = 4) ∧
        (LOG_LEVELS.lookup (toUpperCase current) = none →
          getCurrentNumericLogLevel toUpperCase current = 3)) ∧
      (∀ method : LogMethod,
        (getCurrentNumericLogLevel toUpperCase current ≥ method.level →
          loggerWrapper.call method toUpperCase current args =
            [⟨LogSink.flexbar method, "[SpotifyPlugin]" :: args⟩]) ∧
        (¬ getCurrentNumericLogLevel toUpperCase current ≥ method.level →
          loggerWrapper.call method toUpperCase current args = [])) ∧
      (∀ (method : LogMethod) (level : Nat),
        LOG_LEVELS.lookup (toUpperCase current) = some level →
          (level ≥ method.level →
            loggerWrapper.call method toUpperCase current args =
              [⟨LogSink.flexbar method, "[SpotifyPlugin]" :: args⟩]) ∧
          (¬ level ≥ method.level →
            loggerWrapper.call method toUpperCase current args = [])) ∧
      (loggerWrapper.error toUpperCase current args ≠ [] ↔ toUpperCase current ≠ "OFF") ∧
      (toUpperCase current = "OFF" →
        ∀ method : LogMethod, loggerWrapper.call method toUpperCase current args = []) := by
  refine ⟨rfl, ⟨rfl, rfl, rfl, rfl⟩, ⟨?_, ?_, ?_, ?_, ?_, ?_⟩, ?_, ?_, ?_, ?_⟩
  · intro h
    exact getCurrentNumericLogLevel_of_lookup toUpperCase current 0 (by rw [h]; rfl)
  · intro h
    exact getCurrentNumericLogLevel_of_lookup toUpperCase current 1 (by rw [h]; rfl)
  · intro h
    exact getCurrentNumericLogLevel_of_lookup toUpperCase current 2 (by rw [h]; rfl)
  · intro h
    exact getCurrentNumericLogLevel_of_lookup toUpperCase current 3 (by rw [h]; rfl)
  · intro h
    exact getCurrentNumericLogLevel_of_lookup toUpperCase current 4 (by rw [h]; rfl)
  · intro h
    unfold getCurrentNumericLogLevel
    dsimp only
    rw [h]
  · intro method
    rw [loggerWrapper_call_eq]
    constructor
    · intro h; rw [if_pos h]; rfl
    · intro h; rw [if_neg h]
  · intro method level hl
    rw [loggerWrapper_call_eq, getCurrentNumericLogLevel_of_lookup toUpperCase current level hl]
    constructor
    · intro h; rw [if_pos h]; rfl
    · intro h; rw [if_neg h]
  · have hz := getCurrentNumericLogLevel_eq_zero_iff toUpperCase current
    unfold loggerWrapper.error
    by_cases h : getCurrentNumericLogLevel toUpperCase current ≥ 1
    · rw [if_pos h]
      simp only [ne_eq, List.cons_ne_nil, not_false_eq_true, true_iff]
      intro hoff
      have h0 := hz.mpr hoff
      omega
    · rw [if_neg h]
      simp only [ne_eq, not_true_eq_false, false_iff, not_not]
      exact hz.mp (by omega)
  · intro h method
    rw [loggerWrapper_call_eq, if_neg]
    rw [(getCurrentNumericLogLevel_eq_zero_iff toUpperCase current).mpr h]
    cases method <;> decide

/-- C18 at the level "warn" stored in lower case: `error` and `warn` are
forwarded with the prefix, `info` and `debug` are not; at "off" `error` is not
forwarded either. -/
theorem log_level_gating_witness :
    getCurrentNumericLogLevel asciiUpperCase "warn" = 2 ∧
      loggerWrapper.call LogMethod.error asciiUpperCase "warn" ["a", "b"] =
        [⟨LogSink.flexbar LogMethod.error, ["[SpotifyPlugin]", "a", "b"]⟩] ∧
      loggerWrapper.call LogMethod.warn asciiUpperCase "warn" ["a", "b"] =
        [⟨LogSink.flexbar LogMethod.warn, ["[SpotifyPlugin]", "a", "b"]⟩] ∧
      loggerWrapper.call LogMethod.info asciiUpperCase "warn" ["a", "b"] = [] ∧
      loggerWrapper.call LogMethod.debug asciiUpperCase "warn" ["a", "b"] = [] ∧
      loggerWrapper.call LogMethod.error asciiUpperCase "off" ["a", "b"] = [] :=
  ⟨(log_level_gating asciiUpperCase "warn" ["a", "b"]).2.2.1.2.2.1 (by decide),
    ((log_level_gating asciiUpperCase "warn" ["a", "b"]).2.2.2.2.1 LogMethod.error 2
      (by decide)).1 (by decide),
    ((log_level_gating asciiUpperCase "warn" ["a", "b"]).2.2.2.2.1 LogMethod.warn 2
      (by decide)).1 (by decide),
    ((log_level_gating asciiUpperCase "warn" ["a", "b"]).2.2.2.2.1 LogMethod.info 2
      (by decide)).2 (by decide),
    ((log_level_gating asciiUpperCase "warn" ["a", "b"]).2.2.2.2.1 LogMethod.debug 2
      (by decide)).2 (by decide),
    (log_level_gating asciiUpperCase "off" ["a", "b"]).2.2.2.2.2.2 (by decide) LogMethod.error⟩

/-- C19. Config-driven level with INFO fallback: whatever the previous level,
after `updateLogLevelFromConfig` the level is the upper-cased `config.logLevel`
when that is a string whose upper-casing is one of the five level names, and is
"INFO" when the configuration is missing or its `logLevel` is absent, not a
string or not a level name; when reading the configuration throws, the level is
the previous one. -/
theorem config_level_with_fallback (toUpperCase : String → String) (previous : String)
    (getConfig : Outcome (Option PluginConfig)) :
    (∀ s, getConfig = Outcome.returned (some ⟨JsValue.str s⟩) →
        hasLogLevel (toUpperCase s) = true →
        (updateLogLevelFromConfig toUpperCase getConfig previous).2 = toUpperCase s) ∧
      (∀ config, getConfig = Outcome.returned config →
        (¬ ∃ s, config = some ⟨JsValue.str s⟩ ∧ hasLogLevel (toUpperCase s) = true) →
        (updateLogLevelFromConfig toUpperCase getConfig previous).2 = "INFO") ∧
      (getConfig = Outcome.threw →
        (updateLogLevelFromConfig toUpperCase getConfig previous).2 = previous) := by
  have hrevert : ∀ config, (revertToDefaultLevel toUpperCase config).2 = "INFO" := by
    intro config
    unfold revertToDefaultLevel
    dsimp only
    split
    · split_ifs <;> rfl
    · rfl
  refine ⟨?_, ?_, ?_⟩
  · intro s hg hs
    subst hg
    simp [updateLogLevelFromConfig, hs]
  · intro config hg hnot
    subst hg
    unfold updateLogLevelFromConfig
    dsimp only
    split
    · rename_i s
      by_cases hs : hasLogLevel (toUpperCase s) = true
      · exact absurd ⟨s, rfl, hs⟩ hnot
      · rw [if_neg hs]
        exact hrevert _
    · exact hrevert _
  · intro hg
    subst hg
    rfl

/-- Witness for C19: the level was set to "OFF" and the configuration says
"debug". -/
theorem config_level_with_fallback_witness :
    (updateLogLevelFromConfig asciiUpperCase (Outcome.returned (some ⟨JsValue.str "debug"⟩))
      "OFF").2 = "DEBUG" :=
  (config_level_with_fallback asciiUpperCase "OFF"
    (Outcome.returned (some ⟨JsValue.str "debug"⟩))).1 "debug" rfl (by decide)

/-- C20. Explicit level setting: `setLogLevel` makes the upper-cased argument
the current level when the argument is a string whose upper-casing is one of
the five level names, and leaves the level as it is for every other argument
(another string, or a value that is not a string); when the named level is
already current, nothing changes and nothing is logged. -/
theorem explicit_level_setting (toUpperCase : String → String) (current : String)
    (levelName : JsValue) :
    (∀ s, levelName = JsValue.str s → hasLogLevel (toUpperCase s) = true →
        (setLogLevel toUpperCase levelName current).2 = toUpperCase s) ∧
      ((¬ ∃ s, levelName = JsValue.str s ∧ hasLogLevel (toUpperCase s) = true) →
        (setLogLevel toUpperCase levelName current).2 = current) ∧
      (∀ s, levelName = JsValue.str s → hasLogLevel (toUpperCase s) = true →
        toUpperCase s = current →
        setLogLevel toUpperCase levelName current = ([], current)) := by
  refine ⟨?_, ?_, ?_⟩
  · intro s hl hs
    subst hl
    unfold setLogLevel
    simp only [hs, if_true]
    by_cases hsame : toUpperCase s = current
    · simp [hsame]
    · simp only [ne_eq, hsame, not_false_eq_true, if_true]
      split_ifs <;> rfl
  · intro hnot
    unfold setLogLevel
    cases levelName with
    | undefined => dsimp only; split_ifs <;> rfl
    | other shown => dsimp only; split_ifs <;> rfl
    | str s =>
      have hs : ¬ hasLogLevel (toUpperCase s) = true := fun h => hnot ⟨s, rfl, h⟩
      dsimp only
      rw [if_neg hs]
      split_ifs <;> rfl
  · intro s hl hs hsame
    subst hl
    unfold setLogLevel
    dsimp only
    rw [if_pos hs, if_neg (not_not.mpr hsame)]

/-- Witness for C20: from "INFO", the argument "warn" sets the level "WARN". -/
theorem explicit_level_setting_witness :
    (setLogLevel asciiUpperCase (JsValue.str "warn") "INFO").2 = "WARN" :=
  (explicit_level_setting asciiUpperCase "INFO" (JsValue.str "warn")).1 "warn" rfl (by decide)

/-! ## The time text -/

theorem clampTimeFontSize_bounds (parsed : Option Int) :
    8 ≤ clampTimeFontSize parsed ∧ clampTimeFontSize parsed ≤ 24 := by
  unfold clampTimeFontSize
  omega

/-- C21. Time font size is clamped: for every configured `timeFontSize` (a
number, kept as it is, or a string, parsed as a base-10 integer) the font size
used for the time text is `max(8, min(24, v))` for the parsed value `v`, and 10
when the parsed value is 0, missing or not a number. It always lies in
`[8, 24]` and equals the parsed value whenever that lies in `[8, 24]`. The value
stored by `initializeNowPlayingKey` leads to the same font size. -/
theorem time_font_size_clamped (timeFontSize : Option FontSizeInput) :
    (∀ n, timeFontSize = some (FontSizeInput.num n) →
        parsedTimeFontSize timeFontSize = some n) ∧
      (∀ s, timeFontSize = some (FontSizeInput.str s) →
        parsedTimeFontSize timeFontSize = parseInt s) ∧
      (∀ v, parsedTimeFontSize timeFontSize = some v → v ≠ 0 →
        finalTimeFontSize timeFontSize = max 8 (min 24 v)) ∧
      ((parsedTimeFontSize timeFontSize = some 0 ∨ timeFontSize = none ∨
          parsedTimeFontSize timeFontSize = none) →
        finalTimeFontSize timeFontSize = 10) ∧
      (8 ≤ finalTimeFontSize timeFontSize ∧ finalTimeFontSize timeFontSize ≤ 24) ∧
      (∀ v, parsedTimeFontSize timeFontSize = some v → 8 ≤ v → v ≤ 24 →
        finalTimeFontSize timeFontSize = v) ∧
      (∀ config : Option KeyConfig, config.bind (·.timeFontSize) = timeFontSize →
        clampTimeFontSize (initialKeyData config).timeFontSize =
          finalTimeFontSize timeFontSize) := by
  refine ⟨?_, ?_, ?_, ?_, clampTimeFontSize_bounds _, ?_, ?_⟩
  · intro n h; subst h; rfl
  · intro s h; subst h; rfl
  · intro v h hv
    unfold finalTimeFontSize clampTimeFontSize
    rw [h]
    simp [jsOrInt, hv]
  · intro h
    unfold finalTimeFontSize clampTimeFontSize
    rcases h with h | h | h
    · rw [h]; rfl
    · subst h; rfl
    · rw [h]; rfl
  · intro v h h8 h24
    unfold finalTimeFontSize clampTimeFontSize
    rw [h]
    have hv : v ≠ 0 := by omega
    simp only [jsOrInt, hv, if_false]
    omega
  · intro config h
    subst h
    unfold finalTimeFontSize parsedTimeFontSize initialKeyData
    dsimp only
    generalize config.bind (fun x => x.timeFontSize) = t
    cases t with
    | none => rfl
    | some v => cases v <;> rfl

/-- Witness for C21: the string "30" is parsed to 30 and clamped to 24; the
number 12 is used as it is. -/
theorem time_font_size_clamped_witness :
    finalTimeFontSize (some (FontSizeInput.str "30")) = max 8 (min 24 30) ∧
      finalTimeFontSize (some (FontSizeInput.num 12)) = 12 :=
  ⟨(time_font_size_clamped (some (FontSizeInput.str "30"))).2.2.1 30 (by decide) (by decide),
    (time_font_size_clamped (some (FontSizeInput.num 12))).2.2.2.2.2.1 12 rfl (by decide)
      (by decide)⟩

/-- C22. Time text sits above the progress bar: for every canvas height and
every configured `timeFontSize`, the bottom baseline `y` of the time text,
`height - max(6, fontSize / 3)` with the clamped font size, satisfies
`height - 8 ≤ y ≤ height - 6`; this is strictly above `height - 4`, the top of
every rectangle of the 4-pixel progress bar. -/
theorem time_text_above_progress_bar (height : Int) (timeFontSize : Option FontSizeInput) :
    (height : ℚ) - 8 ≤ timeY height (finalTimeFontSize timeFontSize) ∧
      timeY height (finalTimeFontSize timeFontSize) ≤ (height : ℚ) - 6 ∧
      timeY height (finalTimeFontSize timeFontSize) < (height : ℚ) - 4 ∧
      (∀ (showProgress : Bool) (width progress duration : Int),
        ∀ r ∈ drawProgressBar showProgress width height progress duration,
          r.y = (height : ℚ) - 4 ∧ r.height = 4 ∧
            timeY height (finalTimeFontSize timeFontSize) < r.y) := by
  obtain ⟨h8, h24⟩ := clampTimeFontSize_bounds (parsedTimeFontSize timeFontSize)
  have h8q : (8 : ℚ) ≤ ((finalTimeFontSize timeFontSize : Int) : ℚ) := by
    exact_mod_cast h8
  have h24q : ((finalTimeFontSize timeFontSize : Int) : ℚ) ≤ 24 := by
    exact_mod_cast h24
  have hlo : (6 : ℚ) ≤ max 6 (((finalTimeFontSize timeFontSize : Int) : ℚ) / 3) :=
    le_max_left _ _
  have hhi : max 6 (((finalTimeFontSize timeFontSize : Int) : ℚ) / 3) ≤ 8 := by
    apply max_le
    · norm_num
    · linarith
  have hlt : timeY height (finalTimeFontSize timeFontSize) < (height : ℚ) - 4 := by
    unfold timeY; linarith
  refine ⟨by unfold timeY; linarith, by unfold timeY; linarith, hlt, ?_⟩
  intro showProgress width progress duration r hr
  unfold drawProgressBar at hr
  dsimp only at hr
  have hy : r.y = (height : ℚ) - 4 ∧ r.height = 4 := by
    by_cases h1 : (showProgress && decide (duration > 0)) = true
    · rw [if_pos h1] at hr
      by_cases h2 : (width : ℚ) * progressRatio progress duration > 0
      · rw [if_pos h2] at hr
        simp only [List.mem_cons, List.mem_singleton, List.not_mem_nil, or_false] at hr
        rcases hr with h | h <;> subst h <;> exact ⟨rfl, rfl⟩
      · rw [if_neg h2] at hr
        simp only [List.mem_singleton] at hr
        subst hr; exact ⟨rfl, rfl⟩
    · rw [if_neg h1] at hr
      simp at hr
  exact ⟨hy.1, hy.2, by rw [hy.1]; exact hlt⟩

/-! ## Time formatting -/

theorem padStart2_toString (n : Nat) (h : n < 60) : padStart2 (toString n) = twoDigits n := by
  have hall : ∀ m < 60, padStart2 (toString m) = twoDigits m := by decide
  exact hall n h

theorem toString_natCast (n : Nat) : toString ((n : Nat) : Int) = toString n := rfl

theorem formatTime_natCast (ms : Nat) (h : ms ≠ 0) :
    formatTime (ms : Int) =
      toString (ms / 60000) ++ ":" ++ padStart2 (toString (ms / 1000 % 60)) := by
  have hms : (ms : Int) ≠ 0 := by exact_mod_cast h
  have hsec : (ms : Int) / 1000 = ((ms / 1000 : Nat) : Int) := by norm_cast
  have hmin : ((ms / 1000 : Nat) : Int) / 60 = ((ms / 60000 : Nat) : Int) := by
    rw [show ms / 60000 = ms / 1000 / 60 by rw [Nat.div_div_eq_div_mul]]
    norm_cast
  have hrem : Int.tmod ((ms / 1000 : Nat) : Int) 60 = ((ms / 1000 % 60 : Nat) : Int) :=
    (Int.ofNat_tmod (ms / 1000) 60).symm
  unfold formatTime
  rw [if_neg hms]
  dsimp only
  rw [hsec, hmin, hrem, toString_natCast, toString_natCast]

/-- C23. Time formatting: for every non-negative integer number of
milliseconds `ms`, `formatTime(ms)` is the decimal `floor(ms / 60000)`, a colon,
then `floor(ms / 1000) mod 60` written with exactly two digits. The seconds
part is below 60, minutes do not roll over into hours (3600000 gives "60:00"),
and the special-cased "0:00" for 0 is what the general formula gives. -/
theorem formatTime_minutes_seconds (ms : Nat) :
    formatTime (ms : Int) = toString (ms / 60000) ++ ":" ++ twoDigits (ms / 1000 % 60) ∧
      ms / 1000 % 60 < 60 ∧
      (twoDigits (ms / 1000 % 60)).length = 2 ∧
      formatTime 3600000 = "60:00" ∧
      formatTime 0 = "0:00" ∧
      toString (0 / 60000) ++ ":" ++ twoDigits (0 / 1000 % 60) = "0:00" := by
  have hlt : ms / 1000 % 60 < 60 := Nat.mod_lt _ (by decide)
  refine ⟨?_, hlt, rfl, by decide, by decide, by decide⟩
  by_cases h : ms = 0
  · subst h; decide
  · rw [formatTime_natCast ms h, padStart2_toString _ hlt]

/-! ## The stored level name -/

theorem hasLogLevel_iff (name : String) : hasLogLevel name = true ↔ IsLevelName name := by
  unfold hasLogLevel IsLevelName LOG_LEVELS
  by_cases h1 : name = "OFF"
  · subst h1; simp [List.lookup]
  by_cases h2 : name = "ERROR"
  · subst h2; simp [List.lookup]
  by_cases h3 : name = "WARN"
  · subst h3; simp [List.lookup]
  by_cases h4 : name = "INFO"
  · subst h4; simp [List.lookup]
  by_cases h5 : name = "DEBUG"
  · subst h5; simp [List.lookup]
  have b1 : (name == "OFF") = false := by simpa using h1
  have b2 : (name == "ERROR") = false := by simpa using h2
  have b3 : (name == "WARN") = false := by simpa using h3
  have b4 : (name == "INFO") = false := by simpa using h4
  have b5 : (name == "DEBUG") = false := by simpa using h5
  simp [List.lookup, b1, b2, b3, b4, b5, h1, h2, h3, h4, h5]

theorem isLevelName_setLogLevel (toUpperCase : String → String) (levelName : JsValue)
    (current : String) (h : IsLevelName current) :
    IsLevelName (setLogLevel toUpperCase levelName current).2 := by
  unfold setLogLevel
  cases levelName with
  | undefined => dsimp only; split_ifs <;> exact h
  | other shown => dsimp only; split_ifs <;> exact h
  | str s =>
    dsimp only
    by_cases hs : hasLogLevel (toUpperCase s) = true
    · rw [if_pos hs]
      have hn := (hasLogLevel_iff _).mp hs
      split_ifs
      · exact hn
      · exact hn
      · exact hn
      · exact h
    · rw [if_neg hs]
      split_ifs <;> exact h

theorem isLevelName_updateLogLevelFromConfig (toUpperCase : String → String)
    (getConfig : Outcome (Option PluginConfig)) (current : String) (h : IsLevelName current) :
    IsLevelName (updateLogLevelFromConfig toUpperCase getConfig current).2 := by
  have hinfo : IsLevelName "INFO" := Or.inr (Or.inr (Or.inr (Or.inl rfl)))
  have hrevert : ∀ config, (revertToDefaultLevel toUpperCase config).2 = "INFO" := by
    intro config
    unfold revertToDefaultLevel
    dsimp only
    split
    · split_ifs <;> rfl
    · rfl
  unfold updateLogLevelFromConfig
  cases getConfig with
  | threw => exact h
  | returned config =>
    dsimp only
    split
    · rename_i s
      by_cases hs : hasLogLevel (toUpperCase s) = true
      · rw [if_pos hs]
        exact (hasLogLevel_iff _).mp hs
      · rw [if_neg hs, hrevert]
        exact hinfo
    · rw [hrevert]
      exact hinfo

theorem isLevelName_runLogger (toUpperCase : String → String) (calls : List LoggerCall)
    (current : String) (h : IsLevelName current) :
    IsLevelName (runLogger toUpperCase current calls) := by
  induction calls generalizing current with
  | nil => exact h
  | cons c rest ih =>
    apply ih
    cases c with
    | explicitSet levelName => exact isLevelName_setLogLevel toUpperCase levelName current h
    | fromConfig getConfig =>
      exact isLevelName_updateLogLevelFromConfig toUpperCase getConfig current h

/-- C24. Log-level name invariant: starting from the initial name "INFO", after
any run of `setLogLevel` and `updateLogLevelFromConfig` calls, with any
arguments, configurations and failed configuration reads, the stored level name
is one of "OFF", "ERROR", "WARN", "INFO", "DEBUG". Since upper-casing leaves
these five names as they are, `getCurrentNumericLogLevel` then finds the name
in `LOG_LEVELS` and never takes its default-to-INFO branch. -/
theorem level_name_invariant (toUpperCase : String → String) (calls : List LoggerCall) :
    (runLogger toUpperCase currentConfiguredLogLevelName calls = "OFF" ∨
        runLogger toUpperCase currentConfiguredLogLevelName calls = "ERROR" ∨
        runLogger toUpperCase currentConfiguredLogLevelName calls = "WARN" ∨
        runLogger toUpperCase currentConfiguredLogLevelName calls = "INFO" ∨
        runLogger toUpperCase currentConfiguredLogLevelName calls = "DEBUG") ∧
      ((∀ name, IsLevelName name → toUpperCase name = name) →
        LOG_LEVELS.lookup
            (toUpperCase (runLogger toUpperCase currentConfiguredLogLevelName calls)) =
          some (getCurrentNumericLogLevel toUpperCase
            (runLogger toUpperCase currentConfiguredLogLevelName calls))) := by
  have hinv : IsLevelName (runLogger toUpperCase currentConfiguredLogLevelName calls) :=
    isLevelName_runLogger toUpperCase calls _ (Or.inr (Or.inr (Or.inr (Or.inl rfl))))
  refine ⟨hinv, ?_⟩
  intro hup
  rw [hup _ hinv]
  have hhas := (hasLogLevel_iff _).mpr hinv
  unfold getCurrentNumericLogLevel
  dsimp only
  rw [hup _ hinv]
  unfold hasLogLevel at hhas
  cases hl : LOG_LEVELS.lookup (runLogger toUpperCase currentConfiguredLogLevelName calls) with
  | none => rw [hl] at hhas; cases hhas
  | some level => rfl

/-- Witness for C24: the level is set to "debug", an invalid name is requested,
the configuration read fails, and then the configuration names "off"; the
stored name is "OFF" and is found in the table with value 0. -/
theorem level_name_invariant_witness :
    runLogger asciiUpperCase currentConfiguredLogLevelName
        [LoggerCall.explicitSet (JsValue.str "debug"),
          LoggerCall.explicitSet (JsValue.str "verbose"),
          LoggerCall.fromConfig Outcome.threw,
          LoggerCall.fromConfig (Outcome.returned (some ⟨JsValue.str "off"⟩))] = "OFF" ∧
      LOG_LEVELS.lookup (asciiUpperCase (runLogger asciiUpperCase currentConfiguredLogLevelName
        [LoggerCall.explicitSet (JsValue.str "debug"),
          LoggerCall.explicitSet (JsValue.str "verbose"),
          LoggerCall.fromConfig Outcome.threw,
          LoggerCall.fromConfig (Outcome.returned (some ⟨JsValue.str "off"⟩))])) =
        some (getCurrentNumericLogLevel asciiUpperCase
          (runLogger asciiUpperCase currentConfiguredLogLevelName
            [LoggerCall.explicitSet (JsValue.str "debug"),
              LoggerCall.explicitSet (JsValue.str "verbose"),
              LoggerCall.fromConfig Outcome.threw,
              LoggerCall.fromConfig (Outcome.returned (some ⟨JsValue.str "off"⟩))])) :=
  ⟨by decide,
    (level_name_invariant asciiUpperCase
      [LoggerCall.explicitSet (JsValue.str "debug"),
        LoggerCall.explicitSet (JsValue.str "verbose"),
        LoggerCall.fromConfig Outcome.threw,
        LoggerCall.fromConfig (Outcome.returned (some ⟨JsValue.str "off"⟩))]).2
      (fun name h => by
        rcases h with h | h | h | h | h <;> subst h <;> decide)⟩

end FlexBarSpotify
